import Mathlib

/-!
BFEngine graphics core: embedding and verified properties.

Shallow embedding of the rendering-batch core of BFEngine
(`src/bfe-graphics/core/graphics.h`) and of its backend objects
(`render_target.cpp`, `texture.cpp`, `shader_program.cpp`).

Conventions of the embedding:

* the value of a finite C++ `double` is a rational number (`ℚ`).  The
  resolution helpers are embedded twice.  `getResMPX`, `getResMPY`,
  `getResPMX`, `getResPMY` give the quotient of the formula without rounding
  (`fdiv`, `none` for a zero divisor); they serve where all values are
  represented without error and for the question which divisors are zero.
  `getResMPX64`, `getResMPY64`, `getResPMX64`, `getResPMY64` compute as the
  code does, in binary64 with rounding to nearest after each operation (section
  Binary64 arithmetic); what the helpers return under rounding is stated on
  these;
* `unsigned short`, `std::uint16_t`, `std::uint32_t` and `GLuint` values are
  natural numbers, `int` values are integers; an integer division by zero has
  no result (`none`);
* a pointer is an optional address, `none` being `nullptr`;
* `std::vector` and `std::stack` are lists (the head of the list is the top of
  the stack), `std::unordered_map` is a list of entries with unique keys.
-/

namespace bfe

/-! ## Constants (graphics.h, lines 68-98) -/

/-- Default x-resolution. -/
def GRAPHICS_WIDTH_DEFAULT : Nat := 800

/-- Default y-resolution. -/
def GRAPHICS_HEIGHT_DEFAULT : Nat := 600

/-- Size of VBOs/VAOs/IBOs to keep all data. -/
def GRAPHICS_SIZE_OF_INDEX_BUFFER : Nat := 10000

/-- Default resolution, pixel per meter. -/
def GRAPHICS_PX_PER_METER : ℚ := 2

/-- Default right plane: `double(GRAPHICS_WIDTH_DEFAULT)*0.5/GRAPHICS_PX_PER_METER`. -/
def GRAPHICS_RIGHT_DEFAULT : ℚ :=
  (GRAPHICS_WIDTH_DEFAULT : ℚ) * (1 / 2) / GRAPHICS_PX_PER_METER

/-- Default left plane: `-GRAPHICS_RIGHT_DEFAULT`. -/
def GRAPHICS_LEFT_DEFAULT : ℚ := -GRAPHICS_RIGHT_DEFAULT

/-- Default top plane: `double(GRAPHICS_HEIGHT_DEFAULT)*0.5/GRAPHICS_PX_PER_METER`. -/
def GRAPHICS_TOP_DEFAULT : ℚ :=
  (GRAPHICS_HEIGHT_DEFAULT : ℚ) * (1 / 2) / GRAPHICS_PX_PER_METER

/-- Default bottom plane: `-GRAPHICS_TOP_DEFAULT`. -/
def GRAPHICS_BOTTOM_DEFAULT : ℚ := -GRAPHICS_TOP_DEFAULT

/-- Default min depth (the literal `0.1`). -/
def GRAPHICS_NEAR_DEFAULT : ℚ := 1 / 10

/-- Default max depth. -/
def GRAPHICS_FAR_DEFAULT : ℚ := 1000

/-- Default drawing depth. -/
def GRAPHICS_DEPTH_DEFAULT : ℚ := -15

/-- Maximum segment size of circles. -/
def GRAPHICS_CIRCLE_SEG_MAX : ℚ := 200

/-- Minimum segment size of circles. -/
def GRAPHICS_CIRCLE_SEG_MIN : ℚ := 3

/-- Indicates a forced render batch call, ignoring stack. -/
def GRAPHICS_RENDER_BATCH_CALL_FORCED : Bool := true

/-- Indicates a normal render batch call. -/
def GRAPHICS_RENDER_BATCH_CALL_NORMAL : Bool := false

/-! ## Data model -/

/-- Division of two `double` values.  The quotient is exact; a zero divisor
yields no finite value, which is reported as `none`. -/
def fdiv (a b : ℚ) : Option ℚ :=
  if b = 0 then none else some (a / b)

/-- Structure containing viewport information (`struct ViewPort`), with the
default member initialisers of the header. -/
structure ViewPort where
  leftplane : ℚ := GRAPHICS_LEFT_DEFAULT
  rightplane : ℚ := GRAPHICS_RIGHT_DEFAULT
  topplane : ℚ := GRAPHICS_TOP_DEFAULT
  bottomplane : ℚ := GRAPHICS_BOTTOM_DEFAULT
  nearplane : ℚ := GRAPHICS_NEAR_DEFAULT
  farplane : ℚ := GRAPHICS_FAR_DEFAULT
deriving DecidableEq

/-- Type definition for RGBA colours (`std::array<double, 4>`). -/
structure ColorTypeRGBA where
  r : ℚ
  g : ℚ
  b : ℚ
  a : ℚ
deriving DecidableEq

/-- A `CRenderMode*`: `none` is `nullptr`, `some a` points to the render mode
stored at address `a`. -/
abbrev RenderModePtr := Option Nat

/-- A `WindowHandleType*`. -/
abbrev WindowHandlePtr := Option Nat

/-- Entries of a `std::unordered_map<std::string, V>`.  Iteration order is not
observable through the operations embedded here. -/
structure UnorderedMap (V : Type) where
  entries : List (String × V)
deriving DecidableEq

namespace UnorderedMap

variable {V : Type}

/-- The empty map. -/
def empty : UnorderedMap V := ⟨[]⟩

/-- Search of a key in a list of entries. -/
def findIn : List (String × V) → String → Option V
  | [], _ => none
  | (k, v) :: rest, key => if k = key then some v else findIn rest key

/-- Lookup `find(key)`: the mapped value, or `none` for `end()`. -/
def find (m : UnorderedMap V) (key : String) : Option V :=
  findIn m.entries key

/-- Whether the map has an entry for `key` (`count(key) == 1`). -/
def contains (m : UnorderedMap V) (key : String) : Bool :=
  (m.find key).isSome

/-- The call `insert({key, value})` of `std::unordered_map`: the pair is
inserted only if the map has no element with an equivalent key; otherwise the
map is left as it is. -/
def insert (m : UnorderedMap V) (key : String) (value : V) : UnorderedMap V :=
  match m.find key with
  | some _ => m
  | none => ⟨(key, value) :: m.entries⟩

/-- Number of entries (`size()`). -/
def size (m : UnorderedMap V) : Nat := m.entries.length

/-- The keys of the entries. -/
def keys (m : UnorderedMap V) : List String := m.entries.map Prod.fst

/-- Representation invariant of `std::unordered_map`: keys are unique. -/
def UniqueKeys (m : UnorderedMap V) : Prop := m.keys.Nodup

end UnorderedMap

/-- Type definition of render modes, accessed by name. -/
abbrev RenderModesByNameType := UnorderedMap RenderModePtr

/-- The member variables of `class CGraphics` that the embedded operations
read or write.  Members holding backend handles, matrices and the sine/cosine
caches are left out. -/
structure CGraphics where
  m_pWindow : WindowHandlePtr
  m_ViewPort : ViewPort := {}
  m_bScreenSpace : Bool
  m_uncI : Nat := 0
  m_unIndex : Nat := 0
  m_unIndexMax : Nat := GRAPHICS_SIZE_OF_INDEX_BUFFER
  m_unIndexVerts : Nat := 0
  m_unIndexCol : Nat := 0
  m_unIndexUV0 : Nat := 0
  m_unIndexUV1 : Nat := 0
  m_unIndexLines : Nat := 0
  m_unIndexPoints : Nat := 0
  m_unIndexTriangles : Nat := 0
  m_nLineNrOfVerts : Int := 0
  m_bLineBatchCall : Bool := false
  m_bLineBatchFirst : Bool := true
  m_nDrawCalls : Int
  m_nLines : Int
  m_nPoints : Int
  m_nTriangles : Int
  m_nVerts : Int
  m_aColour : ColorTypeRGBA
  m_vecIndicesLines : List Nat
  m_vecIndicesPoints : List Nat
  m_vecIndicesTriangles : List Nat
  m_vecColours : List ℚ
  m_vecVertices : List ℚ
  m_vecUV0s : List ℚ
  m_vecUV1s : List ℚ
  m_RenderModesByName : RenderModesByNameType
  m_pRenderMode : RenderModePtr
  m_RenderModeStack : List RenderModePtr
  m_fCamAng : ℚ
  m_fCamZoom : ℚ
  m_fDepth : ℚ
  m_unWidthScr : Nat
  m_unHeightScr : Nat
deriving DecidableEq

/-! ## Resolution helpers (graphics.h, lines 369-416) -/

/-- Horizontal resolution in m/pel. -/
def CGraphics.getResMPX (g : CGraphics) : Option ℚ :=
  fdiv (g.m_ViewPort.rightplane - g.m_ViewPort.leftplane)
    (g.m_fCamZoom * (g.m_unWidthScr : ℚ))

/-- Vertical resolution in m/pel. -/
def CGraphics.getResMPY (g : CGraphics) : Option ℚ :=
  fdiv (g.m_ViewPort.topplane - g.m_ViewPort.bottomplane)
    (g.m_fCamZoom * (g.m_unHeightScr : ℚ))

/-- Horizontal resolution in pel/m. -/
def CGraphics.getResPMX (g : CGraphics) : Option ℚ :=
  fdiv (g.m_fCamZoom * (g.m_unWidthScr : ℚ))
    (g.m_ViewPort.rightplane - g.m_ViewPort.leftplane)

/-- Vertical resolution in pel/m. -/
def CGraphics.getResPMY (g : CGraphics) : Option ℚ :=
  fdiv (g.m_fCamZoom * (g.m_unHeightScr : ℚ))
    (g.m_ViewPort.topplane - g.m_ViewPort.bottomplane)

/-- Set the screen width. -/
def CGraphics.setWidthScr (g : CGraphics) (unWidthScr : Nat) : CGraphics :=
  { g with m_unWidthScr := unWidthScr }

/-- Set the screen height. -/
def CGraphics.setHeightScr (g : CGraphics) (unHeightScr : Nat) : CGraphics :=
  { g with m_unHeightScr := unHeightScr }

/-! ## Render mode registry (graphics.h, lines 558-562) -/

/-- Registers a render mode to call by name later using `beginRenderBatch`:
`m_RenderModesByName.insert({_strName, _pRenderMode})`. -/
def CGraphics.registerRenderMode (g : CGraphics) (strName : String)
    (pRenderMode : RenderModePtr) : CGraphics :=
  { g with m_RenderModesByName := g.m_RenderModesByName.insert strName pRenderMode }

/-- A name is registered when the registry has an entry for it. -/
def CGraphics.isRegistered (g : CGraphics) (strName : String) : Bool :=
  g.m_RenderModesByName.contains strName

/-! ## Diagnostics

The logging macros (`ERROR_MSG`, `WARNING_MSG`, `INFO_MSG`, `DEBUG_MSG` and the
wrappers around them) come from log.h, which is not part of the embedded
sources. -/

/-- Severity of a log entry. -/
inductive LogLevelType where
  | debug
  | info
  | warning
  | error
deriving DecidableEq

/-- One entry handed to the logging facade: source, severity and message text
(values streamed into a message are not part of the recorded text). -/
structure LogEntry where
  source : String
  level : LogLevelType
  message : String
deriving DecidableEq

/-- Modelled from the spec: the effect of `ERROR_MSG(source, message)` (log.h is
missing).  Spec 6: the logging facade "receives (domain, severity, message)
triples". -/
def ERROR_MSG (source message : String) : LogEntry := ⟨source, .error, message⟩

/-- Modelled from the spec: the effect of `WARNING_MSG(source, message)`. -/
def WARNING_MSG (source message : String) : LogEntry := ⟨source, .warning, message⟩

/-- Modelled from the spec: the effect of `INFO_MSG(source, message)`. -/
def INFO_MSG (source message : String) : LogEntry := ⟨source, .info, message⟩

/-- Modelled from the spec: the effect of `DEBUG_MSG(source, message)`. -/
def DEBUG_MSG (source message : String) : LogEntry := ⟨source, .debug, message⟩

/-- Whether an entry is an error diagnostic. -/
def LogEntry.isError (e : LogEntry) : Bool := e.level = .error

/-- Whether a list of entries holds an error diagnostic. -/
def hasError (entries : List LogEntry) : Bool := entries.any LogEntry.isError

/-! ## Batch lifecycle

`beginRenderBatch` and `endRenderBatch` are declared in graphics.h (lines
177-181); their bodies are not part of the embedded sources. -/

/-- The part of the graphics state that a render batch works on: active render
mode, render-mode stack, buffer indices and buffers. -/
structure BatchState where
  pRenderMode : RenderModePtr
  renderModeStack : List RenderModePtr
  indices : List Nat
  indexBuffers : List (List Nat)
  vertexBuffers : List (List ℚ)
deriving DecidableEq

/-- Projection of a graphics state to its batch state. -/
def CGraphics.batchState (g : CGraphics) : BatchState :=
  { pRenderMode := g.m_pRenderMode
    renderModeStack := g.m_RenderModeStack
    indices := [g.m_uncI, g.m_unIndex, g.m_unIndexVerts, g.m_unIndexCol, g.m_unIndexUV0,
      g.m_unIndexUV1, g.m_unIndexLines, g.m_unIndexPoints, g.m_unIndexTriangles]
    indexBuffers := [g.m_vecIndicesLines, g.m_vecIndicesPoints, g.m_vecIndicesTriangles]
    vertexBuffers := [g.m_vecColours, g.m_vecVertices, g.m_vecUV0s, g.m_vecUV1s] }

/-- A batch is open when a render mode is active. -/
def CGraphics.batchOpen (g : CGraphics) : Bool := g.m_pRenderMode.isSome

/-- Modelled from the spec: the reset of the per-primitive vertex/index
counters done when a batch begins or has been flushed (body of `CGraphics` in
graphics.cpp, not in the sources).  Spec 2: "counters/buffers reset for the next
batch"; spec 3: buffers "are cleared (not reallocated) at batch end". -/
def CGraphics.resetBatchCounters (g : CGraphics) : CGraphics :=
  { g with
    m_uncI := 0
    m_unIndex := 0
    m_unIndexVerts := 0
    m_unIndexCol := 0
    m_unIndexUV0 := 0
    m_unIndexUV1 := 0
    m_unIndexLines := 0
    m_unIndexPoints := 0
    m_unIndexTriangles := 0 }

/-- Modelled from the spec: `beginRenderBatch(CRenderMode* const, const bool = false)`,
whose body is missing.  Spec 4.3: "if a batch is already open and force is false,
the call is a no-op that assumes the caller intends to continue within the
existing batch (buffer indices are not reset); if force is true, or by name-based
variant is used, the current mode is pushed onto RenderModeStack and the new mode
becomes active, resetting per-primitive vertex/index counters but not clearing
accumulated multi-frame statistics."  A call without force in state Idle takes
the transition Idle to BatchOpen of 4.3: the mode becomes active and nothing is
pushed ("push on forced/nested begin"). -/
def CGraphics.beginRenderBatch (g : CGraphics) (pRenderMode : RenderModePtr)
    (bForce : Bool) : CGraphics :=
  if bForce then
    { g with
      m_RenderModeStack := g.m_pRenderMode :: g.m_RenderModeStack
      m_pRenderMode := pRenderMode }.resetBatchCounters
  else if g.batchOpen then g
  else { g with m_pRenderMode := pRenderMode }.resetBatchCounters

/-- Modelled from the spec: `bool beginRenderBatch(const std::string&)`, whose
body is missing.  Spec 4.3: "looks up the name in RenderModeRegistry; fails
(returns failure indicator) if not registered, otherwise behaves as a forced
begin"; spec 7 (c): "unknown render-mode name: beginRenderBatch/restartRenderBatch
by name return a failure indicator; no batch state change occurs."  The result
is the returned flag and the state after the call. -/
def CGraphics.beginRenderBatchByName (g : CGraphics) (strName : String) :
    Bool × CGraphics :=
  match g.m_RenderModesByName.find strName with
  | none => (false, g)
  | some pRenderMode => (true, g.beginRenderBatch pRenderMode GRAPHICS_RENDER_BATCH_CALL_FORCED)

/-- Number of draw submissions of a flush: one for each of the triangle, line
and point index buffers with a nonzero index count. -/
def CGraphics.nonEmptyKinds (g : CGraphics) : Nat :=
  (if g.m_unIndexTriangles = 0 then 0 else 1) +
    (if g.m_unIndexLines = 0 then 0 else 1) +
    (if g.m_unIndexPoints = 0 then 0 else 1)

/-- Modelled from the spec: the flush at the start of `endRenderBatch`, whose
body is missing.  Spec 4.3: "flushes PrimitiveBuffers to the backend device in a
fixed order — triangles, lines, points — as three separate indexed draw
submissions (only for buffers with nonzero index count), increments the
draw-call counter accordingly"; spec 2: "then counters/buffers reset for the
next batch or frame". -/
def CGraphics.flushBuffers (g : CGraphics) : CGraphics :=
  { g with
    m_nDrawCalls := g.m_nDrawCalls + (g.nonEmptyKinds : Int)
    m_vecIndicesLines := []
    m_vecIndicesPoints := []
    m_vecIndicesTriangles := []
    m_vecColours := []
    m_vecVertices := []
    m_vecUV0s := []
    m_vecUV1s := [] }.resetBatchCounters

/-- Modelled from the spec: `endRenderBatch(const bool = GRAPHICS_RENDER_BATCH_CALL_NORMAL)`,
whose body is missing.  The result is the state after the call and the
diagnostics emitted by the call.  Spec 4.3: it "flushes PrimitiveBuffers to the
backend device", "then either pops the previous mode off the stack and restores
it (forced or stack non-empty) or returns to Idle"; "unbalanced begin/end calls
are a programming error surfaced as a diagnostic, not a thrown fault".  Spec 8:
"an unmatched endRenderBatch does not underflow the stack (no-op or reported
error)"; spec 7 (d): usage-discipline errors are "logged as warnings/errors;
operations degrade to no-ops rather than crashing where possible".  Hence

* a call that finds no batch open and the stack empty is unmatched: it is
  reported and changes nothing (no flush, no pop);
* a forced call that finds a batch open and the stack empty has no previous
  mode to pop: the batch is flushed, the underflow is reported instead of
  popping, and the state is Idle;
* a call without force that finds a batch open and the stack empty ends the
  outermost batch: flush, then Idle.

The text of the diagnostics is not given by the spec. -/
def CGraphics.endRenderBatch (g : CGraphics) (bForce : Bool) : CGraphics × List LogEntry :=
  if !g.batchOpen && g.m_RenderModeStack.isEmpty then
    (g, [ERROR_MSG "Graphics" "endRenderBatch without a matching beginRenderBatch"])
  else
    let flushed := g.flushBuffers
    if bForce || !flushed.m_RenderModeStack.isEmpty then
      match flushed.m_RenderModeStack with
      | previous :: rest =>
        ({ flushed with m_pRenderMode := previous, m_RenderModeStack := rest }, [])
      | [] =>
        ({ flushed with m_pRenderMode := none },
          [ERROR_MSG "Graphics" "Forced endRenderBatch with an empty render mode stack"])
    else ({ flushed with m_pRenderMode := none }, [])

/-- One call of the batch lifecycle. -/
inductive BatchCall where
  | beginMode (pRenderMode : RenderModePtr) (bForce : Bool)
  | beginName (strName : String)
  | endBatch (bForce : Bool)
deriving DecidableEq

/-- Effect of one lifecycle call: the graphics state after the call and the
diagnostics emitted by it. -/
def CGraphics.call (g : CGraphics) : BatchCall → CGraphics × List LogEntry
  | .beginMode pRenderMode bForce => (g.beginRenderBatch pRenderMode bForce, [])
  | .beginName strName => ((g.beginRenderBatchByName strName).2, [])
  | .endBatch bForce => g.endRenderBatch bForce

/-- Effect of a sequence of lifecycle calls, first call first: the graphics
state after the last call and the diagnostics emitted on the way. -/
def CGraphics.run (g : CGraphics) : List BatchCall → CGraphics × List LogEntry
  | [] => (g, [])
  | c :: rest => (((g.call c).1.run rest).1, (g.call c).2 ++ ((g.call c).1.run rest).2)

/-- A sequence of calls is properly nested from nesting depth `depth`: no end
call arrives at depth zero and the depth is zero after the last call. -/
def nestedFrom : Nat → List BatchCall → Bool
  | depth, [] => depth == 0
  | depth, .beginMode _ _ :: rest => nestedFrom (depth + 1) rest
  | depth, .beginName _ :: rest => nestedFrom (depth + 1) rest
  | 0, .endBatch _ :: _ => false
  | depth + 1, .endBatch _ :: rest => nestedFrom depth rest

/-- A balanced sequence of begin/end calls. -/
def balanced (calls : List BatchCall) : Bool := nestedFrom 0 calls

/-- A graphics state used to evaluate the operations on concrete inputs:
default viewport, screen of 800 by 600 pixels, camera zoom 1, no window, no
registered render mode, no open batch, empty buffers.  It stands for no
particular point of the program (the constructor of `CGraphics` is not part of
the embedded sources). -/
def sampleGraphics : CGraphics :=
  { m_pWindow := none
    m_bScreenSpace := false
    m_nDrawCalls := 0
    m_nLines := 0
    m_nPoints := 0
    m_nTriangles := 0
    m_nVerts := 0
    m_aColour := ⟨1, 1, 1, 1⟩
    m_vecIndicesLines := []
    m_vecIndicesPoints := []
    m_vecIndicesTriangles := []
    m_vecColours := []
    m_vecVertices := []
    m_vecUV0s := []
    m_vecUV1s := []
    m_RenderModesByName := UnorderedMap.empty
    m_pRenderMode := none
    m_RenderModeStack := []
    m_fCamAng := 0
    m_fCamZoom := 1
    m_fDepth := GRAPHICS_DEPTH_DEFAULT
    m_unWidthScr := GRAPHICS_WIDTH_DEFAULT
    m_unHeightScr := GRAPHICS_HEIGHT_DEFAULT }

/-- The viewport invariant of the data model: right > left, top > bottom and
near < far. -/
def ViewPort.Valid (v : ViewPort) : Prop :=
  v.leftplane < v.rightplane ∧ v.bottomplane < v.topplane ∧ v.nearplane < v.farplane

/-- The state `sampleGraphics` after `registerRenderMode("debug", p)` where `p`
points to address 1. -/
def debugGraphics : CGraphics :=
  sampleGraphics.registerRenderMode "debug" (some 1)

/-- The state `sampleGraphics` with one triangle left in the buffers and no batch
open: three vertices, three colour entries and the triangle indices 0 1 2. -/
def pendingGraphics : CGraphics :=
  { sampleGraphics with
    m_unIndex := 3
    m_unIndexVerts := 6
    m_unIndexCol := 12
    m_unIndexTriangles := 3
    m_vecVertices := [0, 0, 1, 0, 0, 1]
    m_vecColours := [1, 1, 1, 1, 1, 1, 1, 1, 1, 1, 1, 1]
    m_vecIndicesTriangles := [0, 1, 2] }

/-- A balanced sequence of lifecycle calls with nesting depth three. -/
def sampleCalls : List BatchCall :=
  [.beginName "debug", .beginMode (some 3) true, .beginMode (some 4) false,
    .endBatch true, .endBatch false, .endBatch true]

/-! ## Window handle and colour (graphics.h, lines 457-501, 540-548, 603-607) -/

/-- Returns the main window of initialisation.  The result is the returned
pointer, the state after the call and the diagnostics emitted by the call. -/
def CGraphics.getWindow (g : CGraphics) : WindowHandlePtr × CGraphics × List LogEntry :=
  if g.m_pWindow = none then
    (g.m_pWindow, g,
      [ERROR_MSG "Graphics" "No window handle. Maybe graphics wasn't initialised before."])
  else (g.m_pWindow, g, [])

/-- Set the main window. -/
def CGraphics.setWindow (g : CGraphics) (pWindow : WindowHandlePtr) : CGraphics :=
  { g with m_pWindow := pWindow }

/-- Set RGBA colour: `setColor(const ColorTypeRGBA&)`. -/
def CGraphics.setColor (g : CGraphics) (rgba : ColorTypeRGBA) : CGraphics :=
  { g with m_aColour := rgba }

/-- Set RGB color: `setColor(const double&, const double&, const double&)`. -/
def CGraphics.setColorRGB (g : CGraphics) (fR fG fB : ℚ) : CGraphics :=
  { g with m_aColour := ⟨fR, fG, fB, 1⟩ }

/-- Set RGB color with alpha value: the overload of `setColor` with four
`double` arguments. -/
def CGraphics.setColorRGBA (g : CGraphics) (fR fG fB fA : ℚ) : CGraphics :=
  { g with m_aColour := ⟨fR, fG, fB, fA⟩ }

/-- All four components of a colour lie in [0, 1]. -/
def ColorTypeRGBA.InUnitRange (c : ColorTypeRGBA) : Prop :=
  (0 ≤ c.r ∧ c.r ≤ 1) ∧ (0 ≤ c.g ∧ c.g ≤ 1) ∧ (0 ≤ c.b ∧ c.b ≤ 1) ∧ (0 ≤ c.a ∧ c.a ≤ 1)

/-! ## Primitive emission

`addVertex` and `filledRect` are declared in graphics.h (lines 229-235); their
bodies are not part of the embedded sources. -/

/-- A point of the plane (`Vector2d`). -/
structure Vector2d where
  x : ℚ
  y : ℚ
deriving DecidableEq

/-- Number of floats of one vertex position (spec 3: "2 floats/vertex"). -/
def FLOATS_PER_VERTEX : Nat := 2

/-- Number of floats of one vertex colour (spec 3: "4 floats/vertex, RGBA"). -/
def FLOATS_PER_COLOUR : Nat := 4

/-- The floats of a colour in buffer order. -/
def ColorTypeRGBA.floats (c : ColorTypeRGBA) : List ℚ := [c.r, c.g, c.b, c.a]

/-- Modelled from the spec: `addVertex(const Vector2d&)`, whose body is missing.
Spec 4.4: "appends a position to the vertex buffer and the current color to the
color buffer at the same index; returns the assigned index implicitly via
internal counters".  The place of the append is the one the counters of
graphics.h name: `m_unIndexVerts` is the "Index of current vertex in buffer",
`m_unIndexCol` the "Index of current colour in buffer".  The floats are stored
from there on, so that after a reset of the counters the next vertex is stored
at the start of the buffers; what a buffer held from that position on belongs to
no batch any more and is dropped.  The vertex gets the number `m_unIndex`.  Spec
4.3: only in state BatchOpen "a render mode is active, buffers accept vertices";
without an open batch nothing is stored. -/
def CGraphics.addVertex (g : CGraphics) (vecV : Vector2d) : CGraphics :=
  if g.batchOpen then
    { g with
      m_vecVertices := g.m_vecVertices.take g.m_unIndexVerts ++ [vecV.x, vecV.y]
      m_vecColours := g.m_vecColours.take g.m_unIndexCol ++ g.m_aColour.floats
      m_unIndexVerts := g.m_unIndexVerts + FLOATS_PER_VERTEX
      m_unIndexCol := g.m_unIndexCol + FLOATS_PER_COLOUR
      m_unIndex := g.m_unIndex + 1 }
  else g

/-- The triangle indices of a rectangle whose four vertices are numbered from
`base`: the triangles (0, 1, 2) and (0, 2, 3). -/
def rectTriangles (base : Nat) : List Nat :=
  [base, base + 1, base + 2, base, base + 2, base + 3]

/-- The buffers have room for `nVerts` more vertices and `nIndices` more triangle
indices: the counters stay within `m_unIndexMax` ("Maximum number of vertices",
the "fixed maximum buffer size" of spec 3). -/
def CGraphics.hasRoom (g : CGraphics) (nVerts nIndices : Nat) : Prop :=
  g.m_unIndex + nVerts ≤ g.m_unIndexMax ∧ g.m_unIndexTriangles + nIndices ≤ g.m_unIndexMax

instance (g : CGraphics) (nVerts nIndices : Nat) : Decidable (g.hasRoom nVerts nIndices) := by
  unfold CGraphics.hasRoom
  infer_instance

/-- Modelled from the spec: `restartRenderBatchInternal()` (declared private in
graphics.h, line 253; body missing), the reset of the buffers when a primitive
does not fit.  Spec 3: buffers "are cleared (not reallocated) at batch end unless
capacity is exceeded, in which case they are reset to avoid unbounded growth; a
fixed maximum buffer size bounds per-batch primitive count".  What the buffers
hold is submitted and the counters start again; render mode and stack stay. -/
def CGraphics.restartRenderBatchInternal (g : CGraphics) : CGraphics := g.flushBuffers

/-- Modelled from the spec: `filledRect(const Vector2d&, const Vector2d&)`, whose
body is missing.  Spec 4.4: "filledTriangle(a,b,c) / filledRect(topLeft,bottomRight):
emit the minimal vertex set (3 or 4 vertices) plus the corresponding triangle
indices forming the shape (rect decomposed into two triangles)".  The corners
are emitted with `addVertex`, going round the rectangle from the top left one;
the order of the corners and the diagonal of the split are not fixed by the
spec.  The triangle indices are stored at `m_unIndexTriangles`, the "Index of
current element in triangle index buffer".  Without an open batch nothing is
emitted (spec 4.3); when the rectangle does not fit, the buffers are reset first
(spec 3). -/
def CGraphics.filledRect (g : CGraphics) (vecTL vecBR : Vector2d) : CGraphics :=
  if g.batchOpen then
    let g0 := if g.hasRoom 4 6 then g else g.restartRenderBatchInternal
    let g4 := (((g0.addVertex vecTL).addVertex ⟨vecBR.x, vecTL.y⟩).addVertex vecBR).addVertex
      ⟨vecTL.x, vecBR.y⟩
    { g4 with
      m_vecIndicesTriangles :=
        g4.m_vecIndicesTriangles.take g4.m_unIndexTriangles ++ rectTriangles g0.m_unIndex
      m_unIndexTriangles := g4.m_unIndexTriangles + 6 }
  else g

/-- The counters agree with one another and with the buffers: the vertex with
number n has its floats at 2n in the vertex buffer and at 4n in the colour
buffer, and no counter points behind the end of its buffer. -/
def CGraphics.CountersAligned (g : CGraphics) : Prop :=
  g.m_unIndexVerts = FLOATS_PER_VERTEX * g.m_unIndex ∧
    g.m_unIndexCol = FLOATS_PER_COLOUR * g.m_unIndex ∧
    g.m_unIndexVerts ≤ g.m_vecVertices.length ∧
    g.m_unIndexCol ≤ g.m_vecColours.length ∧
    g.m_unIndexTriangles ≤ g.m_vecIndicesTriangles.length

/-- The state `sampleGraphics` after `setWindow(p)` with `p` at address 7. -/
def windowGraphics : CGraphics := sampleGraphics.setWindow (some 7)

/-! ## Backend device

The classes of render_target.cpp, texture.cpp and shader_program.cpp talk to
the OpenGL backend.  The backend is an external collaborator: its calls are
recorded in a history, and what it answers is given by a `GLBackend`, whose
answers may depend on the whole history of calls. -/

/-- Value of `GL_FRAMEBUFFER_COMPLETE` (0x8CD5). -/
def GL_FRAMEBUFFER_COMPLETE : Nat := 36053

/-- Value of `GL_FALSE`. -/
def GL_FALSE : Int := 0

/-- Value of `GL_TRUE`. -/
def GL_TRUE : Int := 1

/-- The backend calls made by the embedded code, with the arguments that
matter.  For `glGen...` and `glCreateProgram` the argument is the name the
backend hands out; `levels` is `none` when the level count has no defined value;
`data` is `none` for a null pointer. -/
inductive GLCall where
  | glDeleteFramebuffers (id : Nat)
  | glDeleteTextures (id : Nat)
  | glGenFramebuffers (id : Nat)
  | glGenTextures (id : Nat)
  | glBindFramebuffer (id : Nat)
  | glBindTexture (id : Nat)
  | glTexStorage2D (levels : Option Int) (width height : Nat)
  | glTexSubImage2D (width height : Nat) (format : String) (data : Option (List Nat))
  | glGenerateMipmap
  | glTexParameteri (pname param : String)
  | glFramebufferTexture2D (texture : Nat)
  | glDrawBuffers
  | glCheckFramebufferStatus
  | glCreateProgram (id : Nat)
  | glLinkProgram (program : Nat)
  | glGetProgramiv (program : Nat) (pname : String)
  | glGetProgramInfoLog (program : Nat)
  | glDeleteProgram (program : Nat)
  | glAttachShader (program shader : Nat)
  | glDetachShader (program shader : Nat)
deriving DecidableEq

/-- Answers of the backend, each as a function of the calls made so far. -/
structure GLBackend where
  genName : List GLCall → Nat
  createProgram : List GLCall → Nat
  framebufferStatus : List GLCall → Nat
  linkStatus : List GLCall → Int
  infoLog : List GLCall → List Char

/-- What the embedded code leaves outside its objects: the history of backend
calls, the diagnostics handed to the logging facade and the characters written
to `std::cerr`. -/
structure World where
  calls : List GLCall
  log : List LogEntry
  cerr : List Char
deriving DecidableEq

/-- The calls issued between two worlds of one run. -/
def issued (before after : World) : List GLCall := after.calls.drop before.calls.length

/-- A call that deletes a framebuffer or a texture. -/
def GLCall.isDelete : GLCall → Bool
  | .glDeleteFramebuffers _ => true
  | .glDeleteTextures _ => true
  | _ => false

/-- A call that generates a framebuffer or a texture name. -/
def GLCall.isGen : GLCall → Bool
  | .glGenFramebuffers _ => true
  | .glGenTextures _ => true
  | _ => false

/-- A call that works on textures: delete, generate, storage or upload. -/
def GLCall.isTextureCall : GLCall → Bool
  | .glDeleteTextures _ => true
  | .glGenTextures _ => true
  | .glTexStorage2D _ _ _ => true
  | .glTexSubImage2D _ _ _ _ => true
  | _ => false

/-- In a list of calls no delete call comes after a generate call. -/
def deletesBeforeGens : List GLCall → Bool
  | [] => true
  | c :: rest => (!c.isGen || rest.all (fun d => !d.isDelete)) && deletesBeforeGens rest

/-- Effect of one call on the framebuffer names that are generated and not
deleted. -/
def stepFramebuffers (live : List Nat) : GLCall → List Nat
  | .glGenFramebuffers id => if id ∈ live then live else id :: live
  | .glDeleteFramebuffers id => live.filter (fun n => n != id)
  | _ => live

/-- Effect of one call on the texture names that are generated and not
deleted. -/
def stepTextures (live : List Nat) : GLCall → List Nat
  | .glGenTextures id => if id ∈ live then live else id :: live
  | .glDeleteTextures id => live.filter (fun n => n != id)
  | _ => live

/-- The framebuffer names generated in a history and not deleted since. -/
def liveFramebuffers (calls : List GLCall) : List Nat := calls.foldl stepFramebuffers []

/-- The texture names generated in a history and not deleted since. -/
def liveTextures (calls : List GLCall) : List Nat := calls.foldl stepTextures []

/-- The arguments (levels, width, height) of the texture storage calls of a
history. -/
def storageCalls : List GLCall → List (Option Int × Nat × Nat)
  | [] => []
  | .glTexStorage2D levels width height :: rest => (levels, width, height) :: storageCalls rest
  | _ :: rest => storageCalls rest

/-! ## Mip-map levels -/

/-- Halving count with fuel: the number of times `n` can be halved before it
drops below 2. -/
def floorLog2Aux : Nat → Nat → Nat
  | 0, _ => 0
  | fuel + 1, n => if n < 2 then 0 else floorLog2Aux fuel (n / 2) + 1

/-- The value `std::floor(std::log2(n))` for an integer n >= 1. -/
def floorLog2 (n : Nat) : Nat := floorLog2Aux n n

/-- The expression `std::floor(std::log2(std::max(_unResX,_unResY)))+1`
converted to `int`.  When both resolutions are 0 the logarithm is minus
infinity and the conversion has no defined value: `none`. -/
def mipMapLevels (unResX unResY : Nat) : Option Int :=
  if max unResX unResY = 0 then none else some ((floorLog2 (max unResX unResY) : Int) + 1)

/-- Length of the full mip chain of a texture of the given size:
floor(log2(max(width, height))) + 1. -/
def fullMipChain (width height : Nat) : Int := (floorLog2 (max width height) : Int) + 1

/-! ## Render target (render_target.cpp) -/

/-- The members of `CRenderTarget` used by render_target.cpp. -/
structure CRenderTarget where
  m_unIDFBO : Nat
  m_unIDTex : Nat
  m_unResX : Nat
  m_unResY : Nat
  m_unSub : Nat
deriving DecidableEq

/-- Destructor, deletes GL buffers. -/
def CRenderTarget.destructor (rt : CRenderTarget) (w : World) : World :=
  { w with calls := w.calls ++
      [.glDeleteFramebuffers rt.m_unIDFBO, .glDeleteTextures rt.m_unIDTex] }

/-- The part of `CRenderTarget::init` before the check for errors (lines 65-91):
the previous framebuffer and texture are deleted, new ones are generated and
bound, the texture is allocated and attached.  The subsampling factor is not
zero here. -/
def CRenderTarget.configure (rt : CRenderTarget) (gl : GLBackend) (w : World)
    (unResX unResY unSub : Nat) : CRenderTarget × World :=
  let calls1 := w.calls ++ [.glDeleteFramebuffers rt.m_unIDFBO, .glDeleteTextures rt.m_unIDTex]
  let idFBO := gl.genName calls1
  let calls2 := calls1 ++ [.glGenFramebuffers idFBO, .glBindFramebuffer idFBO]
  let idTex := gl.genName calls2
  let calls3 := calls2 ++ [.glGenTextures idTex, .glBindTexture idTex]
  let nNoOfMipMapLevels := mipMapLevels unResX unResY
  let calls4 := calls3 ++
    [.glTexStorage2D nNoOfMipMapLevels (unResX / unSub) (unResY / unSub),
      .glTexSubImage2D (unResX / unSub) (unResY / unSub) "GL_RGBA" none,
      .glGenerateMipmap,
      .glTexParameteri "GL_TEXTURE_WRAP_S" "GL_CLAMP_TO_EDGE",
      .glTexParameteri "GL_TEXTURE_WRAP_T" "GL_CLAMP_TO_EDGE",
      .glTexParameteri "GL_TEXTURE_MAG_FILTER" "GL_LINEAR",
      .glTexParameteri "GL_TEXTURE_MIN_FILTER" "GL_LINEAR_MIPMAP_LINEAR",
      .glFramebufferTexture2D idTex,
      .glDrawBuffers]
  ({ rt with m_unIDFBO := idFBO, m_unIDTex := idTex },
    { w with
      calls := calls4
      log := w.log ++ [DEBUG_MSG "Render Target" " MipMapLevels created."] })

/-- The status the backend reports for the framebuffer after configuration. -/
def CRenderTarget.reportedStatus (rt : CRenderTarget) (gl : GLBackend) (w : World)
    (unResX unResY unSub : Nat) : Nat :=
  gl.framebufferStatus (rt.configure gl w unResX unResY unSub).2.calls

/-- Initialise render target.  The result is the returned flag, the render
target and the world after the call; there is no result (`none`) when the
subsampling factor is 0, where the integer divisions `_unResX/_unSub` and
`_unResY/_unSub` are undefined. -/
def CRenderTarget.init (rt : CRenderTarget) (gl : GLBackend) (w : World)
    (unResX unResY unSub : Nat) : Option (Bool × CRenderTarget × World) :=
  if unSub = 0 then none
  else
    let rt1 := (rt.configure gl w unResX unResY unSub).1
    let w1 := (rt.configure gl w unResX unResY unSub).2
    let w2 : World := { w1 with calls := w1.calls ++ [.glCheckFramebufferStatus] }
    if gl.framebufferStatus w1.calls ≠ GL_FRAMEBUFFER_COMPLETE then
      some (false, rt1,
        { w2 with log := w2.log ++ [ERROR_MSG "Render Target" "Failed to create frame buffer"] })
    else
      some (true,
        { rt1 with m_unResX := unResX, m_unResY := unResY, m_unSub := unSub },
        { w2 with calls := w2.calls ++ [.glBindFramebuffer 0] })

/-- Ownership of a render target over its own backend objects.  `own` is the
list of the backend calls that this render target has issued since its
construction, in order (the calls of other objects, which share the history of
the world, are not in it).  Of the framebuffers and textures that the object
has generated and not deleted since, at most the ones whose names it holds are
left. -/
def CRenderTarget.Owns (rt : CRenderTarget) (own : List GLCall) : Prop :=
  (∀ id ∈ liveFramebuffers own, id = rt.m_unIDFBO) ∧
    (∀ id ∈ liveTextures own, id = rt.m_unIDTex)

/-- One `init` call in the life of a render target: the world in which the call
is made, holding whatever other objects have done until then, and the arguments
of the call. -/
structure RenderTargetInitCall where
  world : World
  unResX : Nat
  unResY : Nat
  unSub : Nat

/-- The life of a render target from a given point on: a sequence of `init`
calls, each made in the world of its time.  The result is the render target
after the last call and the list of all backend calls the object has issued,
`own` being those issued before; there is no result when one of the calls has
none. -/
def CRenderTarget.life (gl : GLBackend) :
    CRenderTarget → List GLCall → List RenderTargetInitCall → Option (CRenderTarget × List GLCall)
  | rt, own, [] => some (rt, own)
  | rt, own, c :: rest =>
    match rt.init gl c.world c.unResX c.unResY c.unSub with
    | none => none
    | some r => CRenderTarget.life gl r.2.1 (own ++ issued c.world r.2.2) rest

/-! ## Texture (texture.cpp) -/

/-- The member of `CTexture` used by texture.cpp. -/
structure CTexture where
  m_unID : Nat
deriving DecidableEq

/-- Deletes texture. -/
def CTexture.destroy (t : CTexture) (w : World) : Bool × CTexture × World :=
  (true, t, { w with calls := w.calls ++ [.glDeleteTextures t.m_unID] })

/-- Initialise texture. -/
def CTexture.init (t : CTexture) (gl : GLBackend) (w : World) (unResX unResY : Nat)
    (puchData : Option (List Nat)) : Bool × CTexture × World :=
  let calls1 := w.calls ++ [.glDeleteTextures t.m_unID]
  let id := gl.genName calls1
  let calls2 := calls1 ++ [.glGenTextures id, .glBindTexture id]
  let nNoOfMipMapLevels := mipMapLevels unResX unResY
  let calls3 := calls2 ++
    [.glTexStorage2D nNoOfMipMapLevels unResX unResY,
      .glTexSubImage2D unResX unResY "GL_RGB" puchData,
      .glGenerateMipmap,
      .glTexParameteri "GL_TEXTURE_WRAP_S" "GL_CLAMP_TO_EDGE",
      .glTexParameteri "GL_TEXTURE_WRAP_T" "GL_CLAMP_TO_EDGE",
      .glTexParameteri "GL_TEXTURE_MAG_FILTER" "GL_LINEAR",
      .glTexParameteri "GL_TEXTURE_MIN_FILTER" "GL_LINEAR_MIPMAP_LINEAR"]
  (true, { t with m_unID := id },
    { w with calls := calls3, log := w.log ++ [DEBUG_MSG "Texture" " MipMapLevels created."] })

/-- What `stbi_load` hands back for a file it can decode. -/
structure DecodedImage where
  nWidth : Int
  nHeight : Int
  nNrChannels : Int
  data : List Nat
deriving DecidableEq

/-- Conversion of an `int` argument to a `std::uint16_t` parameter. -/
def toUInt16 (n : Int) : Nat := (n % 65536).toNat

/-- Load texture from file.  The image decoder `stbi_load` is an external
collaborator: `none` is the null pointer it returns for a file it cannot
decode. -/
def CTexture.load (t : CTexture) (gl : GLBackend) (stbi_load : String → Option DecodedImage)
    (w : World) (strName : String) : Bool × CTexture × World :=
  match stbi_load strName with
  | some image =>
    let done := t.init gl w (toUInt16 image.nWidth) (toUInt16 image.nHeight) (some image.data)
    (true, done.2.1,
      { done.2.2 with
        log := done.2.2.log ++ [INFO_MSG "Texture" ("Successfully loaded texture " ++ strName)] })
  | none =>
    (false, t,
      { w with log := w.log ++ [WARNING_MSG "Texture" ("Couldn't load texture " ++ strName)] })

/-- Ownership of a texture object over its own backend texture.  `own` is the
list of the backend calls that this texture object has issued since its
construction, in order.  Of the textures that the object has generated and not
deleted since, at most the one whose name it holds is left. -/
def CTexture.Owns (t : CTexture) (own : List GLCall) : Prop :=
  ∀ id ∈ liveTextures own, id = t.m_unID

/-- One `init` call in the life of a texture object: the world in which the call
is made and the arguments of the call. -/
structure TextureInitCall where
  world : World
  unResX : Nat
  unResY : Nat
  puchData : Option (List Nat)

/-- The life of a texture object from a given point on: a sequence of `init`
calls, each made in the world of its time.  The result is the texture object
after the last call and the list of all backend calls the object has issued,
`own` being those issued before. -/
def CTexture.life (gl : GLBackend) : CTexture → List GLCall → List TextureInitCall →
    CTexture × List GLCall
  | t, own, [] => (t, own)
  | t, own, c :: rest =>
    CTexture.life gl (t.init gl c.world c.unResX c.unResY c.puchData).2.1
      (own ++ issued c.world (t.init gl c.world c.unResX c.unResY c.puchData).2.2) rest

/-! ## Shader program (shader_program.cpp) -/

/-- The members of `CShaderProgram` used by shader_program.cpp. -/
structure CShaderProgram where
  m_unID : Nat
  Shaders : List Nat
deriving DecidableEq

/-- The link status the backend reports for the program after `glLinkProgram`. -/
def CShaderProgram.reportedLinkStatus (p : CShaderProgram) (gl : GLBackend) (w : World) : Int :=
  gl.linkStatus (w.calls ++ [.glLinkProgram p.m_unID])

/-- The info log the backend hands out for the program after a failed link. -/
def CShaderProgram.reportedInfoLog (p : CShaderProgram) (gl : GLBackend) (w : World) :
    List Char :=
  gl.infoLog (w.calls ++
    [.glLinkProgram p.m_unID, .glGetProgramiv p.m_unID "GL_LINK_STATUS",
      .glGetProgramiv p.m_unID "GL_INFO_LOG_LENGTH", .glGetProgramInfoLog p.m_unID])

/-- Link GL shader program. -/
def CShaderProgram.link (p : CShaderProgram) (gl : GLBackend) (w : World) :
    Bool × CShaderProgram × World :=
  let calls1 := w.calls ++ [.glLinkProgram p.m_unID]
  let nIsLinked := gl.linkStatus calls1
  let calls2 := calls1 ++ [.glGetProgramiv p.m_unID "GL_LINK_STATUS"]
  if nIsLinked = GL_FALSE then
    let calls3 := calls2 ++
      [.glGetProgramiv p.m_unID "GL_INFO_LOG_LENGTH", .glGetProgramInfoLog p.m_unID]
    (false, p,
      { calls := calls3 ++ [.glDeleteProgram p.m_unID]
        log := w.log ++ [ERROR_MSG "Shader Program" "Failed to link shader program"]
        cerr := w.cerr ++ gl.infoLog calls3 ++ [Char.ofNat 10] })
  else
    (true, { p with Shaders := [] },
      { w with
        calls := calls2 ++ p.Shaders.map (fun it => GLCall.glDetachShader p.m_unID it)
        log := w.log ++ [INFO_MSG "Shader Program" "Successfully linked shader program"] })

/-- Creates GL shader program consisting of vertex and fragment shader.  The
method returns nothing (`void`): the result is the program and the world after
the call.  `addShader` is declared in shader_program.h, which is not part of the
embedded sources, and is a parameter here. -/
def CShaderProgram.create {CShader : Type}
    (addShader : CShaderProgram → World → CShader → CShaderProgram × World)
    (p : CShaderProgram) (gl : GLBackend) (w : World)
    (VertexShader FragmentShader : CShader) : Unit × CShaderProgram × World :=
  let id := gl.createProgram w.calls
  let p0 : CShaderProgram := { p with m_unID := id }
  let w0 : World := { w with calls := w.calls ++ [.glCreateProgram id] }
  let added1 := addShader p0 w0 VertexShader
  let added2 := addShader added1.1 added1.2 FragmentShader
  let linked := added2.1.link gl added2.2
  ((), linked.2.1, linked.2.2)

/-- The diagnostics emitted between two worlds of one run. -/
def emitted (before after : World) : List LogEntry := after.log.drop before.log.length

/-- The characters written to `std::cerr` between two worlds of one run. -/
def written (before after : World) : List Char := after.cerr.drop before.cerr.length

/-- A backend used to evaluate the operations on concrete inputs: the names it
hands out count the calls made so far, and it reports a complete framebuffer and
a linked program as long as fewer than 20 calls have been made, an incomplete
framebuffer (status 0) and link status `GL_FALSE` afterwards. -/
def flakyBackend : GLBackend :=
  { genName := fun calls => calls.length + 1
    createProgram := fun calls => calls.length + 1
    framebufferStatus := fun calls => if calls.length < 20 then GL_FRAMEBUFFER_COMPLETE else 0
    linkStatus := fun calls => if calls.length < 20 then GL_TRUE else GL_FALSE
    infoLog := fun _ => ['E', 'r', 'r'] }

/-- A world in which nothing has happened yet. -/
def emptyWorld : World := ⟨[], [], []⟩

/-- A render target that holds no backend object (all members 0). -/
def freshTarget : CRenderTarget := ⟨0, 0, 0, 0, 0⟩

/-- The call `init(800, 600, 2)` on `freshTarget` with `flakyBackend`, which
succeeds. -/
def firstInit : Option (Bool × CRenderTarget × World) :=
  freshTarget.init flakyBackend emptyWorld 800 600 2

/-- The render target after `firstInit`: framebuffer 3, texture 5, resolution
800 x 600, subsampling 2. -/
def heldTarget : CRenderTarget := (firstInit.getD (false, freshTarget, emptyWorld)).2.1

/-- The world after `firstInit`. -/
def heldWorld : World := (firstInit.getD (false, freshTarget, emptyWorld)).2.2

/-- The call `init(1024, 768, 1)` on `heldTarget`, for which `flakyBackend`
reports an incomplete framebuffer. -/
def failedInit : Option (Bool × CRenderTarget × World) :=
  heldTarget.init flakyBackend heldWorld 1024 768 1

/-- The call `init(640, 480, 1)` of a second render target in `heldWorld`, where
`heldTarget` holds framebuffer 3 and texture 5.  The second target gets
framebuffer 20 and texture 22 (`flakyBackend` reports the framebuffer as
incomplete). -/
def secondInit : Option (Bool × CRenderTarget × World) :=
  freshTarget.init flakyBackend heldWorld 640 480 1

/-- The second render target after `secondInit`. -/
def secondTarget : CRenderTarget := (secondInit.getD (false, freshTarget, emptyWorld)).2.1

/-- The world after `secondInit`: both render targets hold a framebuffer and a
texture. -/
def secondWorld : World := (secondInit.getD (false, freshTarget, emptyWorld)).2.2

/-- The call `init(1024, 768, 1)` on `heldTarget` in `secondWorld`: the first
render target is initialised again while the second one exists. -/
def reInit : Option (Bool × CRenderTarget × World) :=
  heldTarget.init flakyBackend secondWorld 1024 768 1

/-- A backend whose answers do not depend on the history: it reports the given
framebuffer status and link status. -/
def constBackend (unStatus : Nat) (nIsLinked : Int) : GLBackend :=
  { genName := fun calls => calls.length + 1
    createProgram := fun calls => calls.length + 1
    framebufferStatus := fun _ => unStatus
    linkStatus := fun _ => nIsLinked
    infoLog := fun _ => ['E', 'r', 'r'] }

/-- A stand-in for `addShader` used to evaluate `create` on concrete inputs: the
shader, given by its backend name, is attached and remembered in `Shaders`. -/
def sampleAddShader (p : CShaderProgram) (w : World) (unShader : Nat) :
    CShaderProgram × World :=
  ({ p with Shaders := p.Shaders ++ [unShader] },
    { w with calls := w.calls ++ [.glAttachShader p.m_unID unShader] })

/-- A shader program that has not been created yet. -/
def sampleProgram : CShaderProgram := ⟨0, []⟩

/-- The program with backend name 9 and the attached shaders 4 and 6. -/
def attachedProgram : CShaderProgram := ⟨9, [4, 6]⟩

/-- A decoder used to evaluate `load` on concrete inputs: it knows the file
"brick.png", an image of 64 by 32 pixels with 3 channels, and no other file. -/
def sampleDecoder (strName : String) : Option DecodedImage :=
  if strName = "brick.png" then some ⟨64, 32, 3, []⟩ else none

/-- A texture that holds no backend object. -/
def freshTexture : CTexture := ⟨0⟩

/-- The backend names handed to `glDetachShader` in a history, as pairs of
program and shader, in the order of the calls. -/
def detachCalls : List GLCall → List (Nat × Nat)
  | [] => []
  | .glDetachShader program shader :: rest => (program, shader) :: detachCalls rest
  | _ :: rest => detachCalls rest

/-- The number of `glDeleteProgram` calls for a program in a history. -/
def deleteProgramCount (program : Nat) : List GLCall → Nat
  | [] => 0
  | .glDeleteProgram deleted :: rest =>
    (if deleted = program then 1 else 0) + deleteProgramCount program rest
  | _ :: rest => deleteProgramCount program rest

/-- A decoder used to evaluate `load` on a wide image: it knows the file
"strip.png", an image of 70000 by 2 pixels with 3 channels, and no other file. -/
def wideDecoder (strName : String) : Option DecodedImage :=
  if strName = "strip.png" then some ⟨70000, 2, 3, []⟩ else none

/-- The graphics state `g` with the camera zoom set to `fZoom`, all other
members as they are. -/
def CGraphics.withZoom (g : CGraphics) (fZoom : ℚ) : CGraphics :=
  { g with m_fCamZoom := fZoom }

/-! ## Binary64 arithmetic

The resolution helpers compute with `double`, which is IEEE 754 binary64 with
rounding to nearest, ties to even.  A finite double is a rational number.  The
definitions of this section round a rational number to the nearest double and
give the result of one arithmetic operation on two finite doubles.  `none`
stands for a result that is not a finite double: an infinity (overflow, or a
value other than zero divided by zero) or a NaN (zero divided by zero); an
expression one of whose operands is not a finite double is not followed
further.  The sign of a zero is not represented. -/

/-- The power 2^k for an integer exponent. -/
def pow2 (k : Int) : ℚ :=
  if 0 ≤ k then ((2 ^ k.toNat : Nat) : ℚ) else 1 / ((2 ^ (-k).toNat : Nat) : ℚ)

/-- The binade of a rational number x other than zero: the exponent e with
2^e <= |x| < 2^(e+1). -/
def binade (x : ℚ) : Int :=
  if pow2 ((floorLog2 x.num.natAbs : Int) - (floorLog2 x.den : Int)) ≤ |x| then
    (floorLog2 x.num.natAbs : Int) - (floorLog2 x.den : Int)
  else (floorLog2 x.num.natAbs : Int) - (floorLog2 x.den : Int) - 1

/-- Rounding to the nearest integer, ties to the even one. -/
def roundHalfEven (s : ℚ) : Int :=
  if s - (Rat.floor s : ℚ) < 1 / 2 then Rat.floor s
  else if 1 / 2 < s - (Rat.floor s : ℚ) then Rat.floor s + 1
  else if Rat.floor s % 2 = 0 then Rat.floor s
  else Rat.floor s + 1

/-- Rounding of a rational number to binary64 precision, to nearest and ties to
even: a significand of 53 bits, the smallest exponent of a normal number being
-1022, below which the spacing 2^-1074 of the subnormal numbers is kept.  The
range is not limited here. -/
def rnd (x : ℚ) : ℚ :=
  if x = 0 then 0
  else (roundHalfEven (x / pow2 (max (binade x) (-1022) - 52)) : ℚ) *
    pow2 (max (binade x) (-1022) - 52)

/-- The double nearest to a rational number; `none` when the rounded value is
not below 2^1024 in magnitude (overflow to an infinity). -/
def fround (x : ℚ) : Option ℚ := if |rnd x| < pow2 1024 then some (rnd x) else none

/-- A rational number that is a finite double. -/
def IsDouble (x : ℚ) : Prop := rnd x = x ∧ |x| < pow2 1024

instance (x : ℚ) : Decidable (IsDouble x) := by
  unfold IsDouble
  infer_instance

/-- Difference `a - b` of two finite doubles. -/
def fsub64 (a b : ℚ) : Option ℚ := fround (a - b)

/-- Product `a * b` of two finite doubles. -/
def fmul64 (a b : ℚ) : Option ℚ := fround (a * b)

/-- Quotient `a / b` of two finite doubles; a zero divisor gives an infinity or a
NaN, hence `none`. -/
def fdiv64 (a b : ℚ) : Option ℚ := if b = 0 then none else fround (a / b)

/-- Unit roundoff of binary64: 2^-53. -/
def unitRoundoff : ℚ := pow2 (-53)

/-- A value in the range of the normal binary64 numbers, away from overflow:
2^-1022 <= |x| < 2^1023. -/
def Normal (x : ℚ) : Prop := pow2 (-1022) ≤ |x| ∧ |x| < pow2 1023

/-- Magnitude between 2^-k and 2^k. -/
def InBand (k : Int) (x : ℚ) : Prop := pow2 (-k) ≤ |x| ∧ |x| ≤ pow2 k

instance (k : Int) (x : ℚ) : Decidable (InBand k x) := by
  unfold InBand
  infer_instance

/-- Horizontal resolution in m/pel, in binary64 arithmetic:
`(m_ViewPort.rightplane-m_ViewPort.leftplane) / (m_fCamZoom * m_unWidthScr)`,
each of the three operations rounded; the screen width is converted to `double`
without error. -/
def CGraphics.getResMPX64 (g : CGraphics) : Option ℚ :=
  (fsub64 g.m_ViewPort.rightplane g.m_ViewPort.leftplane).bind fun fSpan =>
    (fmul64 g.m_fCamZoom (g.m_unWidthScr : ℚ)).bind fun fPels => fdiv64 fSpan fPels

/-- Vertical resolution in m/pel, in binary64 arithmetic:
`(m_ViewPort.topplane-m_ViewPort.bottomplane) / (m_fCamZoom * m_unHeightScr)`. -/
def CGraphics.getResMPY64 (g : CGraphics) : Option ℚ :=
  (fsub64 g.m_ViewPort.topplane g.m_ViewPort.bottomplane).bind fun fSpan =>
    (fmul64 g.m_fCamZoom (g.m_unHeightScr : ℚ)).bind fun fPels => fdiv64 fSpan fPels

/-- Horizontal resolution in pel/m, in binary64 arithmetic:
`(m_fCamZoom * m_unWidthScr) / (m_ViewPort.rightplane-m_ViewPort.leftplane)`. -/
def CGraphics.getResPMX64 (g : CGraphics) : Option ℚ :=
  (fmul64 g.m_fCamZoom (g.m_unWidthScr : ℚ)).bind fun fPels =>
    (fsub64 g.m_ViewPort.rightplane g.m_ViewPort.leftplane).bind fun fSpan => fdiv64 fPels fSpan

/-- Vertical resolution in pel/m, in binary64 arithmetic:
`(m_fCamZoom * m_unHeightScr) / (m_ViewPort.topplane-m_ViewPort.bottomplane)`. -/
def CGraphics.getResPMY64 (g : CGraphics) : Option ℚ :=
  (fmul64 g.m_fCamZoom (g.m_unHeightScr : ℚ)).bind fun fPels =>
    (fsub64 g.m_ViewPort.topplane g.m_ViewPort.bottomplane).bind fun fSpan => fdiv64 fPels fSpan

/-- The double nearest to 0.09, the value of the literal `0.09`. -/
def zoom009 : ℚ := 3242591731706757 / 36028797018963968

/-- The double nearest to 0.03, the value of the literal `0.03`. -/
def zoom003 : ℚ := 1080863910568919 / 36028797018963968

/-- The double nearest to 0.007, the value of the literal `0.007`. -/
def zoom007 : ℚ := 8070450532247929 / 1152921504606846976

/-- The double that follows `zoom007`. -/
def zoom007next : ℚ := 4035225266123965 / 576460752303423488

/-! ## Theorems -/

theorem fdiv_of_ne_zero (a b : ℚ) (h : b ≠ 0) : fdiv a b = some (a / b) := by
  simp [fdiv, h]

theorem fdiv_eq_none_iff (a b : ℚ) : fdiv a b = none ↔ b = 0 := by
  unfold fdiv
  split <;> simp_all

/-- Zero divisors of the resolution helpers: with zoom > 0 and a positive screen
size the divisor zoom * size of `getResMPX` and `getResMPY` is not zero, and the
divisor of `getResPMX` (of `getResPMY`) is zero exactly when rightplane =
leftplane (topplane = bottomplane). -/
theorem resolution_zero_divisor (g : CGraphics) (hZoom : 0 < g.m_fCamZoom)
    (hW : 0 < g.m_unWidthScr) (hH : 0 < g.m_unHeightScr) :
    g.getResMPX ≠ none ∧ g.getResMPY ≠ none ∧
      (g.getResPMX = none ↔ g.m_ViewPort.rightplane = g.m_ViewPort.leftplane) ∧
      (g.getResPMY = none ↔ g.m_ViewPort.topplane = g.m_ViewPort.bottomplane) := by
  have hWq : (0 : ℚ) < (g.m_unWidthScr : ℚ) := by exact_mod_cast hW
  have hHq : (0 : ℚ) < (g.m_unHeightScr : ℚ) := by exact_mod_cast hH
  refine ⟨?_, ?_, ?_, ?_⟩
  · rw [CGraphics.getResMPX, Ne, fdiv_eq_none_iff]
    exact (mul_pos hZoom hWq).ne.symm
  · rw [CGraphics.getResMPY, Ne, fdiv_eq_none_iff]
    exact (mul_pos hZoom hHq).ne.symm
  · rw [CGraphics.getResPMX, fdiv_eq_none_iff, sub_eq_zero]
  · rw [CGraphics.getResPMY, fdiv_eq_none_iff, sub_eq_zero]

/-- C4: the compile-time viewport defaults are leftplane = -200, rightplane = 200,
topplane = 150 and bottomplane = -150 for the default resolution 800 x 600, and
in every state with the default viewport, zoom = 1 and screen width = 800,
`getResMPX` returns exactly 400/800 = 1/2 metres per pixel. -/
theorem default_viewport_getResMPX (g : CGraphics) (hView : g.m_ViewPort = {})
    (hZoom : g.m_fCamZoom = 1) (hW : g.m_unWidthScr = 800) :
    (GRAPHICS_WIDTH_DEFAULT = 800 ∧ GRAPHICS_HEIGHT_DEFAULT = 600 ∧
        g.m_ViewPort.leftplane = -200 ∧ g.m_ViewPort.rightplane = 200 ∧
        g.m_ViewPort.topplane = 150 ∧ g.m_ViewPort.bottomplane = -150) ∧
      g.getResMPX = some (400 / 800) ∧ g.getResMPX = some (1 / 2) := by
  have hPlanes : g.m_ViewPort.leftplane = -200 ∧ g.m_ViewPort.rightplane = 200 ∧
      g.m_ViewPort.topplane = 150 ∧ g.m_ViewPort.bottomplane = -150 := by
    rw [hView]
    norm_num [GRAPHICS_LEFT_DEFAULT, GRAPHICS_RIGHT_DEFAULT, GRAPHICS_TOP_DEFAULT,
      GRAPHICS_BOTTOM_DEFAULT, GRAPHICS_WIDTH_DEFAULT, GRAPHICS_HEIGHT_DEFAULT,
      GRAPHICS_PX_PER_METER]
  have hRes : g.getResMPX = some (1 / 2) := by
    rw [CGraphics.getResMPX, hPlanes.1, hPlanes.2.1, hZoom, hW, fdiv_of_ne_zero _ _ (by norm_num)]
    norm_num
  refine ⟨⟨rfl, rfl, hPlanes⟩, ?_, hRes⟩
  rw [hRes]
  norm_num

/-- Witness of C4 in the sample state. -/
theorem default_viewport_getResMPX_witness :
    (sampleGraphics.m_ViewPort = {} ∧ sampleGraphics.m_fCamZoom = 1 ∧
        sampleGraphics.m_unWidthScr = 800) ∧
      sampleGraphics.getResMPX = some (1 / 2) :=
  ⟨⟨rfl, rfl, rfl⟩, (default_viewport_getResMPX sampleGraphics rfl rfl rfl).2.2⟩

/-- C6: the default-constructed ViewPort satisfies the viewport invariant:
rightplane > leftplane, topplane > bottomplane and nearplane < farplane. -/
theorem default_viewport_valid :
    ({} : ViewPort).Valid ∧
      ({} : ViewPort).rightplane > ({} : ViewPort).leftplane ∧
      ({} : ViewPort).topplane > ({} : ViewPort).bottomplane ∧
      ({} : ViewPort).nearplane < ({} : ViewPort).farplane := by
  norm_num [ViewPort.Valid, GRAPHICS_LEFT_DEFAULT, GRAPHICS_RIGHT_DEFAULT, GRAPHICS_TOP_DEFAULT,
    GRAPHICS_BOTTOM_DEFAULT, GRAPHICS_NEAR_DEFAULT, GRAPHICS_FAR_DEFAULT,
    GRAPHICS_WIDTH_DEFAULT, GRAPHICS_HEIGHT_DEFAULT, GRAPHICS_PX_PER_METER]

/-! ### Render mode registry -/

theorem UnorderedMap.find_insert_self {V : Type} (m : UnorderedMap V) (key : String)
    (value : V) :
    (m.insert key value).find key = some ((m.find key).getD value) := by
  unfold UnorderedMap.insert
  cases hFind : m.find key with
  | none => simp [UnorderedMap.find, UnorderedMap.findIn]
  | some old => simp [hFind]

theorem UnorderedMap.find_insert_of_ne {V : Type} (m : UnorderedMap V) (key other : String)
    (value : V) (hNe : key ≠ other) :
    (m.insert key value).find other = m.find other := by
  unfold UnorderedMap.insert
  cases hFind : m.find key with
  | none => simp [UnorderedMap.find, UnorderedMap.findIn, hNe]
  | some old => rfl

theorem UnorderedMap.insert_of_contains {V : Type} (m : UnorderedMap V) (key : String)
    (value : V) (hIn : m.contains key = true) : m.insert key value = m := by
  unfold UnorderedMap.contains at hIn
  unfold UnorderedMap.insert
  cases hFind : m.find key with
  | none => simp [hFind] at hIn
  | some old => rfl

theorem UnorderedMap.contains_insert_self {V : Type} (m : UnorderedMap V) (key : String)
    (value : V) : (m.insert key value).contains key = true := by
  simp [UnorderedMap.contains, UnorderedMap.find_insert_self]

theorem UnorderedMap.contains_insert_of_contains {V : Type} (m : UnorderedMap V)
    (key other : String) (value : V) (hIn : m.contains other = true) :
    (m.insert key value).contains other = true := by
  by_cases hEq : key = other
  · subst hEq
    exact UnorderedMap.contains_insert_self m key value
  · simpa [UnorderedMap.contains, UnorderedMap.find_insert_of_ne m key other value hEq] using hIn

/-- C5, counterexample: in the sample state, `registerRenderMode("debug", p1)`
followed by `registerRenderMode("debug", p2)` with p1 at address 1 and p2 at
address 2 leaves the registry mapping "debug" to p1, not to p2. -/
theorem registerRenderMode_twice_keeps_first :
    ((sampleGraphics.registerRenderMode "debug" (some 1)).registerRenderMode "debug"
        (some 2)).m_RenderModesByName.find "debug" = some (some 1) ∧
      ((sampleGraphics.registerRenderMode "debug" (some 1)).registerRenderMode "debug"
        (some 2)).m_RenderModesByName.find "debug" ≠ some (some 2) := by
  decide

/-- C5, amended: for every registry, name and pair of render modes m1, m2, the
second of the calls `registerRenderMode(name, m1)`, `registerRenderMode(name, m2)`
leaves the registry as the first call made it; afterwards the registry maps name
to m1 when name was not registered before the two calls, and to the mode it was
already registered with otherwise (the first registration of a name wins). -/
theorem registerRenderMode_first_write_wins (g : CGraphics) (strName : String)
    (m1 m2 : RenderModePtr) :
    ((g.registerRenderMode strName m1).registerRenderMode strName m2).m_RenderModesByName =
        (g.registerRenderMode strName m1).m_RenderModesByName ∧
      (g.isRegistered strName = false →
        ((g.registerRenderMode strName m1).registerRenderMode strName
          m2).m_RenderModesByName.find strName = some m1) ∧
      (∀ m0 : RenderModePtr, g.m_RenderModesByName.find strName = some m0 →
        ((g.registerRenderMode strName m1).registerRenderMode strName
          m2).m_RenderModesByName.find strName = some m0) := by
  have hSame : ((g.registerRenderMode strName m1).registerRenderMode strName
      m2).m_RenderModesByName = (g.registerRenderMode strName m1).m_RenderModesByName := by
    show (g.m_RenderModesByName.insert strName m1).insert strName m2 =
      g.m_RenderModesByName.insert strName m1
    exact UnorderedMap.insert_of_contains _ _ _ (UnorderedMap.contains_insert_self _ _ _)
  have hFind : (g.registerRenderMode strName m1).m_RenderModesByName.find strName =
      some ((g.m_RenderModesByName.find strName).getD m1) :=
    UnorderedMap.find_insert_self _ _ _
  refine ⟨hSame, ?_, ?_⟩
  · intro hNot
    rw [hSame, hFind]
    cases hOld : g.m_RenderModesByName.find strName with
    | none => rfl
    | some old => simp [CGraphics.isRegistered, UnorderedMap.contains, hOld] at hNot
  · intro m0 hOld
    rw [hSame, hFind, hOld]
    rfl

/-- Witness of the amended C5: in the sample state "debug" is not registered and
the two registrations leave it mapped to the first mode; in `debugGraphics`,
where "debug" is mapped to address 1, two further registrations keep that. -/
theorem registerRenderMode_first_write_wins_witness :
    sampleGraphics.isRegistered "debug" = false ∧
      ((sampleGraphics.registerRenderMode "debug" (some 1)).registerRenderMode "debug"
        (some 2)).m_RenderModesByName.find "debug" = some (some 1) ∧
      debugGraphics.m_RenderModesByName.find "debug" = some (some 1) ∧
      ((debugGraphics.registerRenderMode "debug" (some 2)).registerRenderMode "debug"
        (some 3)).m_RenderModesByName.find "debug" = some (some 1) :=
  ⟨by decide,
    (registerRenderMode_first_write_wins sampleGraphics "debug" (some 1) (some 2)).2.1
      (by decide),
    by decide,
    (registerRenderMode_first_write_wins debugGraphics "debug" (some 2) (some 3)).2.2
      (some 1) (by decide)⟩

/-! ### Batch lifecycle -/

/-- C7: a name registered with `registerRenderMode` is registered, and stays so
under later registrations; `beginRenderBatch(name)` returns success when name is
registered, and returns failure when name is not registered, in which case the
state after the call, and so the whole batch state (active render mode,
render-mode stack, buffer indices and buffers), is the one before the call. -/
theorem beginRenderBatchByName_result (g : CGraphics) (strName : String) :
    (∀ m : RenderModePtr, (g.registerRenderMode strName m).isRegistered strName = true) ∧
      (∀ (other : String) (m : RenderModePtr), g.isRegistered strName = true →
        (g.registerRenderMode other m).isRegistered strName = true) ∧
      (∀ m : RenderModePtr,
        ((g.registerRenderMode strName m).beginRenderBatchByName strName).1 = true) ∧
      (g.isRegistered strName = true → (g.beginRenderBatchByName strName).1 = true) ∧
      (g.isRegistered strName = false →
        (g.beginRenderBatchByName strName).1 = false ∧
          (g.beginRenderBatchByName strName).2 = g ∧
          (g.beginRenderBatchByName strName).2.batchState = g.batchState) := by
  have hSucc : ∀ h : CGraphics, h.isRegistered strName = true →
      (h.beginRenderBatchByName strName).1 = true := by
    intro h hReg
    unfold CGraphics.beginRenderBatchByName
    cases hFind : h.m_RenderModesByName.find strName with
    | none => simp [CGraphics.isRegistered, UnorderedMap.contains, hFind] at hReg
    | some pMode => rfl
  have hRegd : ∀ m : RenderModePtr, (g.registerRenderMode strName m).isRegistered strName = true :=
    fun m => UnorderedMap.contains_insert_self _ _ _
  refine ⟨hRegd, ?_, fun m => hSucc _ (hRegd m), hSucc g, ?_⟩
  · intro other m hReg
    exact UnorderedMap.contains_insert_of_contains _ _ _ _ hReg
  · intro hNot
    unfold CGraphics.beginRenderBatchByName
    cases hFind : g.m_RenderModesByName.find strName with
    | none => exact ⟨rfl, rfl, rfl⟩
    | some pMode => simp [CGraphics.isRegistered, UnorderedMap.contains, hFind] at hNot

/-- Witness of C7: after registering "debug", `beginRenderBatch("debug")`
succeeds, and `beginRenderBatch("unknown")` fails and leaves the state as it
was. -/
theorem beginRenderBatchByName_result_witness :
    (debugGraphics.isRegistered "debug" = true ∧
        (debugGraphics.beginRenderBatchByName "debug").1 = true) ∧
      (debugGraphics.isRegistered "unknown" = false ∧
        (debugGraphics.beginRenderBatchByName "unknown").1 = false ∧
        (debugGraphics.beginRenderBatchByName "unknown").2 = debugGraphics ∧
        (debugGraphics.beginRenderBatchByName "unknown").2.batchState =
          debugGraphics.batchState) :=
  ⟨⟨by decide, (beginRenderBatchByName_result debugGraphics "debug").2.2.2.1 (by decide)⟩,
    ⟨by decide, (beginRenderBatchByName_result debugGraphics "unknown").2.2.2.2 (by decide)⟩⟩

theorem CGraphics.stack_beginRenderBatch_le (g : CGraphics) (pRenderMode : RenderModePtr)
    (bForce : Bool) :
    (g.beginRenderBatch pRenderMode bForce).m_RenderModeStack.length ≤
      g.m_RenderModeStack.length + 1 := by
  unfold CGraphics.beginRenderBatch
  split
  · simp [CGraphics.resetBatchCounters]
  · split
    · exact Nat.le_succ _
    · simp [CGraphics.resetBatchCounters]

theorem CGraphics.stack_beginRenderBatchByName_le (g : CGraphics) (strName : String) :
    (g.beginRenderBatchByName strName).2.m_RenderModeStack.length ≤
      g.m_RenderModeStack.length + 1 := by
  unfold CGraphics.beginRenderBatchByName
  split
  · exact Nat.le_succ _
  · exact CGraphics.stack_beginRenderBatch_le g _ _

theorem CGraphics.stack_endRenderBatch (g : CGraphics) (bForce : Bool) :
    (g.endRenderBatch bForce).1.m_RenderModeStack = g.m_RenderModeStack.tail := by
  have hFlush : g.flushBuffers.m_RenderModeStack = g.m_RenderModeStack := rfl
  unfold CGraphics.endRenderBatch
  cases hStack : g.m_RenderModeStack with
  | nil =>
    have hNil : g.flushBuffers.m_RenderModeStack = [] := hFlush.trans hStack
    cases bForce <;> cases g.batchOpen <;> simp [hNil, hStack]
  | cons previous rest =>
    have hCons : g.flushBuffers.m_RenderModeStack = previous :: rest := hFlush.trans hStack
    cases bForce <;> simp [hCons]

theorem CGraphics.endRenderBatch_of_unmatched (g : CGraphics) (bForce : Bool)
    (hIdle : g.batchOpen = false) (hEmpty : g.m_RenderModeStack = []) :
    g.endRenderBatch bForce =
      (g, [ERROR_MSG "Graphics" "endRenderBatch without a matching beginRenderBatch"]) := by
  simp [CGraphics.endRenderBatch, hIdle, hEmpty]

theorem CGraphics.stack_run_of_nested (calls : List BatchCall) :
    ∀ (depth : Nat) (g : CGraphics), nestedFrom depth calls = true →
      g.m_RenderModeStack.length ≤ depth → (g.run calls).1.m_RenderModeStack = [] := by
  induction calls with
  | nil =>
    intro depth g hNested hLen
    have hZero : depth = 0 := by simpa [nestedFrom] using hNested
    subst hZero
    exact List.length_eq_zero.mp (Nat.le_zero.mp hLen)
  | cons c rest ih =>
    intro depth g hNested hLen
    show ((g.call c).1.run rest).1.m_RenderModeStack = []
    cases c with
    | beginMode pRenderMode bForce =>
      refine ih (depth + 1) _ (by simpa [nestedFrom] using hNested) ?_
      exact (CGraphics.stack_beginRenderBatch_le g pRenderMode bForce).trans
        (Nat.succ_le_succ hLen)
    | beginName strName =>
      refine ih (depth + 1) _ (by simpa [nestedFrom] using hNested) ?_
      exact (CGraphics.stack_beginRenderBatchByName_le g strName).trans
        (Nat.succ_le_succ hLen)
    | endBatch bForce =>
      cases depth with
      | zero => simp [nestedFrom] at hNested
      | succ d =>
        refine ih d _ (by simpa [nestedFrom] using hNested) ?_
        show (g.endRenderBatch bForce).1.m_RenderModeStack.length ≤ d
        rw [CGraphics.stack_endRenderBatch, List.length_tail]
        omega

/-- C10: from every state with an empty RenderModeStack, every balanced
(properly nested) sequence of beginRenderBatch / endRenderBatch calls leaves the
stack empty after the last call; and `endRenderBatch`, forced or not, called
with no batch open and an empty stack pops nothing: the call is a no-op (the
whole state, draw-call counter and buffers included, is as before) and it
reports an error. -/
theorem balanced_calls_leave_stack_empty (g : CGraphics) (hEmpty : g.m_RenderModeStack = []) :
    (∀ calls : List BatchCall, balanced calls = true →
        (g.run calls).1.m_RenderModeStack = []) ∧
      (g.batchOpen = false → ∀ bForce : Bool,
        (g.endRenderBatch bForce).1 = g ∧
          (g.endRenderBatch bForce).1.m_RenderModeStack = [] ∧
          (g.endRenderBatch bForce).1.m_nDrawCalls = g.m_nDrawCalls ∧
          (g.endRenderBatch bForce).2 ≠ [] ∧
          hasError (g.endRenderBatch bForce).2 = true) := by
  refine ⟨fun calls hBalanced =>
    CGraphics.stack_run_of_nested calls 0 g hBalanced (by simp [hEmpty]), ?_⟩
  intro hIdle bForce
  rw [CGraphics.endRenderBatch_of_unmatched g bForce hIdle hEmpty]
  exact ⟨rfl, hEmpty, rfl, List.cons_ne_nil _ _, rfl⟩

/-- Witness of C10: the balanced sequence `sampleCalls`, run from `debugGraphics`
(empty stack, no batch open), ends with an empty stack; a forced
`endRenderBatch` in `pendingGraphics` (no batch open, empty stack, one triangle
left in the buffers) changes nothing, submits nothing and reports an error. -/
theorem balanced_calls_leave_stack_empty_witness :
    (balanced sampleCalls = true ∧ debugGraphics.m_RenderModeStack = [] ∧
        (debugGraphics.run sampleCalls).1.m_RenderModeStack = []) ∧
      (pendingGraphics.m_RenderModeStack = [] ∧ pendingGraphics.batchOpen = false ∧
        (pendingGraphics.endRenderBatch true).1 = pendingGraphics ∧
        (pendingGraphics.endRenderBatch true).1.m_nDrawCalls = 0 ∧
        hasError (pendingGraphics.endRenderBatch true).2 = true) :=
  have hDebug : debugGraphics.m_RenderModeStack = [] := by decide
  have hPending : pendingGraphics.m_RenderModeStack = [] := by decide
  have hIdle : pendingGraphics.batchOpen = false := by decide
  have hEnd := (balanced_calls_leave_stack_empty pendingGraphics hPending).2 hIdle true
  ⟨⟨by decide, hDebug,
      (balanced_calls_leave_stack_empty debugGraphics hDebug).1 sampleCalls (by decide)⟩,
    hPending, hIdle, hEnd.1, hEnd.2.2.1, hEnd.2.2.2.2⟩

/-! ### Primitive emission, window handle and colour -/

theorem CGraphics.countersAligned_resetBatchCounters (g : CGraphics) :
    g.resetBatchCounters.CountersAligned :=
  ⟨rfl, rfl, Nat.zero_le _, Nat.zero_le _, Nat.zero_le _⟩

theorem CGraphics.countersAligned_flushBuffers (g : CGraphics) :
    g.flushBuffers.CountersAligned :=
  ⟨rfl, rfl, Nat.zero_le _, Nat.zero_le _, Nat.zero_le _⟩

theorem CGraphics.countersAligned_beginRenderBatch (g : CGraphics) (pRenderMode : RenderModePtr)
    (bForce : Bool) (hAligned : g.CountersAligned) :
    (g.beginRenderBatch pRenderMode bForce).CountersAligned := by
  unfold CGraphics.beginRenderBatch
  split
  · exact CGraphics.countersAligned_resetBatchCounters _
  · split
    · exact hAligned
    · exact CGraphics.countersAligned_resetBatchCounters _

theorem CGraphics.countersAligned_beginRenderBatchByName (g : CGraphics) (strName : String)
    (hAligned : g.CountersAligned) : (g.beginRenderBatchByName strName).2.CountersAligned := by
  unfold CGraphics.beginRenderBatchByName
  split
  · exact hAligned
  · exact CGraphics.countersAligned_beginRenderBatch g _ _ hAligned

theorem CGraphics.countersAligned_endRenderBatch (g : CGraphics) (bForce : Bool)
    (hAligned : g.CountersAligned) : (g.endRenderBatch bForce).1.CountersAligned := by
  unfold CGraphics.endRenderBatch
  split
  · exact hAligned
  · dsimp only
    split
    · split
      · exact CGraphics.countersAligned_flushBuffers g
      · exact CGraphics.countersAligned_flushBuffers g
    · exact CGraphics.countersAligned_flushBuffers g

theorem CGraphics.countersAligned_addVertex (g : CGraphics) (vecV : Vector2d)
    (hAligned : g.CountersAligned) : (g.addVertex vecV).CountersAligned := by
  obtain ⟨hIV, hIC, hVerts, hCols, hTris⟩ := hAligned
  unfold CGraphics.addVertex
  split
  · refine ⟨?_, ?_, ?_, ?_, hTris⟩
    · show g.m_unIndexVerts + FLOATS_PER_VERTEX = FLOATS_PER_VERTEX * (g.m_unIndex + 1)
      rw [hIV]; ring
    · show g.m_unIndexCol + FLOATS_PER_COLOUR = FLOATS_PER_COLOUR * (g.m_unIndex + 1)
      rw [hIC]; ring
    · show g.m_unIndexVerts + FLOATS_PER_VERTEX ≤
        (g.m_vecVertices.take g.m_unIndexVerts ++ _).length
      simp [Nat.min_eq_left hVerts, FLOATS_PER_VERTEX]
    · show g.m_unIndexCol + FLOATS_PER_COLOUR ≤
        (g.m_vecColours.take g.m_unIndexCol ++ _).length
      simp [Nat.min_eq_left hCols, FLOATS_PER_COLOUR, ColorTypeRGBA.floats]
  · exact ⟨hIV, hIC, hVerts, hCols, hTris⟩

theorem CGraphics.countersAligned_filledRect (g : CGraphics) (vecTL vecBR : Vector2d)
    (hAligned : g.CountersAligned) : (g.filledRect vecTL vecBR).CountersAligned := by
  unfold CGraphics.filledRect
  split
  · dsimp only
    have hStart : (if g.hasRoom 4 6 then g else g.restartRenderBatchInternal).CountersAligned := by
      split
      · exact hAligned
      · exact CGraphics.countersAligned_flushBuffers g
    have hFour := CGraphics.countersAligned_addVertex _ ⟨vecTL.x, vecBR.y⟩
      (CGraphics.countersAligned_addVertex _ vecBR
        (CGraphics.countersAligned_addVertex _ ⟨vecBR.x, vecTL.y⟩
          (CGraphics.countersAligned_addVertex _ vecTL hStart)))
    obtain ⟨hIV, hIC, hVerts, hCols, hTris⟩ := hFour
    refine ⟨hIV, hIC, hVerts, hCols, ?_⟩
    simp [Nat.min_eq_left hTris, rectTriangles]
  · exact hAligned

/-- C18: for every graphics state `getWindow` returns the stored window handle
unchanged and leaves the state as it is; it emits an error diagnostic if and
only if the stored handle is null, and in that case still returns (null). -/
theorem getWindow_result (g : CGraphics) :
    g.getWindow.1 = g.m_pWindow ∧ g.getWindow.2.1 = g ∧
      (hasError g.getWindow.2.2 = true ↔ g.m_pWindow = none) ∧
      (g.m_pWindow = none → g.getWindow.1 = none ∧
        g.getWindow.2.2 =
          [ERROR_MSG "Graphics" "No window handle. Maybe graphics wasn't initialised before."]) ∧
      (g.m_pWindow ≠ none → g.getWindow.2.2 = []) ∧
      (∀ pWindow : WindowHandlePtr, (g.setWindow pWindow).getWindow.1 = pWindow) := by
  have hOut : ∀ h : CGraphics, h.getWindow.1 = h.m_pWindow := by
    intro h
    unfold CGraphics.getWindow
    split <;> rfl
  refine ⟨hOut g, ?_, ?_, ?_, ?_, fun pWindow => hOut _⟩
  · unfold CGraphics.getWindow
    split <;> rfl
  · unfold CGraphics.getWindow
    by_cases hNull : g.m_pWindow = none
    · simp [hNull, hasError, LogEntry.isError, ERROR_MSG]
    · simp [hNull, hasError]
  · intro hNull
    unfold CGraphics.getWindow
    simp [hNull]
  · intro hSet
    unfold CGraphics.getWindow
    simp [hSet]

/-- Witness of C18: without a window (`sampleGraphics`) the null handle is
returned together with an error diagnostic; with the window at address 7
(`windowGraphics`) that handle is returned and nothing is logged. -/
theorem getWindow_result_witness :
    (sampleGraphics.m_pWindow = none ∧ sampleGraphics.getWindow.1 = none ∧
        hasError sampleGraphics.getWindow.2.2 = true) ∧
      (windowGraphics.m_pWindow ≠ none ∧ windowGraphics.getWindow.1 = some 7 ∧
        windowGraphics.getWindow.2.2 = []) :=
  ⟨⟨rfl, ((getWindow_result sampleGraphics).2.2.2.1 rfl).1,
      (getWindow_result sampleGraphics).2.2.1.mpr rfl⟩,
    ⟨by decide, (getWindow_result sampleGraphics).2.2.2.2.2 (some 7),
      (getWindow_result windowGraphics).2.2.2.2.1 (by decide)⟩⟩

/-- C19: for all r, g, b, a in [0,1], `setColor(r,g,b)` makes the current colour
exactly (r,g,b,1), `setColor(r,g,b,a)` and `setColor({r,g,b,a})` make it exactly
(r,g,b,a), so the current colour has all four components in [0,1]; no other
field of the graphics state changes (putting the old colour back gives the old
state). -/
theorem setColor_sets_colour (g : CGraphics) (fR fG fB fA : ℚ)
    (hR : 0 ≤ fR ∧ fR ≤ 1) (hG : 0 ≤ fG ∧ fG ≤ 1) (hB : 0 ≤ fB ∧ fB ≤ 1)
    (hA : 0 ≤ fA ∧ fA ≤ 1) :
    ((g.setColorRGB fR fG fB).m_aColour = ⟨fR, fG, fB, 1⟩ ∧
        (g.setColorRGB fR fG fB).m_aColour.InUnitRange ∧
        (g.setColorRGB fR fG fB).setColor g.m_aColour = g ∧
        g.setColorRGB fR fG fB = { g with m_aColour := ⟨fR, fG, fB, 1⟩ }) ∧
      ((g.setColorRGBA fR fG fB fA).m_aColour = ⟨fR, fG, fB, fA⟩ ∧
        (g.setColorRGBA fR fG fB fA).m_aColour.InUnitRange ∧
        (g.setColorRGBA fR fG fB fA).setColor g.m_aColour = g ∧
        g.setColorRGBA fR fG fB fA = { g with m_aColour := ⟨fR, fG, fB, fA⟩ }) ∧
      ((g.setColor ⟨fR, fG, fB, fA⟩).m_aColour = ⟨fR, fG, fB, fA⟩ ∧
        (g.setColor ⟨fR, fG, fB, fA⟩).m_aColour.InUnitRange ∧
        (g.setColor ⟨fR, fG, fB, fA⟩).setColor g.m_aColour = g ∧
        g.setColor ⟨fR, fG, fB, fA⟩ = { g with m_aColour := ⟨fR, fG, fB, fA⟩ }) :=
  ⟨⟨rfl, ⟨hR, hG, hB, (zero_le_one : (0 : ℚ) ≤ 1), (le_refl (1 : ℚ))⟩, rfl, rfl⟩,
    ⟨rfl, ⟨hR, hG, hB, hA⟩, rfl, rfl⟩,
    ⟨rfl, ⟨hR, hG, hB, hA⟩, rfl, rfl⟩⟩

/-- Witness of C19 with the colour (1/2, 0, 1, 1/4) in the sample state. -/
theorem setColor_sets_colour_witness :
    (sampleGraphics.setColorRGB (1 / 2) 0 1).m_aColour = ⟨1 / 2, 0, 1, 1⟩ ∧
      (sampleGraphics.setColorRGBA (1 / 2) 0 1 (1 / 4)).m_aColour = ⟨1 / 2, 0, 1, 1 / 4⟩ ∧
      (sampleGraphics.setColor ⟨1 / 2, 0, 1, 1 / 4⟩).m_aColour.InUnitRange :=
  have hAll := setColor_sets_colour sampleGraphics (1 / 2) 0 1 (1 / 4)
    (by norm_num) (by norm_num) (by norm_num) (by norm_num)
  ⟨hAll.1.1, hAll.2.1.1, hAll.2.2.2.1⟩

/-! ### Backend objects: render target, texture, shader program -/

theorem floorLog2Aux_eq_log (fuel : Nat) : ∀ n : Nat, n ≤ fuel → floorLog2Aux fuel n = Nat.log 2 n := by
  induction fuel with
  | zero =>
    intro n hLe
    have hZero : n = 0 := Nat.le_zero.mp hLe
    subst hZero
    simp [floorLog2Aux]
  | succ fuel ih =>
    intro n hLe
    unfold floorLog2Aux
    split
    · rename_i hSmall
      exact (Nat.log_of_lt hSmall).symm
    · rename_i hBig
      have hTwo : 2 ≤ n := Nat.le_of_not_lt hBig
      rw [ih (n / 2) (by omega), Nat.log_of_one_lt_of_le (by norm_num) hTwo]

theorem floorLog2_eq_log (n : Nat) : floorLog2 n = Nat.log 2 n :=
  floorLog2Aux_eq_log n n le_rfl

theorem liveFramebuffers_append (a b : List GLCall) :
    liveFramebuffers (a ++ b) = b.foldl stepFramebuffers (liveFramebuffers a) := by
  simp [liveFramebuffers, List.foldl_append]

theorem liveTextures_append (a b : List GLCall) :
    liveTextures (a ++ b) = b.foldl stepTextures (liveTextures a) := by
  simp [liveTextures, List.foldl_append]

theorem issued_of_append (before after : World) (seg : List GLCall)
    (hCalls : after.calls = before.calls ++ seg) : issued before after = seg := by
  simp [issued, hCalls]

theorem emitted_of_append (before after : World) (entries : List LogEntry)
    (hLog : after.log = before.log ++ entries) : emitted before after = entries := by
  simp [emitted, hLog]

theorem renderTarget_init_of_incomplete (rt : CRenderTarget) (gl : GLBackend) (w : World)
    (unResX unResY unSub : Nat) (hSub : unSub ≠ 0)
    (hStatus : rt.reportedStatus gl w unResX unResY unSub ≠ GL_FRAMEBUFFER_COMPLETE) :
    rt.init gl w unResX unResY unSub =
      some (false, (rt.configure gl w unResX unResY unSub).1,
        { calls := (rt.configure gl w unResX unResY unSub).2.calls ++ [.glCheckFramebufferStatus]
          log := (rt.configure gl w unResX unResY unSub).2.log ++
            [ERROR_MSG "Render Target" "Failed to create frame buffer"]
          cerr := (rt.configure gl w unResX unResY unSub).2.cerr }) := by
  unfold CRenderTarget.reportedStatus at hStatus
  simp [CRenderTarget.init, hSub, hStatus]

theorem renderTarget_init_of_complete (rt : CRenderTarget) (gl : GLBackend) (w : World)
    (unResX unResY unSub : Nat) (hSub : unSub ≠ 0)
    (hStatus : rt.reportedStatus gl w unResX unResY unSub = GL_FRAMEBUFFER_COMPLETE) :
    rt.init gl w unResX unResY unSub =
      some (true,
        { (rt.configure gl w unResX unResY unSub).1 with
          m_unResX := unResX, m_unResY := unResY, m_unSub := unSub },
        { calls := (rt.configure gl w unResX unResY unSub).2.calls ++
            [.glCheckFramebufferStatus, .glBindFramebuffer 0]
          log := (rt.configure gl w unResX unResY unSub).2.log
          cerr := (rt.configure gl w unResX unResY unSub).2.cerr }) := by
  unfold CRenderTarget.reportedStatus at hStatus
  simp [CRenderTarget.init, hSub, hStatus]

theorem renderTarget_configure_log (rt : CRenderTarget) (gl : GLBackend) (w : World)
    (unResX unResY unSub : Nat) :
    (rt.configure gl w unResX unResY unSub).2.log =
      w.log ++ [DEBUG_MSG "Render Target" " MipMapLevels created."] := rfl

/-- C12: `CRenderTarget::init` returns (for a subsampling factor other than 0;
with 0 its integer divisions are undefined), and it returns false if and only
if the backend reports the framebuffer as not complete after configuration,
emitting an error diagnostic in exactly that case; otherwise it returns true. -/
theorem renderTarget_init_result (rt : CRenderTarget) (gl : GLBackend) (w : World)
    (unResX unResY unSub : Nat) :
    (rt.init gl w unResX unResY unSub = none ↔ unSub = 0) ∧
      ∀ r : Bool × CRenderTarget × World, rt.init gl w unResX unResY unSub = some r →
        (r.1 = false ↔
          rt.reportedStatus gl w unResX unResY unSub ≠ GL_FRAMEBUFFER_COMPLETE) ∧
        (r.1 = true ↔
          rt.reportedStatus gl w unResX unResY unSub = GL_FRAMEBUFFER_COMPLETE) ∧
        (hasError (emitted w r.2.2) = true ↔
          rt.reportedStatus gl w unResX unResY unSub ≠ GL_FRAMEBUFFER_COMPLETE) := by
  constructor
  · constructor
    · intro hNone
      by_contra hSub
      by_cases hStatus : rt.reportedStatus gl w unResX unResY unSub = GL_FRAMEBUFFER_COMPLETE
      · rw [renderTarget_init_of_complete rt gl w unResX unResY unSub hSub hStatus] at hNone
        exact Option.noConfusion hNone
      · rw [renderTarget_init_of_incomplete rt gl w unResX unResY unSub hSub hStatus] at hNone
        exact Option.noConfusion hNone
    · intro hSub
      simp [CRenderTarget.init, hSub]
  · intro r hInit
    have hSub : unSub ≠ 0 := by
      intro hZero
      simp [CRenderTarget.init, hZero] at hInit
    by_cases hStatus : rt.reportedStatus gl w unResX unResY unSub = GL_FRAMEBUFFER_COMPLETE
    · rw [renderTarget_init_of_complete rt gl w unResX unResY unSub hSub hStatus] at hInit
      have hR := (Option.some.inj hInit).symm
      subst hR
      refine ⟨by simp [hStatus], by simp [hStatus], ?_⟩
      simp [emitted, renderTarget_configure_log, hStatus, hasError, LogEntry.isError, DEBUG_MSG]
    · rw [renderTarget_init_of_incomplete rt gl w unResX unResY unSub hSub hStatus] at hInit
      have hR := (Option.some.inj hInit).symm
      subst hR
      refine ⟨by simp [hStatus], by simp [hStatus], ?_⟩
      simp [emitted, renderTarget_configure_log, hStatus, hasError, LogEntry.isError, ERROR_MSG]

/-- Witness of C12: `firstInit` meets a complete framebuffer and returns true
without an error diagnostic; `failedInit` meets an incomplete one and returns
false with an error diagnostic. -/
theorem renderTarget_init_result_witness :
    (firstInit = some (true, heldTarget, heldWorld) ∧
        freshTarget.reportedStatus flakyBackend emptyWorld 800 600 2 =
          GL_FRAMEBUFFER_COMPLETE ∧
        hasError (emitted emptyWorld heldWorld) = false) ∧
      (failedInit.map (fun r => r.1) = some false ∧
        heldTarget.reportedStatus flakyBackend heldWorld 1024 768 1 ≠
          GL_FRAMEBUFFER_COMPLETE) :=
  have hFirst : firstInit = some (true, heldTarget, heldWorld) := by decide
  have hOne := (renderTarget_init_result freshTarget flakyBackend emptyWorld 800 600 2).2
    (true, heldTarget, heldWorld) hFirst
  ⟨⟨hFirst, hOne.2.1.mp rfl, by decide⟩, by decide, by decide⟩

theorem renderTarget_configure_calls (rt : CRenderTarget) (gl : GLBackend) (w : World)
    (unResX unResY unSub : Nat) :
    (rt.configure gl w unResX unResY unSub).2.calls =
      w.calls ++
        [.glDeleteFramebuffers rt.m_unIDFBO, .glDeleteTextures rt.m_unIDTex,
          .glGenFramebuffers (rt.configure gl w unResX unResY unSub).1.m_unIDFBO,
          .glBindFramebuffer (rt.configure gl w unResX unResY unSub).1.m_unIDFBO,
          .glGenTextures (rt.configure gl w unResX unResY unSub).1.m_unIDTex,
          .glBindTexture (rt.configure gl w unResX unResY unSub).1.m_unIDTex,
          .glTexStorage2D (mipMapLevels unResX unResY) (unResX / unSub) (unResY / unSub),
          .glTexSubImage2D (unResX / unSub) (unResY / unSub) "GL_RGBA" none,
          .glGenerateMipmap,
          .glTexParameteri "GL_TEXTURE_WRAP_S" "GL_CLAMP_TO_EDGE",
          .glTexParameteri "GL_TEXTURE_WRAP_T" "GL_CLAMP_TO_EDGE",
          .glTexParameteri "GL_TEXTURE_MAG_FILTER" "GL_LINEAR",
          .glTexParameteri "GL_TEXTURE_MIN_FILTER" "GL_LINEAR_MIPMAP_LINEAR",
          .glFramebufferTexture2D (rt.configure gl w unResX unResY unSub).1.m_unIDTex,
          .glDrawBuffers] := by
  simp [CRenderTarget.configure]

theorem renderTarget_configure_members (rt : CRenderTarget) (gl : GLBackend) (w : World)
    (unResX unResY unSub : Nat) :
    (rt.configure gl w unResX unResY unSub).1.m_unResX = rt.m_unResX ∧
      (rt.configure gl w unResX unResY unSub).1.m_unResY = rt.m_unResY ∧
      (rt.configure gl w unResX unResY unSub).1.m_unSub = rt.m_unSub ∧
      (rt.configure gl w unResX unResY unSub).1.m_unIDFBO =
        gl.genName (w.calls ++
          [.glDeleteFramebuffers rt.m_unIDFBO, .glDeleteTextures rt.m_unIDTex]) ∧
      (rt.configure gl w unResX unResY unSub).1.m_unIDTex =
        gl.genName (w.calls ++
          [.glDeleteFramebuffers rt.m_unIDFBO, .glDeleteTextures rt.m_unIDTex,
            .glGenFramebuffers (rt.configure gl w unResX unResY unSub).1.m_unIDFBO,
            .glBindFramebuffer (rt.configure gl w unResX unResY unSub).1.m_unIDFBO]) := by
  simp [CRenderTarget.configure]

/-- The calls issued by `CRenderTarget::init`: those of the configuration, the
status check, and the unbinding when the framebuffer is complete. -/
theorem renderTarget_init_calls (rt : CRenderTarget) (gl : GLBackend) (w : World)
    (unResX unResY unSub : Nat) (r : Bool × CRenderTarget × World)
    (hInit : rt.init gl w unResX unResY unSub = some r) :
    r.2.1.m_unIDFBO = (rt.configure gl w unResX unResY unSub).1.m_unIDFBO ∧
      r.2.1.m_unIDTex = (rt.configure gl w unResX unResY unSub).1.m_unIDTex ∧
      r.2.2.calls =
        (rt.configure gl w unResX unResY unSub).2.calls ++
          (.glCheckFramebufferStatus :: (if r.1 then [.glBindFramebuffer 0] else [])) := by
  have hSub : unSub ≠ 0 := by
    intro hZero
    simp [CRenderTarget.init, hZero] at hInit
  by_cases hStatus : rt.reportedStatus gl w unResX unResY unSub = GL_FRAMEBUFFER_COMPLETE
  · rw [renderTarget_init_of_complete rt gl w unResX unResY unSub hSub hStatus] at hInit
    have hR := (Option.some.inj hInit).symm
    subst hR
    exact ⟨rfl, rfl, rfl⟩
  · rw [renderTarget_init_of_incomplete rt gl w unResX unResY unSub hSub hStatus] at hInit
    have hR := (Option.some.inj hInit).symm
    subst hR
    exact ⟨rfl, rfl, rfl⟩

theorem not_mem_filter_ne (live : List Nat) (id : Nat) :
    id ∉ live.filter (fun n => n != id) := by
  simp [List.mem_filter]

theorem filter_ne_eq_nil (live : List Nat) (id : Nat) (hOwn : ∀ n ∈ live, n = id) :
    live.filter (fun n => n != id) = [] := by
  rw [List.filter_eq_nil_iff]
  intro n hMem
  simp [hOwn n hMem]

/-- The framebuffers alive after the calls of an `init`, from those alive
before. -/
theorem renderTarget_init_liveFramebuffers (rt : CRenderTarget) (gl : GLBackend) (w : World)
    (unResX unResY unSub : Nat) (r : Bool × CRenderTarget × World)
    (hInit : rt.init gl w unResX unResY unSub = some r) :
    liveFramebuffers r.2.2.calls =
      stepFramebuffers ((liveFramebuffers w.calls).filter (fun n => n != rt.m_unIDFBO))
        (.glGenFramebuffers r.2.1.m_unIDFBO) := by
  obtain ⟨hFBO, _, hCalls⟩ := renderTarget_init_calls rt gl w unResX unResY unSub r hInit
  rw [hCalls, renderTarget_configure_calls, List.append_assoc, liveFramebuffers_append, hFBO]
  cases r.1 <;> simp [stepFramebuffers]

/-- The textures alive after the calls of an `init`, from those alive before. -/
theorem renderTarget_init_liveTextures (rt : CRenderTarget) (gl : GLBackend) (w : World)
    (unResX unResY unSub : Nat) (r : Bool × CRenderTarget × World)
    (hInit : rt.init gl w unResX unResY unSub = some r) :
    liveTextures r.2.2.calls =
      stepTextures ((liveTextures w.calls).filter (fun n => n != rt.m_unIDTex))
        (.glGenTextures r.2.1.m_unIDTex) := by
  obtain ⟨_, hTex, hCalls⟩ := renderTarget_init_calls rt gl w unResX unResY unSub r hInit
  rw [hCalls, renderTarget_configure_calls, List.append_assoc, liveTextures_append, hTex]
  cases r.1 <;> simp [stepTextures]

theorem stepFramebuffers_gen (live : List Nat) (id : Nat) :
    stepFramebuffers live (.glGenFramebuffers id) = if id ∈ live then live else id :: live :=
  rfl

theorem stepTextures_gen (live : List Nat) (id : Nat) :
    stepTextures live (.glGenTextures id) = if id ∈ live then live else id :: live :=
  rfl

theorem not_mem_insert_of_ne (live : List Nat) (old new : Nat) (hNe : old ≠ new)
    (hNot : old ∉ live) : old ∉ (if new ∈ live then live else new :: live) := by
  split
  · exact hNot
  · intro hMem
    rcases List.mem_cons.mp hMem with hEq | hIn
    · exact hNe hEq
    · exact hNot hIn

theorem renderTarget_init_failed (rt : CRenderTarget) (gl : GLBackend) (w : World)
    (unResX unResY unSub : Nat) (r : Bool × CRenderTarget × World)
    (hInit : rt.init gl w unResX unResY unSub = some r) (hFail : r.1 = false) :
    r.2.1 = (rt.configure gl w unResX unResY unSub).1 := by
  have hSub : unSub ≠ 0 := by
    intro hZero
    simp [CRenderTarget.init, hZero] at hInit
  by_cases hStatus : rt.reportedStatus gl w unResX unResY unSub = GL_FRAMEBUFFER_COMPLETE
  · rw [renderTarget_init_of_complete rt gl w unResX unResY unSub hSub hStatus] at hInit
    have hR := (Option.some.inj hInit).symm
    subst hR
    exact Bool.noConfusion hFail
  · rw [renderTarget_init_of_incomplete rt gl w unResX unResY unSub hSub hStatus] at hInit
    have hR := (Option.some.inj hInit).symm
    subst hR
    rfl

/-- C13, counterexample: `heldTarget` holds framebuffer 3 and texture 5, both
alive; the call `failedInit` returns false and leaves the render target with
framebuffer id 20 and texture id 22, while framebuffer 3 and texture 5 are no
longer alive. -/
theorem renderTarget_init_failure_replaces_objects :
    (heldTarget = ⟨3, 5, 800, 600, 2⟩ ∧ 3 ∈ liveFramebuffers heldWorld.calls ∧
        5 ∈ liveTextures heldWorld.calls) ∧
      failedInit.map (fun r => r.1) = some false ∧
      failedInit.map (fun r => r.2.1) = some ⟨20, 22, 800, 600, 2⟩ ∧
      failedInit.map (fun r => r.2.1) ≠ some heldTarget ∧
      failedInit.map (fun r => liveFramebuffers r.2.2.calls) = some [20] ∧
      failedInit.map (fun r => liveTextures r.2.2.calls) = some [22] := by
  decide

/-- C13, amended: whenever `CRenderTarget::init` returns false, the stored
resolution (m_unResX, m_unResY) and the subsampling factor (m_unSub) are
unchanged; the framebuffer id and the texture id are the names the backend
generated during the call, the previously held framebuffer and texture have been
handed to the delete calls, and they are no longer alive unless the backend
handed out the same name again. -/
theorem renderTarget_init_failure_state (rt : CRenderTarget) (gl : GLBackend) (w : World)
    (unResX unResY unSub : Nat) (r : Bool × CRenderTarget × World)
    (hInit : rt.init gl w unResX unResY unSub = some r) (hFail : r.1 = false) :
    (r.2.1.m_unResX = rt.m_unResX ∧ r.2.1.m_unResY = rt.m_unResY ∧
        r.2.1.m_unSub = rt.m_unSub) ∧
      (r.2.1.m_unIDFBO =
          gl.genName (w.calls ++
            [.glDeleteFramebuffers rt.m_unIDFBO, .glDeleteTextures rt.m_unIDTex]) ∧
        r.2.1.m_unIDTex =
          gl.genName (w.calls ++
            [.glDeleteFramebuffers rt.m_unIDFBO, .glDeleteTextures rt.m_unIDTex,
              .glGenFramebuffers r.2.1.m_unIDFBO, .glBindFramebuffer r.2.1.m_unIDFBO])) ∧
      (GLCall.glDeleteFramebuffers rt.m_unIDFBO ∈ issued w r.2.2 ∧
        GLCall.glDeleteTextures rt.m_unIDTex ∈ issued w r.2.2) ∧
      (rt.m_unIDFBO ≠ r.2.1.m_unIDFBO → rt.m_unIDFBO ∉ liveFramebuffers r.2.2.calls) ∧
      (rt.m_unIDTex ≠ r.2.1.m_unIDTex → rt.m_unIDTex ∉ liveTextures r.2.2.calls) := by
  have hState := renderTarget_init_failed rt gl w unResX unResY unSub r hInit hFail
  have hMembers := renderTarget_configure_members rt gl w unResX unResY unSub
  obtain ⟨_, _, hCalls⟩ := renderTarget_init_calls rt gl w unResX unResY unSub r hInit
  rw [renderTarget_configure_calls, List.append_assoc] at hCalls
  have hIssued := issued_of_append w r.2.2 _ hCalls
  refine ⟨?_, ?_, ?_, ?_, ?_⟩
  · rw [hState]
    exact ⟨hMembers.1, hMembers.2.1, hMembers.2.2.1⟩
  · rw [hState]
    exact ⟨hMembers.2.2.2.1, hMembers.2.2.2.2⟩
  · rw [hIssued]
    simp
  · intro hNe hMem
    rw [renderTarget_init_liveFramebuffers rt gl w unResX unResY unSub r hInit,
      stepFramebuffers_gen] at hMem
    exact not_mem_insert_of_ne _ _ _ hNe (not_mem_filter_ne _ _) hMem
  · intro hNe hMem
    rw [renderTarget_init_liveTextures rt gl w unResX unResY unSub r hInit,
      stepTextures_gen] at hMem
    exact not_mem_insert_of_ne _ _ _ hNe (not_mem_filter_ne _ _) hMem

/-- Witness of the amended C13 on `failedInit`: the resolution 800 x 600 and the
subsampling factor 2 of `heldTarget` are kept, framebuffer 3 and texture 5 are
gone. -/
theorem renderTarget_init_failure_state_witness :
    failedInit = some (false, ⟨20, 22, 800, 600, 2⟩,
        (failedInit.getD (false, freshTarget, emptyWorld)).2.2) ∧
      heldTarget.m_unIDFBO ∉
        liveFramebuffers (failedInit.getD (false, freshTarget, emptyWorld)).2.2.calls ∧
      heldTarget.m_unIDTex ∉
        liveTextures (failedInit.getD (false, freshTarget, emptyWorld)).2.2.calls :=
  have hInit : heldTarget.init flakyBackend heldWorld 1024 768 1 =
      some (false, ⟨20, 22, 800, 600, 2⟩,
        (failedInit.getD (false, freshTarget, emptyWorld)).2.2) := by decide
  have hAll := renderTarget_init_failure_state heldTarget flakyBackend heldWorld 1024 768 1
    _ hInit rfl
  ⟨hInit, hAll.2.2.2.1 (by decide), hAll.2.2.2.2 (by decide)⟩

theorem texture_init_calls (t : CTexture) (gl : GLBackend) (w : World) (unResX unResY : Nat)
    (puchData : Option (List Nat)) :
    (t.init gl w unResX unResY puchData).2.2.calls =
      w.calls ++
        [.glDeleteTextures t.m_unID,
          .glGenTextures (t.init gl w unResX unResY puchData).2.1.m_unID,
          .glBindTexture (t.init gl w unResX unResY puchData).2.1.m_unID,
          .glTexStorage2D (mipMapLevels unResX unResY) unResX unResY,
          .glTexSubImage2D unResX unResY "GL_RGB" puchData,
          .glGenerateMipmap,
          .glTexParameteri "GL_TEXTURE_WRAP_S" "GL_CLAMP_TO_EDGE",
          .glTexParameteri "GL_TEXTURE_WRAP_T" "GL_CLAMP_TO_EDGE",
          .glTexParameteri "GL_TEXTURE_MAG_FILTER" "GL_LINEAR",
          .glTexParameteri "GL_TEXTURE_MIN_FILTER" "GL_LINEAR_MIPMAP_LINEAR"] := by
  simp [CTexture.init]

/-- The calls issued by one `CRenderTarget::init`, in order. -/
theorem renderTarget_init_issued (rt : CRenderTarget) (gl : GLBackend) (w : World)
    (unResX unResY unSub : Nat) (r : Bool × CRenderTarget × World)
    (hInit : rt.init gl w unResX unResY unSub = some r) :
    issued w r.2.2 =
      [.glDeleteFramebuffers rt.m_unIDFBO, .glDeleteTextures rt.m_unIDTex,
          .glGenFramebuffers r.2.1.m_unIDFBO, .glBindFramebuffer r.2.1.m_unIDFBO,
          .glGenTextures r.2.1.m_unIDTex, .glBindTexture r.2.1.m_unIDTex,
          .glTexStorage2D (mipMapLevels unResX unResY) (unResX / unSub) (unResY / unSub),
          .glTexSubImage2D (unResX / unSub) (unResY / unSub) "GL_RGBA" none,
          .glGenerateMipmap,
          .glTexParameteri "GL_TEXTURE_WRAP_S" "GL_CLAMP_TO_EDGE",
          .glTexParameteri "GL_TEXTURE_WRAP_T" "GL_CLAMP_TO_EDGE",
          .glTexParameteri "GL_TEXTURE_MAG_FILTER" "GL_LINEAR",
          .glTexParameteri "GL_TEXTURE_MIN_FILTER" "GL_LINEAR_MIPMAP_LINEAR",
          .glFramebufferTexture2D r.2.1.m_unIDTex,
          .glDrawBuffers] ++
        (.glCheckFramebufferStatus :: (if r.1 then [.glBindFramebuffer 0] else [])) := by
  obtain ⟨hFBO, hTex, hCalls⟩ := renderTarget_init_calls rt gl w unResX unResY unSub r hInit
  rw [renderTarget_configure_calls, List.append_assoc, ← hFBO, ← hTex] at hCalls
  exact issued_of_append w r.2.2 _ hCalls

/-- The framebuffers and textures that an object has generated and not deleted,
after one more `CRenderTarget::init` of the object. -/
theorem renderTarget_init_own_live (rt : CRenderTarget) (gl : GLBackend) (w : World)
    (unResX unResY unSub : Nat) (r : Bool × CRenderTarget × World)
    (hInit : rt.init gl w unResX unResY unSub = some r) (own : List GLCall) :
    liveFramebuffers (own ++ issued w r.2.2) =
        stepFramebuffers ((liveFramebuffers own).filter (fun n => n != rt.m_unIDFBO))
          (.glGenFramebuffers r.2.1.m_unIDFBO) ∧
      liveTextures (own ++ issued w r.2.2) =
        stepTextures ((liveTextures own).filter (fun n => n != rt.m_unIDTex))
          (.glGenTextures r.2.1.m_unIDTex) := by
  rw [renderTarget_init_issued rt gl w unResX unResY unSub r hInit, liveFramebuffers_append,
    liveTextures_append]
  constructor
  · cases r.1 <;> simp [stepFramebuffers]
  · cases r.1 <;> simp [stepTextures]

/-- After one `CRenderTarget::init` of an object that owned its objects, the
object has exactly the new framebuffer and the new texture left. -/
theorem renderTarget_init_owns (rt : CRenderTarget) (gl : GLBackend) (w : World)
    (unResX unResY unSub : Nat) (r : Bool × CRenderTarget × World)
    (hInit : rt.init gl w unResX unResY unSub = some r) (own : List GLCall)
    (hOwns : rt.Owns own) :
    r.2.1.Owns (own ++ issued w r.2.2) ∧
      liveFramebuffers (own ++ issued w r.2.2) = [r.2.1.m_unIDFBO] ∧
      liveTextures (own ++ issued w r.2.2) = [r.2.1.m_unIDTex] := by
  obtain ⟨hF, hT⟩ := renderTarget_init_own_live rt gl w unResX unResY unSub r hInit own
  have hLiveF : liveFramebuffers (own ++ issued w r.2.2) = [r.2.1.m_unIDFBO] := by
    rw [hF, filter_ne_eq_nil _ _ hOwns.1]
    rfl
  have hLiveT : liveTextures (own ++ issued w r.2.2) = [r.2.1.m_unIDTex] := by
    rw [hT, filter_ne_eq_nil _ _ hOwns.2]
    rfl
  refine ⟨⟨?_, ?_⟩, hLiveF, hLiveT⟩
  · intro id hMem
    rw [hLiveF] at hMem
    exact List.mem_singleton.mp hMem
  · intro id hMem
    rw [hLiveT] at hMem
    exact List.mem_singleton.mp hMem

/-- After one `CTexture::init` of an object that owned its texture, the object
has exactly the new texture left. -/
theorem texture_init_owns (t : CTexture) (gl : GLBackend) (w : World) (unResX unResY : Nat)
    (puchData : Option (List Nat)) (own : List GLCall) (hOwns : t.Owns own) :
    (t.init gl w unResX unResY puchData).2.1.Owns
        (own ++ issued w (t.init gl w unResX unResY puchData).2.2) ∧
      liveTextures (own ++ issued w (t.init gl w unResX unResY puchData).2.2) =
        [(t.init gl w unResX unResY puchData).2.1.m_unID] := by
  have hIssued := issued_of_append w _ _ (texture_init_calls t gl w unResX unResY puchData)
  have hLive : liveTextures (own ++ issued w (t.init gl w unResX unResY puchData).2.2) =
      [(t.init gl w unResX unResY puchData).2.1.m_unID] := by
    rw [hIssued, liveTextures_append]
    simp [stepTextures, filter_ne_eq_nil _ _ hOwns]
  refine ⟨?_, hLive⟩
  intro id hMem
  rw [hLive] at hMem
  exact List.mem_singleton.mp hMem

/-- Ownership is kept over the life of a render target. -/
theorem renderTarget_life_owns (gl : GLBackend) (calls : List RenderTargetInitCall) :
    ∀ (rt : CRenderTarget) (own : List GLCall) (result : CRenderTarget × List GLCall),
      rt.Owns own → (liveFramebuffers own).length ≤ 1 → (liveTextures own).length ≤ 1 →
      CRenderTarget.life gl rt own calls = some result →
        result.1.Owns result.2 ∧ (liveFramebuffers result.2).length ≤ 1 ∧
          (liveTextures result.2).length ≤ 1 := by
  induction calls with
  | nil =>
    intro rt own result hOwns hF hT hLife
    have hResult : result = (rt, own) := (Option.some.inj hLife).symm
    subst hResult
    exact ⟨hOwns, hF, hT⟩
  | cons c rest ih =>
    intro rt own result hOwns _ _ hLife
    unfold CRenderTarget.life at hLife
    cases hInit : rt.init gl c.world c.unResX c.unResY c.unSub with
    | none => simp [hInit] at hLife
    | some r =>
      simp only [hInit] at hLife
      obtain ⟨hOwns1, hF1, hT1⟩ :=
        renderTarget_init_owns rt gl c.world c.unResX c.unResY c.unSub r hInit own hOwns
      exact ih r.2.1 _ result hOwns1 (by simp [hF1]) (by simp [hT1]) hLife

/-- Ownership is kept over the life of a texture object. -/
theorem texture_life_owns (gl : GLBackend) (calls : List TextureInitCall) :
    ∀ (t : CTexture) (own : List GLCall),
      t.Owns own → (liveTextures own).length ≤ 1 →
        (CTexture.life gl t own calls).1.Owns (CTexture.life gl t own calls).2 ∧
          (liveTextures (CTexture.life gl t own calls).2).length ≤ 1 := by
  induction calls with
  | nil =>
    intro t own hOwns hT
    exact ⟨hOwns, hT⟩
  | cons c rest ih =>
    intro t own hOwns _
    obtain ⟨hOwns1, hT1⟩ := texture_init_owns t gl c.world c.unResX c.unResY c.puchData own hOwns
    exact ih _ _ hOwns1 (by simp [hT1])

/-- C14: in every call of `CRenderTarget::init` and of `CTexture::init`, made in
any world (whatever other objects hold there), the calls that delete the
previously held framebuffer/texture ids come first and no delete call follows a
call that generates a new id; so, `own` being the calls the object has issued
before, of the framebuffers and textures created by the object exactly the
newly generated framebuffer and texture (resp. texture) remain undeleted after
the call, given that before the call at most the held ones remained; this holds
at construction and is kept by every call, so that over every life of an object
at most one framebuffer and one texture (resp. one texture) created by it
remain undeleted, and none after the destructor of the render target. -/
theorem init_deletes_before_generating (gl : GLBackend) :
    (∀ (rt : CRenderTarget) (w : World) (unResX unResY unSub : Nat)
        (r : Bool × CRenderTarget × World),
        rt.init gl w unResX unResY unSub = some r →
          (deletesBeforeGens (issued w r.2.2) = true ∧
            ∃ rest : List GLCall,
              issued w r.2.2 =
                .glDeleteFramebuffers rt.m_unIDFBO :: .glDeleteTextures rt.m_unIDTex :: rest ∧
              rest.all (fun c => !c.isDelete) = true ∧
              GLCall.glGenFramebuffers r.2.1.m_unIDFBO ∈ rest ∧
              GLCall.glGenTextures r.2.1.m_unIDTex ∈ rest) ∧
          (∀ own : List GLCall, rt.Owns own →
            r.2.1.Owns (own ++ issued w r.2.2) ∧
              liveFramebuffers (own ++ issued w r.2.2) = [r.2.1.m_unIDFBO] ∧
              liveTextures (own ++ issued w r.2.2) = [r.2.1.m_unIDTex])) ∧
      (∀ (t : CTexture) (w : World) (unResX unResY : Nat) (puchData : Option (List Nat)),
        (deletesBeforeGens (issued w (t.init gl w unResX unResY puchData).2.2) = true ∧
          ∃ rest : List GLCall,
            issued w (t.init gl w unResX unResY puchData).2.2 =
              .glDeleteTextures t.m_unID :: rest ∧
            rest.all (fun c => !c.isDelete) = true ∧
            GLCall.glGenTextures (t.init gl w unResX unResY puchData).2.1.m_unID ∈ rest) ∧
        (∀ own : List GLCall, t.Owns own →
          (t.init gl w unResX unResY puchData).2.1.Owns
              (own ++ issued w (t.init gl w unResX unResY puchData).2.2) ∧
            liveTextures (own ++ issued w (t.init gl w unResX unResY puchData).2.2) =
              [(t.init gl w unResX unResY puchData).2.1.m_unID])) ∧
      (∀ (rt : CRenderTarget) (calls : List RenderTargetInitCall)
        (result : CRenderTarget × List GLCall),
        CRenderTarget.life gl rt [] calls = some result →
          result.1.Owns result.2 ∧ (liveFramebuffers result.2).length ≤ 1 ∧
            (liveTextures result.2).length ≤ 1) ∧
      (∀ (t : CTexture) (calls : List TextureInitCall),
        (CTexture.life gl t [] calls).1.Owns (CTexture.life gl t [] calls).2 ∧
          (liveTextures (CTexture.life gl t [] calls).2).length ≤ 1) ∧
      (∀ (rt : CRenderTarget) (w : World) (own : List GLCall), rt.Owns own →
        liveFramebuffers (own ++ issued w (rt.destructor w)) = [] ∧
          liveTextures (own ++ issued w (rt.destructor w)) = []) := by
  refine ⟨?_, ?_, ?_, ?_, ?_⟩
  · intro rt w unResX unResY unSub r hInit
    have hIssued := renderTarget_init_issued rt gl w unResX unResY unSub r hInit
    refine ⟨⟨?_, ⟨_, by rw [hIssued]; rfl, ?_, ?_, ?_⟩⟩, ?_⟩
    · rw [hIssued]
      cases r.1 <;> simp [deletesBeforeGens, GLCall.isGen, GLCall.isDelete]
    · cases r.1 <;> simp [GLCall.isDelete]
    · simp
    · simp
    · exact fun own hOwns =>
        renderTarget_init_owns rt gl w unResX unResY unSub r hInit own hOwns
  · intro t w unResX unResY puchData
    have hIssued := issued_of_append w _ _ (texture_init_calls t gl w unResX unResY puchData)
    refine ⟨⟨?_, ⟨_, by rw [hIssued], ?_, ?_⟩⟩, ?_⟩
    · rw [hIssued]
      simp [deletesBeforeGens, GLCall.isGen, GLCall.isDelete]
    · simp [GLCall.isDelete]
    · simp
    · exact fun own hOwns => texture_init_owns t gl w unResX unResY puchData own hOwns
  · intro rt calls result hLife
    refine renderTarget_life_owns gl calls rt [] result ⟨?_, ?_⟩ (by simp [liveFramebuffers])
      (by simp [liveTextures]) hLife
    · exact fun id hMem => absurd hMem (List.not_mem_nil id)
    · exact fun id hMem => absurd hMem (List.not_mem_nil id)
  · intro t calls
    exact texture_life_owns gl calls t []
      (fun id hMem => absurd hMem (List.not_mem_nil id)) (by simp [liveTextures])
  · intro rt w own hOwns
    have hIssued : issued w (rt.destructor w) =
        [.glDeleteFramebuffers rt.m_unIDFBO, .glDeleteTextures rt.m_unIDTex] :=
      issued_of_append w _ _ rfl
    rw [hIssued, liveFramebuffers_append, liveTextures_append]
    constructor
    · simp [stepFramebuffers, filter_ne_eq_nil _ _ hOwns.1]
    · simp [stepTextures, filter_ne_eq_nil _ _ hOwns.2]

/-- Witness of C14 with two render targets in one world.  `heldTarget` holds
framebuffer 3 and texture 5 when a second target is initialised (`secondInit`):
the world then has two framebuffers (20, 3) and two textures (22, 5) alive, of
which the second target has created exactly one each.  Then `heldTarget` is
initialised again (`reInit`): its deletes of 3 and 5 precede its generates, and
of the objects it has created over both calls exactly framebuffer 36 and texture
38 remain. -/
theorem init_deletes_before_generating_witness :
    ((freshTarget.Owns [] ∧
          freshTarget.init flakyBackend heldWorld 640 480 1 =
            some (false, secondTarget, secondWorld)) ∧
        (liveFramebuffers heldWorld.calls = [3] ∧ liveTextures heldWorld.calls = [5] ∧
          liveFramebuffers secondWorld.calls = [20, 3] ∧
          liveTextures secondWorld.calls = [22, 5]) ∧
        deletesBeforeGens (issued heldWorld secondWorld) = true ∧
        liveFramebuffers ([] ++ issued heldWorld secondWorld) = [20] ∧
        liveTextures ([] ++ issued heldWorld secondWorld) = [22]) ∧
      ((heldTarget.Owns (issued emptyWorld heldWorld) ∧
          heldTarget.init flakyBackend secondWorld 1024 768 1 =
            some (false, ⟨36, 38, 800, 600, 2⟩,
              (reInit.getD (false, freshTarget, emptyWorld)).2.2)) ∧
        deletesBeforeGens
          (issued secondWorld (reInit.getD (false, freshTarget, emptyWorld)).2.2) = true ∧
        liveFramebuffers (issued emptyWorld heldWorld ++
          issued secondWorld (reInit.getD (false, freshTarget, emptyWorld)).2.2) = [36] ∧
        liveTextures (issued emptyWorld heldWorld ++
          issued secondWorld (reInit.getD (false, freshTarget, emptyWorld)).2.2) = [38] ∧
        liveFramebuffers (reInit.getD (false, freshTarget, emptyWorld)).2.2.calls = [36, 20] ∧
        liveTextures (reInit.getD (false, freshTarget, emptyWorld)).2.2.calls = [38, 22]) :=
  have hFresh : freshTarget.Owns [] :=
    ⟨fun id hMem => absurd hMem (List.not_mem_nil id),
      fun id hMem => absurd hMem (List.not_mem_nil id)⟩
  have hSecond : freshTarget.init flakyBackend heldWorld 640 480 1 =
      some (false, secondTarget, secondWorld) := by decide
  have hAll := (init_deletes_before_generating flakyBackend).1 freshTarget heldWorld 640 480 1
    (false, secondTarget, secondWorld) hSecond
  have hHeld : heldTarget.Owns (issued emptyWorld heldWorld) := by
    constructor
    · intro id hMem
      have hLive : liveFramebuffers (issued emptyWorld heldWorld) = [3] := by decide
      rw [hLive] at hMem
      exact List.mem_singleton.mp hMem
    · intro id hMem
      have hLive : liveTextures (issued emptyWorld heldWorld) = [5] := by decide
      rw [hLive] at hMem
      exact List.mem_singleton.mp hMem
  have hRe : heldTarget.init flakyBackend secondWorld 1024 768 1 =
      some (false, ⟨36, 38, 800, 600, 2⟩,
        (reInit.getD (false, freshTarget, emptyWorld)).2.2) := by decide
  have hAll2 := (init_deletes_before_generating flakyBackend).1 heldTarget secondWorld 1024 768 1
    _ hRe
  ⟨⟨⟨hFresh, hSecond⟩, ⟨by decide, by decide, by decide, by decide⟩, hAll.1.1,
      (hAll.2 [] hFresh).2.1, (hAll.2 [] hFresh).2.2⟩,
    ⟨hHeld, hRe⟩, hAll2.1.1, (hAll2.2 _ hHeld).2.1, (hAll2.2 _ hHeld).2.2,
    by decide, by decide⟩

theorem shaderProgram_link_of_failed (p : CShaderProgram) (gl : GLBackend) (w : World)
    (hStatus : p.reportedLinkStatus gl w = GL_FALSE) :
    p.link gl w =
      (false, p,
        { calls := w.calls ++
            [.glLinkProgram p.m_unID, .glGetProgramiv p.m_unID "GL_LINK_STATUS",
              .glGetProgramiv p.m_unID "GL_INFO_LOG_LENGTH", .glGetProgramInfoLog p.m_unID,
              .glDeleteProgram p.m_unID]
          log := w.log ++ [ERROR_MSG "Shader Program" "Failed to link shader program"]
          cerr := w.cerr ++ p.reportedInfoLog gl w ++ [Char.ofNat 10] }) := by
  unfold CShaderProgram.reportedLinkStatus at hStatus
  simp [CShaderProgram.link, CShaderProgram.reportedInfoLog, hStatus]

theorem shaderProgram_link_of_linked (p : CShaderProgram) (gl : GLBackend) (w : World)
    (hStatus : p.reportedLinkStatus gl w ≠ GL_FALSE) :
    p.link gl w =
      (true, { p with Shaders := [] },
        { calls := w.calls ++
            [.glLinkProgram p.m_unID, .glGetProgramiv p.m_unID "GL_LINK_STATUS"] ++
            p.Shaders.map (fun it => GLCall.glDetachShader p.m_unID it)
          log := w.log ++ [INFO_MSG "Shader Program" "Successfully linked shader program"]
          cerr := w.cerr }) := by
  unfold CShaderProgram.reportedLinkStatus at hStatus
  simp [CShaderProgram.link, hStatus]

/-- C15: `CShaderProgram::link` returns false if and only if the backend reports
link status GL_FALSE for the program; in exactly that case it emits an error
diagnostic and writes the backend's info log to the error stream; otherwise it
returns true, with no error diagnostic and nothing written. -/
theorem shaderProgram_link_result (p : CShaderProgram) (gl : GLBackend) (w : World) :
    ((p.link gl w).1 = false ↔ p.reportedLinkStatus gl w = GL_FALSE) ∧
      ((p.link gl w).1 = true ↔ p.reportedLinkStatus gl w ≠ GL_FALSE) ∧
      (hasError (emitted w (p.link gl w).2.2) = true ↔ p.reportedLinkStatus gl w = GL_FALSE) ∧
      (p.reportedLinkStatus gl w = GL_FALSE →
        emitted w (p.link gl w).2.2 =
            [ERROR_MSG "Shader Program" "Failed to link shader program"] ∧
          written w (p.link gl w).2.2 = p.reportedInfoLog gl w ++ [Char.ofNat 10]) ∧
      (p.reportedLinkStatus gl w ≠ GL_FALSE → written w (p.link gl w).2.2 = []) := by
  by_cases hStatus : p.reportedLinkStatus gl w = GL_FALSE
  · rw [shaderProgram_link_of_failed p gl w hStatus]
    simp [hStatus, emitted, written, hasError, LogEntry.isError, ERROR_MSG]
  · rw [shaderProgram_link_of_linked p gl w hStatus]
    simp [hStatus, emitted, written, hasError, LogEntry.isError, INFO_MSG]

/-- Witness of C15: linking `attachedProgram` with a backend that reports
GL_FALSE returns false, logs the error and writes the info log; with a backend
that reports GL_TRUE it returns true. -/
theorem shaderProgram_link_result_witness :
    (attachedProgram.reportedLinkStatus (constBackend 0 GL_FALSE) emptyWorld = GL_FALSE ∧
        (attachedProgram.link (constBackend 0 GL_FALSE) emptyWorld).1 = false ∧
        written emptyWorld (attachedProgram.link (constBackend 0 GL_FALSE) emptyWorld).2.2 =
          ['E', 'r', 'r', Char.ofNat 10]) ∧
      (attachedProgram.reportedLinkStatus (constBackend 0 GL_TRUE) emptyWorld ≠ GL_FALSE ∧
        (attachedProgram.link (constBackend 0 GL_TRUE) emptyWorld).1 = true) :=
  have hFailed : attachedProgram.reportedLinkStatus (constBackend 0 GL_FALSE) emptyWorld =
      GL_FALSE := rfl
  have hLinked : attachedProgram.reportedLinkStatus (constBackend 0 GL_TRUE) emptyWorld ≠
      GL_FALSE := by decide
  ⟨⟨hFailed,
      (shaderProgram_link_result attachedProgram (constBackend 0 GL_FALSE) emptyWorld).1.mpr
        hFailed,
      ((shaderProgram_link_result attachedProgram (constBackend 0 GL_FALSE)
        emptyWorld).2.2.2.1 hFailed).2⟩,
    ⟨hLinked,
      (shaderProgram_link_result attachedProgram (constBackend 0 GL_TRUE) emptyWorld).2.1.mpr
        hLinked⟩⟩

/-- C16, evaluation: `create` returns nothing.  `link` tells a backend whose link
fails (false) from one whose link succeeds (true); inside `create` the failure
is logged and the program deleted, yet the result of `create` is the same for
both backends. -/
theorem shaderProgram_create_hides_link_result :
    ((attachedProgram.link (constBackend 0 GL_FALSE) emptyWorld).1 = false ∧
        (attachedProgram.link (constBackend 0 GL_TRUE) emptyWorld).1 = true) ∧
      (hasError (emitted emptyWorld
          (sampleProgram.create sampleAddShader (constBackend 0 GL_FALSE) emptyWorld 4 6).2.2) =
            true ∧
        GLCall.glDeleteProgram 1 ∈
          (sampleProgram.create sampleAddShader (constBackend 0 GL_FALSE)
            emptyWorld 4 6).2.2.calls) ∧
      hasError (emitted emptyWorld
        (sampleProgram.create sampleAddShader (constBackend 0 GL_TRUE) emptyWorld 4 6).2.2) =
          false ∧
      (sampleProgram.create sampleAddShader (constBackend 0 GL_FALSE) emptyWorld 4 6).1 =
        (sampleProgram.create sampleAddShader (constBackend 0 GL_TRUE) emptyWorld 4 6).1 := by
  decide

/-- The result of `create` never depends on the backend. -/
theorem shaderProgram_create_result_const {CShader : Type}
    (addShader : CShaderProgram → World → CShader → CShaderProgram × World)
    (p : CShaderProgram) (gl1 gl2 : GLBackend) (w : World) (vs fs : CShader) :
    (p.create addShader gl1 w vs fs).1 = (p.create addShader gl2 w vs fs).1 :=
  rfl

/-- C17: `CTexture::load(name)` returns true if and only if the image decoder
returns data for the file; when it returns false the texture, and so its id, is
unchanged and no backend call at all, in particular no texture call (delete,
generate, storage, upload), has been made; a warning is logged. -/
theorem texture_load_result (t : CTexture) (gl : GLBackend)
    (stbi_load : String → Option DecodedImage) (w : World) (strName : String) :
    ((t.load gl stbi_load w strName).1 = true ↔ stbi_load strName ≠ none) ∧
      ((t.load gl stbi_load w strName).1 = false ↔ stbi_load strName = none) ∧
      ((t.load gl stbi_load w strName).1 = false →
        (t.load gl stbi_load w strName).2.1 = t ∧
          (t.load gl stbi_load w strName).2.1.m_unID = t.m_unID ∧
          (t.load gl stbi_load w strName).2.2.calls = w.calls ∧
          issued w (t.load gl stbi_load w strName).2.2 = [] ∧
          (issued w (t.load gl stbi_load w strName).2.2).any GLCall.isTextureCall = false ∧
          emitted w (t.load gl stbi_load w strName).2.2 =
            [WARNING_MSG "Texture" ("Couldn't load texture " ++ strName)]) := by
  cases hLoad : stbi_load strName with
  | none => simp [CTexture.load, hLoad, issued, emitted]
  | some image => simp [CTexture.load, hLoad]

/-- Witness of C17 with `sampleDecoder`: "brick.png" is decoded and `load`
returns true; "missing.png" is not, `load` returns false and the texture and the
call history are untouched. -/
theorem texture_load_result_witness :
    (sampleDecoder "brick.png" ≠ none ∧
        (freshTexture.load flakyBackend sampleDecoder emptyWorld "brick.png").1 = true) ∧
      ((freshTexture.load flakyBackend sampleDecoder emptyWorld "missing.png").1 = false ∧
        (freshTexture.load flakyBackend sampleDecoder emptyWorld "missing.png").2.1 =
          freshTexture ∧
        (freshTexture.load flakyBackend sampleDecoder emptyWorld "missing.png").2.2.calls =
          emptyWorld.calls) :=
  have hData : sampleDecoder "brick.png" ≠ none := by decide
  have hFalse : (freshTexture.load flakyBackend sampleDecoder emptyWorld "missing.png").1 =
      false := by decide
  have hAll := (texture_load_result freshTexture flakyBackend sampleDecoder emptyWorld
    "missing.png").2.2 hFalse
  ⟨⟨hData,
      (texture_load_result freshTexture flakyBackend sampleDecoder emptyWorld
        "brick.png").1.mpr hData⟩,
    ⟨hFalse, hAll.1, hAll.2.2.1⟩⟩

theorem max_div_eq (x y s : Nat) : max (x / s) (y / s) = max x y / s := by
  rcases Nat.le_total x y with hLe | hLe
  · rw [max_eq_right hLe, max_eq_right (Nat.div_le_div_right hLe)]
  · rw [max_eq_left hLe, max_eq_left (Nat.div_le_div_right hLe)]

/-- For a subsampling factor of 2 or more, the level count computed from the
full resolution exceeds the full mip chain of the subsampled texture. -/
theorem mipMapLevels_exceed_chain (unResX unResY unSub : Nat) (hSub : 2 ≤ unSub)
    (hSize : 1 ≤ max (unResX / unSub) (unResY / unSub)) :
    ∃ levels : Int, mipMapLevels unResX unResY = some levels ∧
      fullMipChain (unResX / unSub) (unResY / unSub) < levels := by
  rw [max_div_eq] at hSize
  have hPos : 0 < unSub := by omega
  have hBig : unSub ≤ max unResX unResY := by
    by_contra hLt
    rw [Nat.div_eq_of_lt (Nat.lt_of_not_le hLt)] at hSize
    omega
  have hTwo : 2 ≤ max unResX unResY := hSub.trans hBig
  refine ⟨(floorLog2 (max unResX unResY) : Int) + 1, ?_, ?_⟩
  · have hNe : max unResX unResY ≠ 0 := by omega
    simp [mipMapLevels, hNe]
  · unfold fullMipChain
    rw [max_div_eq, floorLog2_eq_log, floorLog2_eq_log]
    have hHalf : max unResX unResY / unSub ≤ max unResX unResY / 2 :=
      Nat.div_le_div_left hSub (by norm_num)
    have hLog : Nat.log 2 (max unResX unResY / unSub) ≤ Nat.log 2 (max unResX unResY) - 1 := by
      rw [← Nat.log_div_base]
      exact Nat.log_mono_right hHalf
    have hOne : 1 ≤ Nat.log 2 (max unResX unResY) := Nat.log_pos (by norm_num) hTwo
    omega

/-- The texture storage call of `CRenderTarget::init` gets the level count of the
full resolution and the subsampled size. -/
theorem renderTarget_init_storage (rt : CRenderTarget) (gl : GLBackend) (w : World)
    (unResX unResY unSub : Nat) (r : Bool × CRenderTarget × World)
    (hInit : rt.init gl w unResX unResY unSub = some r) :
    storageCalls (issued w r.2.2) =
      [(mipMapLevels unResX unResY, unResX / unSub, unResY / unSub)] := by
  obtain ⟨_, _, hCalls⟩ := renderTarget_init_calls rt gl w unResX unResY unSub r hInit
  rw [renderTarget_configure_calls, List.append_assoc] at hCalls
  rw [issued_of_append w r.2.2 _ hCalls]
  cases r.1 <;> simp [storageCalls]

/-- C20, evaluation: `init(800, 600, 2)` allocates a texture of 400 x 300, whose
full mip chain has floor(log2(400)) + 1 = 9 levels, and passes 10 levels, the
count computed from 800 x 600, to the texture storage call. -/
theorem renderTarget_init_levels_exceed_chain :
    firstInit.map (fun r => storageCalls (issued emptyWorld r.2.2)) =
        some [(some 10, 400, 300)] ∧
      mipMapLevels 800 600 = some 10 ∧
      fullMipChain (800 / 2) (600 / 2) = 9 ∧
      ¬ ((10 : Int) ≤ fullMipChain (800 / 2) (600 / 2)) := by
  decide

/-! ### Mip-map level count, image size, detaching of shaders -/

theorem size_eq_log_succ (n : Nat) (hPos : n ≠ 0) : Nat.size n = Nat.log 2 n + 1 := by
  apply le_antisymm
  · exact Nat.size_le.mpr (Nat.lt_pow_succ_log_self (by norm_num) n)
  · exact Nat.lt_size.mpr (Nat.pow_log_le_self 2 hPos)

/-- C21: for every 16-bit resX, resY with max(resX, resY) >= 1, the mip-map
level count computed by `CTexture::init` and `CRenderTarget::init`,
floor(log2(max(resX,resY))) + 1, equals the bit length of max(resX, resY) and
lies between 1 and 16; it is the count both functions hand to the texture
storage call. -/
theorem mipMapLevels_eq_bit_length (unResX unResY : Nat) (hX : unResX < 65536)
    (hY : unResY < 65536) (hPos : 1 ≤ max unResX unResY) :
    (mipMapLevels unResX unResY = some ((Nat.log 2 (max unResX unResY) : Int) + 1) ∧
        mipMapLevels unResX unResY = some (Nat.size (max unResX unResY) : Int) ∧
        mipMapLevels unResX unResY =
          some ((Nat.digits 2 (max unResX unResY)).length : Int)) ∧
      (1 ≤ Nat.size (max unResX unResY) ∧ Nat.size (max unResX unResY) ≤ 16) ∧
      (∀ (t : CTexture) (gl : GLBackend) (w : World) (puchData : Option (List Nat)),
        storageCalls (issued w (t.init gl w unResX unResY puchData).2.2) =
          [(some (Nat.size (max unResX unResY) : Int), unResX, unResY)]) ∧
      (∀ (rt : CRenderTarget) (gl : GLBackend) (w : World) (unSub : Nat)
          (r : Bool × CRenderTarget × World),
        rt.init gl w unResX unResY unSub = some r →
          storageCalls (issued w r.2.2) =
            [(some (Nat.size (max unResX unResY) : Int), unResX / unSub, unResY / unSub)]) := by
  have hNe : max unResX unResY ≠ 0 := by omega
  have hLevels : mipMapLevels unResX unResY = some (Nat.size (max unResX unResY) : Int) := by
    simp only [mipMapLevels, hNe, if_false, floorLog2_eq_log, size_eq_log_succ _ hNe]
    norm_cast
  have hLt : max unResX unResY < 2 ^ 16 := max_lt hX hY
  refine ⟨⟨?_, hLevels, ?_⟩, ⟨Nat.size_pos.mpr (by omega), Nat.size_le.mpr hLt⟩, ?_, ?_⟩
  · rw [hLevels, size_eq_log_succ _ hNe]
    norm_cast
  · rw [hLevels, Nat.digits_len 2 _ (by norm_num) hNe, size_eq_log_succ _ hNe]
  · intro t gl w puchData
    rw [issued_of_append w _ _ (texture_init_calls t gl w unResX unResY puchData), hLevels]
    simp [storageCalls]
  · intro rt gl w unSub r hInit
    rw [renderTarget_init_storage rt gl w unResX unResY unSub r hInit, hLevels]

/-- Witness of C21 at 800 x 600: the level count is 10, the bit length of 800. -/
theorem mipMapLevels_eq_bit_length_witness :
    ((800 : Nat) < 65536 ∧ (600 : Nat) < 65536 ∧ 1 ≤ max 800 600) ∧
      mipMapLevels 800 600 = some (Nat.size (max 800 600) : Int) ∧
      mipMapLevels 800 600 = some 10 ∧
      (1 ≤ Nat.size (max 800 600) ∧ Nat.size (max 800 600) ≤ 16) :=
  have hAll := mipMapLevels_eq_bit_length 800 600 (by norm_num) (by norm_num) (by norm_num)
  ⟨⟨by norm_num, by norm_num, by norm_num⟩, hAll.1.2.1, by decide, hAll.2.1⟩

theorem toUInt16_of_range (n : Int) (hLow : 0 ≤ n) (hHigh : n < 65536) :
    (toUInt16 n : Int) = n := by
  unfold toUInt16
  rw [Int.emod_eq_of_lt hLow hHigh]
  exact Int.toNat_of_nonneg hLow

/-- What `CTexture::load` hands to `CTexture::init` for a decoded image: the
width and height converted to 16 bits. -/
theorem texture_load_sizes (t : CTexture) (gl : GLBackend)
    (stbi_load : String → Option DecodedImage) (w : World) (strName : String)
    (image : DecodedImage) (hLoad : stbi_load strName = some image) :
    storageCalls (issued w (t.load gl stbi_load w strName).2.2) =
      [(mipMapLevels (toUInt16 image.nWidth) (toUInt16 image.nHeight),
        toUInt16 image.nWidth, toUInt16 image.nHeight)] := by
  have hCalls : (t.load gl stbi_load w strName).2.2.calls =
      (t.init gl w (toUInt16 image.nWidth) (toUInt16 image.nHeight)
        (some image.data)).2.2.calls := by
    simp [CTexture.load, hLoad]
  have hIssued : issued w (t.load gl stbi_load w strName).2.2 =
      issued w (t.init gl w (toUInt16 image.nWidth) (toUInt16 image.nHeight)
        (some image.data)).2.2 := by
    unfold issued
    rw [hCalls]
  rw [hIssued, issued_of_append w _ _ (texture_init_calls t gl w _ _ _)]
  simp [storageCalls]

/-- C22, evaluation: for the decoded image "strip.png" of 70000 by 2 pixels,
`CTexture::load` returns true and `CTexture::init` receives the width
70000 mod 65536 = 4464 and the height 2: the texture is allocated with 4464 x 2
and 13 levels, not with the decoded width. -/
theorem texture_load_truncates_width :
    wideDecoder "strip.png" = some ⟨70000, 2, 3, []⟩ ∧
      (freshTexture.load flakyBackend wideDecoder emptyWorld "strip.png").1 = true ∧
      storageCalls
          (issued emptyWorld
            (freshTexture.load flakyBackend wideDecoder emptyWorld "strip.png").2.2) =
        [(some 13, 4464, 2)] ∧
      toUInt16 70000 = 4464 ∧ (toUInt16 70000 : Int) ≠ 70000 := by
  decide

theorem detachCalls_append (a b : List GLCall) :
    detachCalls (a ++ b) = detachCalls a ++ detachCalls b := by
  induction a with
  | nil => rfl
  | cons c rest ih => cases c <;> simp [detachCalls, ih]

theorem detachCalls_map (program : Nat) (shaders : List Nat) :
    detachCalls (shaders.map (fun it => GLCall.glDetachShader program it)) =
      shaders.map (fun it => (program, it)) := by
  induction shaders with
  | nil => rfl
  | cons shader rest ih => simp [detachCalls, ih]

theorem deleteProgramCount_append (program : Nat) (a b : List GLCall) :
    deleteProgramCount program (a ++ b) =
      deleteProgramCount program a + deleteProgramCount program b := by
  induction a with
  | nil => simp [deleteProgramCount]
  | cons c rest ih => cases c <;> simp [deleteProgramCount, ih, Nat.add_assoc]

theorem deleteProgramCount_map_detach (program other : Nat) (shaders : List Nat) :
    deleteProgramCount program
      (shaders.map (fun it => GLCall.glDetachShader other it)) = 0 := by
  induction shaders with
  | nil => rfl
  | cons shader rest ih => simp [deleteProgramCount, ih]

/-- C23: for every shader program state, when `CShaderProgram::link` succeeds
each shader of the attached list is detached from the program once, in list
order, and the list is empty afterwards (the program is not deleted); when it
fails the attached list, and the whole program state, is unchanged, no shader is
detached and the program is deleted exactly once. -/
theorem shaderProgram_link_detaches (p : CShaderProgram) (gl : GLBackend) (w : World) :
    ((p.link gl w).1 = true →
        detachCalls (issued w (p.link gl w).2.2) =
            p.Shaders.map (fun it => (p.m_unID, it)) ∧
          (p.link gl w).2.1.Shaders = [] ∧
          (p.link gl w).2.1.m_unID = p.m_unID ∧
          deleteProgramCount p.m_unID (issued w (p.link gl w).2.2) = 0) ∧
      ((p.link gl w).1 = false →
        (p.link gl w).2.1.Shaders = p.Shaders ∧
          (p.link gl w).2.1 = p ∧
          detachCalls (issued w (p.link gl w).2.2) = [] ∧
          deleteProgramCount p.m_unID (issued w (p.link gl w).2.2) = 1) := by
  by_cases hStatus : p.reportedLinkStatus gl w = GL_FALSE
  · rw [shaderProgram_link_of_failed p gl w hStatus]
    refine ⟨fun hTrue => Bool.noConfusion hTrue, fun _ => ⟨rfl, rfl, ?_, ?_⟩⟩
    · rw [issued_of_append w _ _ rfl]
      simp [detachCalls]
    · rw [issued_of_append w _ _ rfl]
      simp [deleteProgramCount]
  · rw [shaderProgram_link_of_linked p gl w hStatus]
    refine ⟨fun _ => ⟨?_, rfl, rfl, ?_⟩, fun hFalse => Bool.noConfusion hFalse⟩
    · rw [issued_of_append w _ _ (List.append_assoc _ _ _), detachCalls_append,
        detachCalls_map]
      simp [detachCalls]
    · rw [issued_of_append w _ _ (List.append_assoc _ _ _), deleteProgramCount_append,
        deleteProgramCount_map_detach]
      simp [deleteProgramCount]

/-- Witness of C23 on `attachedProgram` (program 9, shaders 4 and 6): a
successful link detaches 4 then 6 and empties the list; a failed link detaches
nothing, keeps the list and deletes program 9 once. -/
theorem shaderProgram_link_detaches_witness :
    ((attachedProgram.link (constBackend 0 GL_TRUE) emptyWorld).1 = true ∧
        detachCalls (issued emptyWorld
          (attachedProgram.link (constBackend 0 GL_TRUE) emptyWorld).2.2) = [(9, 4), (9, 6)] ∧
        (attachedProgram.link (constBackend 0 GL_TRUE) emptyWorld).2.1.Shaders = []) ∧
      ((attachedProgram.link (constBackend 0 GL_FALSE) emptyWorld).1 = false ∧
        (attachedProgram.link (constBackend 0 GL_FALSE) emptyWorld).2.1.Shaders = [4, 6] ∧
        deleteProgramCount 9 (issued emptyWorld
          (attachedProgram.link (constBackend 0 GL_FALSE) emptyWorld).2.2) = 1) :=
  have hTrue : (attachedProgram.link (constBackend 0 GL_TRUE) emptyWorld).1 = true := by decide
  have hFalse : (attachedProgram.link (constBackend 0 GL_FALSE) emptyWorld).1 = false := by
    decide
  have hLinked :=
    (shaderProgram_link_detaches attachedProgram (constBackend 0 GL_TRUE) emptyWorld).1 hTrue
  have hFailed :=
    (shaderProgram_link_detaches attachedProgram (constBackend 0 GL_FALSE) emptyWorld).2 hFalse
  ⟨⟨hTrue, hLinked.1, hLinked.2.1⟩, ⟨hFalse, hFailed.1, hFailed.2.2.2⟩⟩

/-! ### Registration of a new name -/

theorem UnorderedMap.findIn_eq_none_iff {V : Type} (entries : List (String × V))
    (key : String) :
    UnorderedMap.findIn entries key = none ↔ key ∉ entries.map Prod.fst := by
  induction entries with
  | nil => simp [UnorderedMap.findIn]
  | cons entry rest ih =>
    obtain ⟨k, v⟩ := entry
    unfold UnorderedMap.findIn
    by_cases hEq : k = key
    · simp [hEq]
    · simp only [hEq, if_false, ih, List.map_cons, List.mem_cons, not_or]
      exact ⟨fun hNot => ⟨fun hKey => hEq hKey.symm, hNot⟩, fun hBoth => hBoth.2⟩

theorem UnorderedMap.insert_of_not_contains {V : Type} (m : UnorderedMap V) (key : String)
    (value : V) (hNew : m.contains key = false) :
    m.insert key value = ⟨(key, value) :: m.entries⟩ := by
  unfold UnorderedMap.contains at hNew
  unfold UnorderedMap.insert
  cases hFind : m.find key with
  | none => rfl
  | some old => simp [hFind] at hNew

/-- C24: for every registry, every name not yet present in it and every render
mode m, `registerRenderMode(name, m)` produces a registry that maps name to m,
maps every other name exactly as before and has exactly one more entry; the new
key was not among the keys, so unique keys stay unique. -/
theorem registerRenderMode_new_name (g : CGraphics) (strName : String) (m : RenderModePtr)
    (hNew : g.isRegistered strName = false) :
    (g.registerRenderMode strName m).m_RenderModesByName.find strName = some m ∧
      (∀ other : String, other ≠ strName →
        (g.registerRenderMode strName m).m_RenderModesByName.find other =
          g.m_RenderModesByName.find other) ∧
      (g.registerRenderMode strName m).m_RenderModesByName.size =
        g.m_RenderModesByName.size + 1 ∧
      (g.registerRenderMode strName m).m_RenderModesByName.keys =
        strName :: g.m_RenderModesByName.keys ∧
      strName ∉ g.m_RenderModesByName.keys ∧
      (g.m_RenderModesByName.UniqueKeys →
        (g.registerRenderMode strName m).m_RenderModesByName.UniqueKeys) := by
  have hMap : (g.registerRenderMode strName m).m_RenderModesByName =
      ⟨(strName, m) :: g.m_RenderModesByName.entries⟩ :=
    UnorderedMap.insert_of_not_contains _ _ _ hNew
  have hNone : g.m_RenderModesByName.find strName = none := by
    cases hFind : g.m_RenderModesByName.find strName with
    | none => rfl
    | some old => simp [CGraphics.isRegistered, UnorderedMap.contains, hFind] at hNew
  have hFresh : strName ∉ g.m_RenderModesByName.keys :=
    (UnorderedMap.findIn_eq_none_iff _ _).mp hNone
  refine ⟨?_, ?_, ?_, ?_, hFresh, ?_⟩
  · rw [hMap]
    simp [UnorderedMap.find, UnorderedMap.findIn]
  · intro other hNe
    exact UnorderedMap.find_insert_of_ne _ _ _ _ (fun hEq => hNe hEq.symm)
  · rw [hMap]
    rfl
  · rw [hMap]
    rfl
  · intro hUnique
    unfold UnorderedMap.UniqueKeys
    rw [hMap]
    exact List.nodup_cons.mpr ⟨hFresh, hUnique⟩

/-- Witness of C24: "debug" is new in the sample state; registering it with the
mode at address 1 gives a registry of one entry that maps "debug" to that mode
and still has no entry for "unknown". -/
theorem registerRenderMode_new_name_witness :
    sampleGraphics.isRegistered "debug" = false ∧
      debugGraphics.m_RenderModesByName.find "debug" = some (some 1) ∧
      debugGraphics.m_RenderModesByName.find "unknown" =
        sampleGraphics.m_RenderModesByName.find "unknown" ∧
      debugGraphics.m_RenderModesByName.size = 1 ∧
      debugGraphics.m_RenderModesByName.UniqueKeys :=
  have hNew : sampleGraphics.isRegistered "debug" = false := by decide
  have hAll := registerRenderMode_new_name sampleGraphics "debug" (some 1) hNew
  ⟨hNew, hAll.1, hAll.2.1 "unknown" (by decide), hAll.2.2.1,
    hAll.2.2.2.2.2 List.nodup_nil⟩

/-! ### Binary64 rounding -/

theorem pow2_eq_zpow (k : Int) : pow2 k = (2 : ℚ) ^ k := by
  unfold pow2
  split
  · rename_i hNonneg
    have hCast : ((k.toNat : Nat) : Int) = k := Int.toNat_of_nonneg hNonneg
    calc ((2 ^ k.toNat : Nat) : ℚ) = (2 : ℚ) ^ k.toNat := by push_cast; rfl
      _ = (2 : ℚ) ^ ((k.toNat : Nat) : Int) := (zpow_natCast 2 k.toNat).symm
      _ = (2 : ℚ) ^ k := by rw [hCast]
  · rename_i hNeg
    have hPos : 0 ≤ -k := by omega
    have hCast : (((-k).toNat : Nat) : Int) = -k := Int.toNat_of_nonneg hPos
    calc 1 / ((2 ^ (-k).toNat : Nat) : ℚ) = ((2 : ℚ) ^ (-k).toNat)⁻¹ := by push_cast; rw [one_div]
      _ = ((2 : ℚ) ^ (((-k).toNat : Nat) : Int))⁻¹ := by rw [zpow_natCast]
      _ = ((2 : ℚ) ^ (-k))⁻¹ := by rw [hCast]
      _ = (2 : ℚ) ^ k := by rw [zpow_neg, inv_inv]

theorem pow2_pos (k : Int) : 0 < pow2 k := by
  rw [pow2_eq_zpow]
  positivity

theorem pow2_add (j k : Int) : pow2 (j + k) = pow2 j * pow2 k := by
  simp only [pow2_eq_zpow]
  exact zpow_add₀ (by norm_num) j k

theorem pow2_le_pow2 {j k : Int} (h : j ≤ k) : pow2 j ≤ pow2 k := by
  simp only [pow2_eq_zpow]
  exact zpow_le_zpow_right₀ (by norm_num) h

theorem pow2_succ (k : Int) : pow2 (k + 1) = 2 * pow2 k := by
  rw [pow2_add, mul_comm]
  congr 1

/-- Bounds of a positive natural number by the powers of two around it. -/
theorem floorLog2_bounds (n : Nat) (hPos : n ≠ 0) :
    pow2 (floorLog2 n) ≤ (n : ℚ) ∧ (n : ℚ) < pow2 ((floorLog2 n : Int) + 1) := by
  rw [floorLog2_eq_log, pow2_eq_zpow, pow2_eq_zpow]
  constructor
  · rw [zpow_natCast]
    exact_mod_cast Nat.pow_log_le_self 2 hPos
  · have hLt := Nat.lt_pow_succ_log_self (by norm_num : 1 < 2) n
    have hExp : ((Nat.log 2 n : Int) + 1) = ((Nat.log 2 n + 1 : Nat) : Int) := by push_cast; rfl
    rw [hExp, zpow_natCast]
    exact_mod_cast hLt

theorem abs_eq_natAbs_div (x : ℚ) : |x| = (x.num.natAbs : ℚ) / (x.den : ℚ) := by
  have hDen : (0 : ℚ) < (x.den : ℚ) := by exact_mod_cast x.den_pos
  conv_lhs => rw [← Rat.num_div_den x]
  rw [abs_div, abs_of_pos hDen]
  congr 1
  rw [← Int.cast_abs, Int.abs_eq_natAbs, Int.cast_natCast]

/-- The exponent computed by `binade` is the binade of x: 2^e <= |x| < 2^(e+1). -/
theorem binade_spec (x : ℚ) (hx : x ≠ 0) :
    pow2 (binade x) ≤ |x| ∧ |x| < pow2 (binade x + 1) := by
  have hNum : x.num.natAbs ≠ 0 := by
    intro hZero
    exact hx (Rat.num_eq_zero.mp (Int.natAbs_eq_zero.mp hZero))
  have hDenNe : x.den ≠ 0 := x.den_nz
  have hDen : (0 : ℚ) < (x.den : ℚ) := by exact_mod_cast x.den_pos
  obtain ⟨hNumLo, hNumHi⟩ := floorLog2_bounds _ hNum
  obtain ⟨hDenLo, hDenHi⟩ := floorLog2_bounds _ hDenNe
  have hAbs := abs_eq_natAbs_div x
  have hLower : pow2 ((floorLog2 x.num.natAbs : Int) - (floorLog2 x.den : Int) - 1) ≤ |x| := by
    rw [hAbs, le_div_iff₀ hDen]
    have hSplit : pow2 ((floorLog2 x.num.natAbs : Int) - (floorLog2 x.den : Int) - 1) *
        pow2 ((floorLog2 x.den : Int) + 1) = pow2 (floorLog2 x.num.natAbs) := by
      rw [← pow2_add]
      congr 1
      ring
    calc pow2 ((floorLog2 x.num.natAbs : Int) - (floorLog2 x.den : Int) - 1) * (x.den : ℚ)
        ≤ pow2 ((floorLog2 x.num.natAbs : Int) - (floorLog2 x.den : Int) - 1) *
            pow2 ((floorLog2 x.den : Int) + 1) :=
          mul_le_mul_of_nonneg_left hDenHi.le (pow2_pos _).le
      _ = pow2 (floorLog2 x.num.natAbs) := hSplit
      _ ≤ (x.num.natAbs : ℚ) := hNumLo
  have hUpper : |x| < pow2 ((floorLog2 x.num.natAbs : Int) - (floorLog2 x.den : Int) + 1) := by
    rw [hAbs, div_lt_iff₀ hDen]
    have hSplit : pow2 ((floorLog2 x.num.natAbs : Int) - (floorLog2 x.den : Int) + 1) *
        pow2 (floorLog2 x.den : Int) = pow2 ((floorLog2 x.num.natAbs : Int) + 1) := by
      rw [← pow2_add]
      congr 1
      ring
    calc (x.num.natAbs : ℚ) < pow2 ((floorLog2 x.num.natAbs : Int) + 1) := hNumHi
      _ = pow2 ((floorLog2 x.num.natAbs : Int) - (floorLog2 x.den : Int) + 1) *
            pow2 (floorLog2 x.den : Int) := hSplit.symm
      _ ≤ pow2 ((floorLog2 x.num.natAbs : Int) - (floorLog2 x.den : Int) + 1) * (x.den : ℚ) :=
          mul_le_mul_of_nonneg_left hDenLo (pow2_pos _).le
  unfold binade
  split
  · rename_i hLe
    exact ⟨hLe, hUpper⟩
  · rename_i hNot
    refine ⟨hLower, ?_⟩
    have hLt := lt_of_not_le hNot
    have hExp : (floorLog2 x.num.natAbs : Int) - (floorLog2 x.den : Int) - 1 + 1 =
        (floorLog2 x.num.natAbs : Int) - (floorLog2 x.den : Int) := by ring
    rw [hExp]
    exact hLt

theorem pow2_lt_pow2_iff {j k : Int} : pow2 j < pow2 k ↔ j < k := by
  simp only [pow2_eq_zpow]
  exact zpow_lt_zpow_iff_right₀ (by norm_num)

theorem roundHalfEven_error (s : ℚ) : |(roundHalfEven s : ℚ) - s| ≤ 1 / 2 := by
  have hFloor : Rat.floor s = ⌊s⌋ := rfl
  have hLow : ((Rat.floor s : Int) : ℚ) ≤ s := by rw [hFloor]; exact Int.floor_le s
  have hHigh : s < ((Rat.floor s : Int) : ℚ) + 1 := by rw [hFloor]; exact Int.lt_floor_add_one s
  unfold roundHalfEven
  split
  · rename_i hLt
    rw [abs_le]
    constructor <;> linarith
  · split
    · rename_i hNot hGt
      rw [abs_le]
      push_cast
      constructor <;> linarith
    · rename_i hNotLt hNotGt
      have hHalf : s - ((Rat.floor s : Int) : ℚ) = 1 / 2 :=
        le_antisymm (le_of_not_lt hNotGt) (le_of_not_lt hNotLt)
      split
      · rw [abs_le]
        constructor <;> linarith
      · rw [abs_le]
        push_cast
        constructor <;> linarith

theorem binade_of_normal (x : ℚ) (hNormal : Normal x) : x ≠ 0 ∧ -1022 ≤ binade x := by
  have hx : x ≠ 0 := by
    intro hZero
    have hPos := pow2_pos (-1022)
    have hLe := hNormal.1
    rw [hZero, abs_zero] at hLe
    linarith
  refine ⟨hx, ?_⟩
  have hLt : pow2 (-1022) < pow2 (binade x + 1) := lt_of_le_of_lt hNormal.1 (binade_spec x hx).2
  have := pow2_lt_pow2_iff.mp hLt
  omega

theorem rnd_error (x : ℚ) (hx : x ≠ 0) (hBinade : -1022 ≤ binade x) :
    |rnd x - x| ≤ unitRoundoff * |x| := by
  have hMax : max (binade x) (-1022) = binade x := max_eq_left hBinade
  have hScale := pow2_pos (binade x - 52)
  have hRound := roundHalfEven_error (x / pow2 (binade x - 52))
  have hRnd : rnd x =
      (roundHalfEven (x / pow2 (binade x - 52)) : ℚ) * pow2 (binade x - 52) := by
    unfold rnd
    rw [if_neg hx, hMax]
  have hDiff : rnd x - x =
      ((roundHalfEven (x / pow2 (binade x - 52)) : ℚ) - x / pow2 (binade x - 52)) *
        pow2 (binade x - 52) := by
    rw [hRnd, sub_mul, div_mul_cancel₀ _ hScale.ne.symm]
  have hHalf : pow2 (binade x - 52) * (1 / 2) = unitRoundoff * pow2 (binade x) := by
    have hExp : binade x - 52 = -53 + binade x + 1 := by ring
    rw [hExp, pow2_succ, pow2_add]
    unfold unitRoundoff
    ring
  calc |rnd x - x|
      = |(roundHalfEven (x / pow2 (binade x - 52)) : ℚ) - x / pow2 (binade x - 52)| *
          pow2 (binade x - 52) := by rw [hDiff, abs_mul, abs_of_pos hScale]
    _ ≤ 1 / 2 * pow2 (binade x - 52) := mul_le_mul_of_nonneg_right hRound hScale.le
    _ = unitRoundoff * pow2 (binade x) := by rw [mul_comm, hHalf]
    _ ≤ unitRoundoff * |x| :=
        mul_le_mul_of_nonneg_left (binade_spec x hx).1 (pow2_pos _).le

theorem unitRoundoff_pos : 0 < unitRoundoff := pow2_pos _

theorem unitRoundoff_lt_one : unitRoundoff < 1 := by
  have hOne : pow2 0 = 1 := by decide!
  rw [← hOne]
  exact pow2_lt_pow2_iff.mpr (by norm_num)

/-- Rounding of a value in the normal range: the result is finite and within
relative error 2^-53. -/
theorem fround_of_normal (x : ℚ) (hNormal : Normal x) :
    fround x = some (rnd x) ∧ |rnd x - x| ≤ unitRoundoff * |x| := by
  obtain ⟨hx, hBinade⟩ := binade_of_normal x hNormal
  have hError := rnd_error x hx hBinade
  refine ⟨?_, hError⟩
  have hAbs : |rnd x| ≤ |x| + unitRoundoff * |x| := by
    calc |rnd x| = |(rnd x - x) + x| := by ring_nf
      _ ≤ |rnd x - x| + |x| := abs_add _ _
      _ ≤ unitRoundoff * |x| + |x| := by linarith
      _ = |x| + unitRoundoff * |x| := by ring
  have hSmall : |rnd x| < pow2 1024 := by
    have hTwo : pow2 1024 = 2 * pow2 1023 := pow2_succ 1023
    have hNonneg : 0 ≤ |x| := abs_nonneg x
    have hU := unitRoundoff_lt_one
    nlinarith [hNormal.2]
  unfold fround
  rw [if_pos hSmall]

theorem pow2_neg (k : Int) : pow2 (-k) = (pow2 k)⁻¹ := by
  simp only [pow2_eq_zpow]
  exact zpow_neg 2 k

theorem inBand_mono {j k : Int} {x : ℚ} (hBand : InBand j x) (hLe : j ≤ k) : InBand k x :=
  ⟨(pow2_le_pow2 (by omega)).trans hBand.1, hBand.2.trans (pow2_le_pow2 hLe)⟩

theorem inBand_ne_zero {k : Int} {x : ℚ} (hBand : InBand k x) : x ≠ 0 := by
  intro hZero
  have hPos := pow2_pos (-k)
  have hLe := hBand.1
  rw [hZero, abs_zero] at hLe
  linarith

theorem inBand_normal {k : Int} {x : ℚ} (hBand : InBand k x) (hLe : k ≤ 1022) : Normal x :=
  ⟨(pow2_le_pow2 (by omega)).trans hBand.1,
    lt_of_le_of_lt hBand.2 (pow2_lt_pow2_iff.mpr (by omega))⟩

theorem inBand_mul {j k : Int} {a b : ℚ} (hA : InBand j a) (hB : InBand k b) :
    InBand (j + k) (a * b) := by
  have hExp : -(j + k) = -j + -k := by ring
  constructor
  · rw [abs_mul, hExp, pow2_add]
    exact mul_le_mul hA.1 hB.1 (pow2_pos _).le (abs_nonneg a)
  · rw [abs_mul, pow2_add]
    exact mul_le_mul hA.2 hB.2 (abs_nonneg b) (pow2_pos _).le

theorem inBand_inv {k : Int} {b : ℚ} (hB : InBand k b) : InBand k b⁻¹ := by
  have hPos : 0 < |b| := abs_pos.mpr (inBand_ne_zero hB)
  constructor
  · rw [abs_inv, pow2_neg]
    exact inv_anti₀ hPos hB.2
  · rw [abs_inv]
    have hInv := inv_anti₀ (pow2_pos (-k)) hB.1
    rwa [pow2_neg, inv_inv] at hInv

theorem inBand_div {j k : Int} {a b : ℚ} (hA : InBand j a) (hB : InBand k b) :
    InBand (j + k) (a / b) := by
  rw [div_eq_mul_inv]
  exact inBand_mul hA (inBand_inv hB)

/-- Rounding of a value in the normal range as a relative perturbation. -/
theorem rnd_rel (x : ℚ) (hNormal : Normal x) :
    fround x = some (rnd x) ∧ ∃ d : ℚ, |d| ≤ unitRoundoff ∧ rnd x = x * (1 + d) := by
  obtain ⟨hSome, hError⟩ := fround_of_normal x hNormal
  have hx : x ≠ 0 := (binade_of_normal x hNormal).1
  have hPos : 0 < |x| := abs_pos.mpr hx
  refine ⟨hSome, (rnd x - x) / x, ?_, ?_⟩
  · rw [abs_div, div_le_iff₀ hPos]
    exact hError
  · field_simp

theorem one_add_pos_of_abs_le {d : ℚ} (hd : |d| ≤ unitRoundoff) :
    1 - unitRoundoff ≤ 1 + d ∧ 1 + d ≤ 1 + unitRoundoff ∧ 0 < 1 + d := by
  have hU := unitRoundoff_lt_one
  obtain ⟨hLo, hHi⟩ := abs_le.mp hd
  exact ⟨by linarith, by linarith, by linarith⟩

/-- Rounding keeps a value within its band, widened by one. -/
theorem inBand_rnd {k : Int} {x : ℚ} (hBand : InBand k x) (hLe : k ≤ 1022) :
    fround x = some (rnd x) ∧ InBand (k + 1) (rnd x) ∧
      ∃ d : ℚ, |d| ≤ unitRoundoff ∧ rnd x = x * (1 + d) := by
  obtain ⟨hSome, d, hd, hRnd⟩ := rnd_rel x (inBand_normal hBand hLe)
  refine ⟨hSome, ?_, d, hd, hRnd⟩
  obtain ⟨hLo, hHi, hPos⟩ := one_add_pos_of_abs_le hd
  have hHalf : unitRoundoff ≤ 1 / 2 := by
    have hOne : pow2 (-1) = 1 / 2 := by decide!
    rw [← hOne]
    exact pow2_le_pow2 (by norm_num)
  have hAbs : |rnd x| = |x| * (1 + d) := by rw [hRnd, abs_mul, abs_of_pos hPos]
  have hNonneg : 0 ≤ |x| := abs_nonneg x
  constructor
  · have hExp : -(k + 1) + 1 = -k := by ring
    have hSplit : pow2 (-k) = 2 * pow2 (-(k + 1)) := by rw [← pow2_succ, hExp]
    have hLow := hBand.1
    rw [hAbs]
    nlinarith [pow2_pos (-(k + 1))]
  · rw [hAbs, pow2_succ]
    have hHigh := hBand.2
    nlinarith [pow2_pos k]

theorem roundHalfEven_mono {s t : ℚ} (hLe : s ≤ t) : roundHalfEven s ≤ roundHalfEven t := by
  by_contra hNot
  have hLt : roundHalfEven t + 1 ≤ roundHalfEven s := by omega
  have hCast : ((roundHalfEven t : Int) : ℚ) + 1 ≤ ((roundHalfEven s : Int) : ℚ) := by
    exact_mod_cast hLt
  have hS := abs_le.mp (roundHalfEven_error s)
  have hT := abs_le.mp (roundHalfEven_error t)
  have hEq : s = t := by linarith [hS.2, hT.1]
  rw [hEq] at hNot
  exact hNot le_rfl

theorem roundHalfEven_intCast (n : Int) : roundHalfEven (n : ℚ) = n := by
  have hFloor : Rat.floor (n : ℚ) = n := by
    have hDef : Rat.floor (n : ℚ) = ⌊(n : ℚ)⌋ := rfl
    rw [hDef, Int.floor_intCast]
  unfold roundHalfEven
  rw [hFloor]
  simp

theorem binade_mono {x y : ℚ} (hx : 0 < x) (hLe : x ≤ y) : binade x ≤ binade y := by
  have hy : 0 < y := lt_of_lt_of_le hx hLe
  have hLow := (binade_spec x hx.ne.symm).1
  have hHigh := (binade_spec y hy.ne.symm).2
  rw [abs_of_pos hx] at hLow
  rw [abs_of_pos hy] at hHigh
  have hLt : pow2 (binade x) < pow2 (binade y + 1) :=
    lt_of_le_of_lt (hLow.trans hLe) hHigh
  have := pow2_lt_pow2_iff.mp hLt
  omega

theorem rnd_of_ne_zero (x : ℚ) (hx : x ≠ 0) :
    rnd x = (roundHalfEven (x / pow2 (max (binade x) (-1022) - 52)) : ℚ) *
      pow2 (max (binade x) (-1022) - 52) := by
  unfold rnd
  rw [if_neg hx]

theorem pow2_split (e : Int) (k : Nat) : pow2 (e - 52 + k) = ((2 ^ k : Nat) : ℚ) * pow2 (e - 52) := by
  rw [add_comm, pow2_add, pow2_eq_zpow ((k : Nat) : Int), zpow_natCast]
  push_cast
  rfl

/-- A positive value below 2^(e+1), rounded on the grid of exponent e, stays at
most 2^(e+1). -/
theorem rnd_le_pow2 (x : ℚ) (hx : 0 < x) :
    rnd x ≤ pow2 (max (binade x) (-1022) + 1) := by
  have hScale := pow2_pos (max (binade x) (-1022) - 52)
  have hHigh := (binade_spec x hx.ne.symm).2
  rw [abs_of_pos hx] at hHigh
  have hTop : x ≤ pow2 (max (binade x) (-1022) + 1) :=
    hHigh.le.trans (pow2_le_pow2 (by omega))
  have hExp : max (binade x) (-1022) + 1 = max (binade x) (-1022) - 52 + (53 : Nat) := by
    push_cast; ring
  have hGrid : pow2 (max (binade x) (-1022) + 1) =
      ((2 ^ 53 : Nat) : ℚ) * pow2 (max (binade x) (-1022) - 52) := by
    rw [hExp, pow2_split]
  have hQuot : x / pow2 (max (binade x) (-1022) - 52) ≤ (((2 ^ 53 : Nat) : Int) : ℚ) := by
    rw [div_le_iff₀ hScale]
    rw [hGrid] at hTop
    exact_mod_cast hTop
  have hRound := roundHalfEven_mono hQuot
  rw [roundHalfEven_intCast] at hRound
  have hCast : ((roundHalfEven (x / pow2 (max (binade x) (-1022) - 52)) : Int) : ℚ) ≤
      ((2 ^ 53 : Nat) : ℚ) := by exact_mod_cast hRound
  rw [rnd_of_ne_zero x hx.ne.symm, hGrid]
  exact mul_le_mul_of_nonneg_right hCast hScale.le

/-- A positive value of a normal binade, rounded, stays at least the lower end
of its binade. -/
theorem pow2_le_rnd (x : ℚ) (hx : 0 < x) (hBinade : -1022 ≤ binade x) :
    pow2 (binade x) ≤ rnd x := by
  have hMax : max (binade x) (-1022) = binade x := max_eq_left hBinade
  have hScale := pow2_pos (binade x - 52)
  have hLow := (binade_spec x hx.ne.symm).1
  rw [abs_of_pos hx] at hLow
  have hExp : binade x = binade x - 52 + (52 : Nat) := by push_cast; ring
  have hGrid : pow2 (binade x) = ((2 ^ 52 : Nat) : ℚ) * pow2 (binade x - 52) := by
    conv_lhs => rw [hExp]
    rw [pow2_split]
  have hQuot : (((2 ^ 52 : Nat) : Int) : ℚ) ≤ x / pow2 (binade x - 52) := by
    rw [le_div_iff₀ hScale]
    rw [hGrid] at hLow
    exact_mod_cast hLow
  have hRound := roundHalfEven_mono hQuot
  rw [roundHalfEven_intCast] at hRound
  have hCast : ((2 ^ 52 : Nat) : ℚ) ≤
      ((roundHalfEven (x / pow2 (binade x - 52)) : Int) : ℚ) := by exact_mod_cast hRound
  rw [rnd_of_ne_zero x hx.ne.symm, hMax, hGrid]
  exact mul_le_mul_of_nonneg_right hCast hScale.le

/-- Rounding to nearest is monotone on the positive numbers. -/
theorem rnd_mono_pos {x y : ℚ} (hx : 0 < x) (hLe : x ≤ y) : rnd x ≤ rnd y := by
  have hy : 0 < y := lt_of_lt_of_le hx hLe
  have hBinade := binade_mono hx hLe
  by_cases hSame : max (binade x) (-1022) = max (binade y) (-1022)
  · rw [rnd_of_ne_zero x hx.ne.symm, rnd_of_ne_zero y hy.ne.symm, hSame]
    have hScale := pow2_pos (max (binade y) (-1022) - 52)
    have hQuot : x / pow2 (max (binade y) (-1022) - 52) ≤
        y / pow2 (max (binade y) (-1022) - 52) := div_le_div_of_nonneg_right hLe hScale.le
    have hRound := roundHalfEven_mono hQuot
    have hCast : ((roundHalfEven (x / pow2 (max (binade y) (-1022) - 52)) : Int) : ℚ) ≤
        ((roundHalfEven (y / pow2 (max (binade y) (-1022) - 52)) : Int) : ℚ) := by
      exact_mod_cast hRound
    exact mul_le_mul_of_nonneg_right hCast hScale.le
  · have hLt : max (binade x) (-1022) < max (binade y) (-1022) := by omega
    have hNormal : -1022 ≤ binade y := by omega
    have hMax : max (binade y) (-1022) = binade y := max_eq_left hNormal
    calc rnd x ≤ pow2 (max (binade x) (-1022) + 1) := rnd_le_pow2 x hx
      _ ≤ pow2 (binade y) := pow2_le_pow2 (by omega)
      _ ≤ rnd y := pow2_le_rnd y hy hNormal

/-! ### Resolution helpers in binary64 arithmetic -/

/-- Quotient of two rounded values, rounded: the shape of the four resolution
helpers.  For operands within bands all three roundings stay in the normal
range, so the result is a finite double; it is the quotient of the rounded
operands up to one more relative rounding error. -/
theorem rounded_quotient (p q : ℚ) (j k : Int) (hP : InBand j p) (hQ : InBand k q)
    (hj : 0 ≤ j) (hk : 0 ≤ k) (hSum : j + k + 2 ≤ 1022) :
    ((fround p).bind fun a => (fround q).bind fun b => fdiv64 a b) =
        some (rnd (rnd p / rnd q)) ∧
      InBand (j + 1) (rnd p) ∧ InBand (k + 1) (rnd q) ∧
      ∃ d : ℚ, |d| ≤ unitRoundoff ∧ rnd (rnd p / rnd q) = rnd p / rnd q * (1 + d) := by
  obtain ⟨hSomeP, hBandP, _⟩ := inBand_rnd hP (by omega)
  obtain ⟨hSomeQ, hBandQ, _⟩ := inBand_rnd hQ (by omega)
  have hBandDiv : InBand (j + 1 + (k + 1)) (rnd p / rnd q) := inBand_div hBandP hBandQ
  obtain ⟨hSomeDiv, _, d, hd, hRnd⟩ := inBand_rnd hBandDiv (by omega)
  refine ⟨?_, hBandP, hBandQ, d, hd, hRnd⟩
  rw [hSomeP, hSomeQ]
  simp only [Option.some_bind, fdiv64]
  rw [if_neg (inBand_ne_zero hBandQ), hSomeDiv]

theorem rnd_min_subnormal : rnd (pow2 (-1074)) = pow2 (-1074) := by decide!

/-- A value of at least 2^-1074, the smallest positive double, does not round
to zero. -/
theorem rnd_pos_of_ge_min {x : ℚ} (hx : pow2 (-1074) ≤ x) : 0 < rnd x := by
  have hMono := rnd_mono_pos (pow2_pos (-1074)) hx
  rw [rnd_min_subnormal] at hMono
  exact lt_of_lt_of_le (pow2_pos _) hMono

/-- Every finite double is an integer multiple of 2^-1074. -/
theorem isDouble_grid {x : ℚ} (hDouble : IsDouble x) : ∃ n : Int, x = (n : ℚ) * pow2 (-1074) := by
  by_cases hx : x = 0
  · exact ⟨0, by simp [hx]⟩
  · have hRnd := hDouble.1
    rw [rnd_of_ne_zero x hx] at hRnd
    obtain ⟨fExp, hExpDef⟩ : ∃ fExp : Int, fExp = max (binade x) (-1022) := ⟨_, rfl⟩
    have hGe : -1022 ≤ fExp := hExpDef ▸ le_max_right _ _
    rw [← hExpDef] at hRnd
    generalize roundHalfEven (x / pow2 (fExp - 52)) = nSig at hRnd
    have hNonneg : 0 ≤ fExp + 1022 := by omega
    have hExp : fExp - 52 = -1074 + (((fExp + 1022).toNat : Nat) : Int) := by
      rw [Int.toNat_of_nonneg hNonneg]
      ring
    have hSplit : pow2 (fExp - 52) = ((2 ^ (fExp + 1022).toNat : Nat) : ℚ) * pow2 (-1074) := by
      rw [hExp, pow2_add, mul_comm, pow2_eq_zpow (((fExp + 1022).toNat : Nat) : Int),
        zpow_natCast]
      push_cast
      rfl
    refine ⟨nSig * ((2 ^ (fExp + 1022).toNat : Nat) : Int), ?_⟩
    rw [← hRnd, hSplit]
    push_cast
    ring

/-- Two different doubles are at least 2^-1074 apart. -/
theorem double_sub_ge_min {a b : ℚ} (hA : IsDouble a) (hB : IsDouble b) (hLt : b < a) :
    pow2 (-1074) ≤ a - b := by
  obtain ⟨m, hm⟩ := isDouble_grid hA
  obtain ⟨n, hn⟩ := isDouble_grid hB
  have hPos := pow2_pos (-1074)
  have hDiff : a - b = ((m - n : Int) : ℚ) * pow2 (-1074) := by
    rw [hm, hn]
    push_cast
    ring
  have hSub : 0 < a - b := sub_pos.mpr hLt
  have hInt : 1 ≤ m - n := by
    by_contra hNot
    have hLe : m - n ≤ 0 := by omega
    have hQ : ((m - n : Int) : ℚ) ≤ 0 := by exact_mod_cast hLe
    rw [hDiff] at hSub
    nlinarith
  have hOne : (1 : ℚ) ≤ ((m - n : Int) : ℚ) := by exact_mod_cast hInt
  rw [hDiff]
  calc pow2 (-1074) = 1 * pow2 (-1074) := (one_mul _).symm
    _ ≤ ((m - n : Int) : ℚ) * pow2 (-1074) := mul_le_mul_of_nonneg_right hOne hPos.le

theorem isDouble_zero : IsDouble 0 := by decide!

/-- A double above zero is at least 2^-1074. -/
theorem double_pos_ge_min {a : ℚ} (hA : IsDouble a) (hPos : 0 < a) : pow2 (-1074) ≤ a := by
  have hSub := double_sub_ge_min hA isDouble_zero hPos
  rwa [sub_zero] at hSub

/-- A rounded value that is positive is not the double zero, whether the
rounding overflows or not. -/
theorem fround_ne_zero {x : ℚ} (hx : pow2 (-1074) ≤ x) : fround x ≠ some 0 := by
  have hPos := rnd_pos_of_ge_min hx
  unfold fround
  split
  · intro hEq
    exact hPos.ne.symm (Option.some.inj hEq)
  · exact fun hEq => Option.noConfusion hEq

/-- C3: for every graphics state (its viewport satisfying the invariant of the
data model, right > left and top > bottom) with zoom > 0, screen width > 0 and
screen height > 0, none of the four resolution helpers divides by zero.  In
exact arithmetic the divisors zoom * width, zoom * height, rightplane -
leftplane and topplane - bottomplane are all different from zero and each
helper returns its quotient; in binary64 arithmetic, zoom and planes being
doubles, none of the four rounded divisors is the double zero (a product that
overflows is an infinity, not a zero). -/
theorem resolution_no_division_by_zero (g : CGraphics) (hView : g.m_ViewPort.Valid)
    (hZoom : 0 < g.m_fCamZoom) (hW : 0 < g.m_unWidthScr) (hH : 0 < g.m_unHeightScr) :
    (g.m_fCamZoom * (g.m_unWidthScr : ℚ) ≠ 0 ∧ g.m_fCamZoom * (g.m_unHeightScr : ℚ) ≠ 0 ∧
        g.m_ViewPort.rightplane - g.m_ViewPort.leftplane ≠ 0 ∧
        g.m_ViewPort.topplane - g.m_ViewPort.bottomplane ≠ 0) ∧
      (g.getResMPX ≠ none ∧ g.getResMPY ≠ none ∧ g.getResPMX ≠ none ∧ g.getResPMY ≠ none) ∧
      (g.getResMPX = some ((g.m_ViewPort.rightplane - g.m_ViewPort.leftplane) /
          (g.m_fCamZoom * (g.m_unWidthScr : ℚ))) ∧
        g.getResMPY = some ((g.m_ViewPort.topplane - g.m_ViewPort.bottomplane) /
          (g.m_fCamZoom * (g.m_unHeightScr : ℚ))) ∧
        g.getResPMX = some (g.m_fCamZoom * (g.m_unWidthScr : ℚ) /
          (g.m_ViewPort.rightplane - g.m_ViewPort.leftplane)) ∧
        g.getResPMY = some (g.m_fCamZoom * (g.m_unHeightScr : ℚ) /
          (g.m_ViewPort.topplane - g.m_ViewPort.bottomplane))) ∧
      (IsDouble g.m_fCamZoom → IsDouble g.m_ViewPort.rightplane →
        IsDouble g.m_ViewPort.leftplane → IsDouble g.m_ViewPort.topplane →
        IsDouble g.m_ViewPort.bottomplane →
        fmul64 g.m_fCamZoom (g.m_unWidthScr : ℚ) ≠ some 0 ∧
          fmul64 g.m_fCamZoom (g.m_unHeightScr : ℚ) ≠ some 0 ∧
          fsub64 g.m_ViewPort.rightplane g.m_ViewPort.leftplane ≠ some 0 ∧
          fsub64 g.m_ViewPort.topplane g.m_ViewPort.bottomplane ≠ some 0) := by
  obtain ⟨hMPX, hMPY, hPMX, hPMY⟩ := resolution_zero_divisor g hZoom hW hH
  have hWq : (0 : ℚ) < (g.m_unWidthScr : ℚ) := by exact_mod_cast hW
  have hHq : (0 : ℚ) < (g.m_unHeightScr : ℚ) := by exact_mod_cast hH
  have hWOne : (1 : ℚ) ≤ (g.m_unWidthScr : ℚ) := by exact_mod_cast hW
  have hHOne : (1 : ℚ) ≤ (g.m_unHeightScr : ℚ) := by exact_mod_cast hH
  have hZW : g.m_fCamZoom * (g.m_unWidthScr : ℚ) ≠ 0 := (mul_pos hZoom hWq).ne.symm
  have hZH : g.m_fCamZoom * (g.m_unHeightScr : ℚ) ≠ 0 := (mul_pos hZoom hHq).ne.symm
  have hRL : g.m_ViewPort.rightplane - g.m_ViewPort.leftplane ≠ 0 :=
    (sub_pos.mpr hView.1).ne.symm
  have hTB : g.m_ViewPort.topplane - g.m_ViewPort.bottomplane ≠ 0 :=
    (sub_pos.mpr hView.2.1).ne.symm
  refine ⟨⟨hZW, hZH, hRL, hTB⟩, ⟨hMPX, hMPY, ?_, ?_⟩, ⟨?_, ?_, ?_, ?_⟩, ?_⟩
  · exact fun hNone => hRL (sub_eq_zero.mpr (hPMX.mp hNone))
  · exact fun hNone => hTB (sub_eq_zero.mpr (hPMY.mp hNone))
  · exact fdiv_of_ne_zero _ _ hZW
  · exact fdiv_of_ne_zero _ _ hZH
  · exact fdiv_of_ne_zero _ _ hRL
  · exact fdiv_of_ne_zero _ _ hTB
  · intro hZ hR hL hT hB
    have hMin := double_pos_ge_min hZ hZoom
    refine ⟨?_, ?_, ?_, ?_⟩
    · exact fround_ne_zero (hMin.trans (le_mul_of_one_le_right hZoom.le hWOne))
    · exact fround_ne_zero (hMin.trans (le_mul_of_one_le_right hZoom.le hHOne))
    · exact fround_ne_zero (double_sub_ge_min hR hL hView.1)
    · exact fround_ne_zero (double_sub_ge_min hT hB hView.2.1)

/-- Witness of C3 in the sample state: default viewport, zoom 1, screen of 800
by 600 pixels, all of them doubles. -/
theorem resolution_no_division_by_zero_witness :
    (sampleGraphics.m_ViewPort.Valid ∧ 0 < sampleGraphics.m_fCamZoom ∧
        0 < sampleGraphics.m_unWidthScr ∧ 0 < sampleGraphics.m_unHeightScr) ∧
      (sampleGraphics.getResMPX ≠ none ∧ sampleGraphics.getResMPY ≠ none ∧
        sampleGraphics.getResPMX ≠ none ∧ sampleGraphics.getResPMY ≠ none) ∧
      (IsDouble sampleGraphics.m_fCamZoom ∧ IsDouble sampleGraphics.m_ViewPort.rightplane ∧
        IsDouble sampleGraphics.m_ViewPort.leftplane ∧
        IsDouble sampleGraphics.m_ViewPort.topplane ∧
        IsDouble sampleGraphics.m_ViewPort.bottomplane) ∧
      (fmul64 sampleGraphics.m_fCamZoom (sampleGraphics.m_unWidthScr : ℚ) ≠ some 0 ∧
        fmul64 sampleGraphics.m_fCamZoom (sampleGraphics.m_unHeightScr : ℚ) ≠ some 0 ∧
        fsub64 sampleGraphics.m_ViewPort.rightplane sampleGraphics.m_ViewPort.leftplane ≠
          some 0 ∧
        fsub64 sampleGraphics.m_ViewPort.topplane sampleGraphics.m_ViewPort.bottomplane ≠
          some 0) :=
  have hView : sampleGraphics.m_ViewPort.Valid := ⟨by decide!, by decide!, by decide!⟩
  have hZoom : 0 < sampleGraphics.m_fCamZoom := by decide!
  have hZ : IsDouble sampleGraphics.m_fCamZoom := by decide!
  have hR : IsDouble sampleGraphics.m_ViewPort.rightplane := by decide!
  have hL : IsDouble sampleGraphics.m_ViewPort.leftplane := by decide!
  have hT : IsDouble sampleGraphics.m_ViewPort.topplane := by decide!
  have hB : IsDouble sampleGraphics.m_ViewPort.bottomplane := by decide!
  have hAll := resolution_no_division_by_zero sampleGraphics hView hZoom (by decide) (by decide)
  ⟨⟨hView, hZoom, by decide, by decide⟩, hAll.2.1, ⟨hZ, hR, hL, hT, hB⟩,
    hAll.2.2.2 hZ hR hL hT hB⟩

theorem pow2_bound_eq : 2 * unitRoundoff + unitRoundoff ^ 2 = pow2 (-52) + pow2 (-106) := by
  decide!

/-- Two quotients of the same rounded operands, one the reciprocal of the other
before the last rounding: their product is 1 up to two rounding errors. -/
theorem reciprocal_rounded (p q : ℚ) (hP : InBand 400 p) (hQ : InBand 400 q) :
    ∃ pm mp : ℚ,
      ((fround p).bind fun a => (fround q).bind fun b => fdiv64 a b) = some pm ∧
      ((fround q).bind fun a => (fround p).bind fun b => fdiv64 a b) = some mp ∧
      |pm * mp - 1| ≤ pow2 (-52) + pow2 (-106) := by
  obtain ⟨hPM, hBandP, hBandQ, d, hd, hRndPM⟩ :=
    rounded_quotient p q 400 400 hP hQ (by norm_num) (by norm_num) (by norm_num)
  obtain ⟨hMP, _, _, e, he, hRndMP⟩ :=
    rounded_quotient q p 400 400 hQ hP (by norm_num) (by norm_num) (by norm_num)
  have hA : rnd p ≠ 0 := inBand_ne_zero hBandP
  have hB : rnd q ≠ 0 := inBand_ne_zero hBandQ
  refine ⟨_, _, hPM, hMP, ?_⟩
  have hProd : rnd (rnd p / rnd q) * rnd (rnd q / rnd p) - 1 = d + e + d * e := by
    rw [hRndPM, hRndMP]
    field_simp
    ring
  have hU := unitRoundoff_pos
  rw [hProd, ← pow2_bound_eq]
  calc |d + e + d * e| ≤ |d + e| + |d * e| := abs_add _ _
    _ ≤ |d| + |e| + |d| * |e| := by
        rw [abs_mul]
        exact add_le_add_right (abs_add d e) _
    _ ≤ unitRoundoff + unitRoundoff + unitRoundoff * unitRoundoff :=
        add_le_add (add_le_add hd he) (mul_le_mul hd he (abs_nonneg e) hU.le)
    _ = 2 * unitRoundoff + unitRoundoff ^ 2 := by ring

/-- C2, counterexample: in the state with the default viewport (rightplane 200,
leftplane -200), screen width 800 and zoom 0.09 (all of them doubles, zoom != 0,
width > 0, rightplane != leftplane), `getResPMX` returns the double
0.18 and `getResMPX` the double 5.555555555555555; their product is not 1, and
computed in `double` it is the double below 1, 0.9999999999999999. -/
theorem getResPM_mul_getResMP_not_one :
    (IsDouble (sampleGraphics.withZoom zoom009).m_fCamZoom ∧
        IsDouble (sampleGraphics.withZoom zoom009).m_ViewPort.rightplane ∧
        IsDouble (sampleGraphics.withZoom zoom009).m_ViewPort.leftplane ∧
        (sampleGraphics.withZoom zoom009).m_fCamZoom ≠ 0 ∧
        0 < (sampleGraphics.withZoom zoom009).m_unWidthScr ∧
        (sampleGraphics.withZoom zoom009).m_ViewPort.rightplane ≠
          (sampleGraphics.withZoom zoom009).m_ViewPort.leftplane) ∧
      (sampleGraphics.withZoom zoom009).getResPMX64 =
        some (3242591731706757 / 18014398509481984) ∧
      (sampleGraphics.withZoom zoom009).getResMPX64 =
        some (3127499741229511 / 562949953421312) ∧
      (3242591731706757 / 18014398509481984 : ℚ) * (3127499741229511 / 562949953421312) ≠ 1 ∧
      fmul64 (3242591731706757 / 18014398509481984) (3127499741229511 / 562949953421312) =
        some (9007199254740991 / 9007199254740992) := by
  decide!

/-- C2, amended: for every graphics state in which the product zoom * screen
width and the difference rightplane - leftplane have a magnitude between 2^-400
and 2^400 (so zoom != 0, width > 0, rightplane != leftplane), `getResPMX` and
`getResMPX` return finite doubles whose product differs from 1 by at most
2^-52 + 2^-106; likewise for `getResPMY` and `getResMPY` with the screen height
and topplane - bottomplane. -/
theorem getResPM_mul_getResMP_rounded (g : CGraphics) :
    (InBand 400 (g.m_fCamZoom * (g.m_unWidthScr : ℚ)) →
        InBand 400 (g.m_ViewPort.rightplane - g.m_ViewPort.leftplane) →
        ∃ pm mp : ℚ, g.getResPMX64 = some pm ∧ g.getResMPX64 = some mp ∧
          |pm * mp - 1| ≤ pow2 (-52) + pow2 (-106)) ∧
      (InBand 400 (g.m_fCamZoom * (g.m_unHeightScr : ℚ)) →
        InBand 400 (g.m_ViewPort.topplane - g.m_ViewPort.bottomplane) →
        ∃ pm mp : ℚ, g.getResPMY64 = some pm ∧ g.getResMPY64 = some mp ∧
          |pm * mp - 1| ≤ pow2 (-52) + pow2 (-106)) :=
  ⟨fun hPels hSpan => reciprocal_rounded _ _ hPels hSpan,
    fun hPels hSpan => reciprocal_rounded _ _ hPels hSpan⟩

/-- Witness of the amended C2 in the state of the counterexample: default
viewport, screen of 800 by 600 pixels, zoom 0.09. -/
theorem getResPM_mul_getResMP_rounded_witness :
    (InBand 400 ((sampleGraphics.withZoom zoom009).m_fCamZoom *
          ((sampleGraphics.withZoom zoom009).m_unWidthScr : ℚ)) ∧
        InBand 400 ((sampleGraphics.withZoom zoom009).m_ViewPort.rightplane -
          (sampleGraphics.withZoom zoom009).m_ViewPort.leftplane)) ∧
      ∃ pm mp : ℚ, (sampleGraphics.withZoom zoom009).getResPMX64 = some pm ∧
        (sampleGraphics.withZoom zoom009).getResMPX64 = some mp ∧
        |pm * mp - 1| ≤ pow2 (-52) + pow2 (-106) :=
  have hPels : InBand 400 ((sampleGraphics.withZoom zoom009).m_fCamZoom *
      ((sampleGraphics.withZoom zoom009).m_unWidthScr : ℚ)) := by decide!
  have hSpan : InBand 400 ((sampleGraphics.withZoom zoom009).m_ViewPort.rightplane -
      (sampleGraphics.withZoom zoom009).m_ViewPort.leftplane) := by decide!
  ⟨⟨hPels, hSpan⟩, (getResPM_mul_getResMP_rounded (sampleGraphics.withZoom zoom009)).1 hPels hSpan⟩

/-- Error of a product of two relative perturbations. -/
theorem abs_two_perturbations (d e : ℚ) (hd : |d| ≤ unitRoundoff) (he : |e| ≤ unitRoundoff) :
    |(1 + d) * (1 + e) - 1| ≤ pow2 (-52) + pow2 (-106) := by
  have hU := unitRoundoff_pos
  have hSplit : (1 + d) * (1 + e) - 1 = d + e + d * e := by ring
  rw [hSplit, ← pow2_bound_eq]
  calc |d + e + d * e| ≤ |d + e| + |d * e| := abs_add _ _
    _ ≤ |d| + |e| + |d| * |e| := by
        rw [abs_mul]
        exact add_le_add_right (abs_add d e) _
    _ ≤ unitRoundoff + unitRoundoff + unitRoundoff * unitRoundoff :=
        add_le_add (add_le_add hd he) (mul_le_mul hd he (abs_nonneg e) hU.le)
    _ = 2 * unitRoundoff + unitRoundoff ^ 2 := by ring

/-- A rounded product divided by a double: the result is the exact quotient up
to two rounding errors. -/
theorem scaled_rounded (p q : ℚ) (hP : InBand 410 p) (hQ : InBand 10 q) (hExact : rnd q = q) :
    ∃ v : ℚ, ((fround p).bind fun a => (fround q).bind fun b => fdiv64 a b) = some v ∧
      |v - p / q| ≤ (pow2 (-52) + pow2 (-106)) * |p / q| := by
  obtain ⟨hValue, _, _, d, hd, hRnd⟩ :=
    rounded_quotient p q 410 10 hP hQ (by norm_num) (by norm_num) (by norm_num)
  obtain ⟨_, _, e, he, hRndP⟩ := inBand_rnd hP (by norm_num)
  refine ⟨_, hValue, ?_⟩
  have hDiff : rnd (rnd p / rnd q) - p / q = p / q * ((1 + e) * (1 + d) - 1) := by
    rw [hRnd, hExact, hRndP]
    ring
  rw [hDiff, abs_mul, mul_comm]
  exact mul_le_mul_of_nonneg_right (abs_two_perturbations e d he hd) (abs_nonneg _)

theorem inBand_mul_const {z : ℚ} (hZ : InBand 400 z) (c : ℚ) (hC : InBand 10 c) :
    InBand 410 (z * c) := inBand_mul hZ hC

/-- C25, counterexample: in the state with the default viewport, the default
screen size 800 x 600 and zoom 0.007 (a double, z > 0), `getResPMX` returns the
double 0.014000000000000002 while `getResPMY` returns the double 0.014, which is
z * GRAPHICS_PX_PER_METER: the two resolutions differ, and `getResPMX` is not
2z. -/
theorem default_viewport_not_isotropic :
    (IsDouble zoom007 ∧ 0 < zoom007 ∧ (sampleGraphics.withZoom zoom007).m_ViewPort = {} ∧
        (sampleGraphics.withZoom zoom007).m_unWidthScr = 800 ∧
        (sampleGraphics.withZoom zoom007).m_unHeightScr = 600) ∧
      (sampleGraphics.withZoom zoom007).getResPMX64 =
        some (4035225266123965 / 288230376151711744) ∧
      (sampleGraphics.withZoom zoom007).getResPMY64 =
        some (8070450532247929 / 576460752303423488) ∧
      zoom007 * GRAPHICS_PX_PER_METER = 8070450532247929 / 576460752303423488 ∧
      (sampleGraphics.withZoom zoom007).getResPMX64 ≠
        (sampleGraphics.withZoom zoom007).getResPMY64 ∧
      (sampleGraphics.withZoom zoom007).getResPMX64 ≠ some (zoom007 * GRAPHICS_PX_PER_METER) := by
  decide!

/-- C25, amended: in every state with the default viewport and the default
screen size 800 x 600, for every zoom z > 0 with 2^-400 <= z <= 2^400,
`getResPMX` and `getResPMY` return finite doubles, each of which differs from
z * GRAPHICS_PX_PER_METER = 2z by at most (2^-52 + 2^-106) * 2z; so they differ
from one another by at most twice that. -/
theorem default_viewport_isotropic_rounded (g : CGraphics) (fZoom : ℚ)
    (hView : g.m_ViewPort = {}) (hW : g.m_unWidthScr = GRAPHICS_WIDTH_DEFAULT)
    (hH : g.m_unHeightScr = GRAPHICS_HEIGHT_DEFAULT) (hZoom : 0 < fZoom)
    (hBand : InBand 400 fZoom) :
    fZoom * GRAPHICS_PX_PER_METER = 2 * fZoom ∧
      ∃ pmx pmy : ℚ, (g.withZoom fZoom).getResPMX64 = some pmx ∧
        (g.withZoom fZoom).getResPMY64 = some pmy ∧
        |pmx - fZoom * GRAPHICS_PX_PER_METER| ≤
          (pow2 (-52) + pow2 (-106)) * (fZoom * GRAPHICS_PX_PER_METER) ∧
        |pmy - fZoom * GRAPHICS_PX_PER_METER| ≤
          (pow2 (-52) + pow2 (-106)) * (fZoom * GRAPHICS_PX_PER_METER) ∧
        |pmx - pmy| ≤ 2 * ((pow2 (-52) + pow2 (-106)) * (fZoom * GRAPHICS_PX_PER_METER)) := by
  have hPpm : fZoom * GRAPHICS_PX_PER_METER = 2 * fZoom := by
    rw [GRAPHICS_PX_PER_METER]; ring
  have hSpanX : (g.withZoom fZoom).m_ViewPort.rightplane -
      (g.withZoom fZoom).m_ViewPort.leftplane = 400 := by
    show g.m_ViewPort.rightplane - g.m_ViewPort.leftplane = 400
    rw [hView]
    norm_num [GRAPHICS_RIGHT_DEFAULT, GRAPHICS_LEFT_DEFAULT, GRAPHICS_WIDTH_DEFAULT,
      GRAPHICS_PX_PER_METER]
  have hSpanY : (g.withZoom fZoom).m_ViewPort.topplane -
      (g.withZoom fZoom).m_ViewPort.bottomplane = 300 := by
    show g.m_ViewPort.topplane - g.m_ViewPort.bottomplane = 300
    rw [hView]
    norm_num [GRAPHICS_TOP_DEFAULT, GRAPHICS_BOTTOM_DEFAULT, GRAPHICS_HEIGHT_DEFAULT,
      GRAPHICS_PX_PER_METER]
  have hWq : ((g.withZoom fZoom).m_unWidthScr : ℚ) = 800 := by
    show (g.m_unWidthScr : ℚ) = 800
    rw [hW]; norm_num [GRAPHICS_WIDTH_DEFAULT]
  have hHq : ((g.withZoom fZoom).m_unHeightScr : ℚ) = 600 := by
    show (g.m_unHeightScr : ℚ) = 600
    rw [hH]; norm_num [GRAPHICS_HEIGHT_DEFAULT]
  obtain ⟨pmx, hPmx, hErrX⟩ := scaled_rounded (fZoom * 800) 400
    (inBand_mul_const hBand 800 (by decide!)) (by decide!) (by decide!)
  obtain ⟨pmy, hPmy, hErrY⟩ := scaled_rounded (fZoom * 600) 300
    (inBand_mul_const hBand 600 (by decide!)) (by decide!) (by decide!)
  have hTwoX : fZoom * 800 / 400 = 2 * fZoom := by ring
  have hTwoY : fZoom * 600 / 300 = 2 * fZoom := by ring
  have hPos : 0 < 2 * fZoom := by linarith
  rw [hTwoX, abs_of_pos hPos] at hErrX
  rw [hTwoY, abs_of_pos hPos] at hErrY
  refine ⟨hPpm, pmx, pmy, ?_, ?_, ?_, ?_, ?_⟩
  · unfold CGraphics.getResPMX64 fmul64 fsub64
    rw [hSpanX, hWq]
    exact hPmx
  · unfold CGraphics.getResPMY64 fmul64 fsub64
    rw [hSpanY, hHq]
    exact hPmy
  · rw [hPpm]; exact hErrX
  · rw [hPpm]; exact hErrY
  · rw [hPpm]
    have hSplit : pmx - pmy = (pmx - 2 * fZoom) - (pmy - 2 * fZoom) := by ring
    rw [hSplit]
    calc |(pmx - 2 * fZoom) - (pmy - 2 * fZoom)|
        ≤ |pmx - 2 * fZoom| + |pmy - 2 * fZoom| := abs_sub _ _
      _ ≤ (pow2 (-52) + pow2 (-106)) * (2 * fZoom) + (pow2 (-52) + pow2 (-106)) * (2 * fZoom) :=
          add_le_add hErrX hErrY
      _ = 2 * ((pow2 (-52) + pow2 (-106)) * (2 * fZoom)) := by ring

/-- Witness of the amended C25 in the sample state with zoom 0.007. -/
theorem default_viewport_isotropic_rounded_witness :
    (sampleGraphics.m_ViewPort = {} ∧ sampleGraphics.m_unWidthScr = GRAPHICS_WIDTH_DEFAULT ∧
        sampleGraphics.m_unHeightScr = GRAPHICS_HEIGHT_DEFAULT ∧ 0 < zoom007 ∧
        InBand 400 zoom007) ∧
      ∃ pmx pmy : ℚ, (sampleGraphics.withZoom zoom007).getResPMX64 = some pmx ∧
        (sampleGraphics.withZoom zoom007).getResPMY64 = some pmy ∧
        |pmx - zoom007 * GRAPHICS_PX_PER_METER| ≤
          (pow2 (-52) + pow2 (-106)) * (zoom007 * GRAPHICS_PX_PER_METER) ∧
        |pmy - zoom007 * GRAPHICS_PX_PER_METER| ≤
          (pow2 (-52) + pow2 (-106)) * (zoom007 * GRAPHICS_PX_PER_METER) ∧
        |pmx - pmy| ≤
          2 * ((pow2 (-52) + pow2 (-106)) * (zoom007 * GRAPHICS_PX_PER_METER)) :=
  have hZoom : 0 < zoom007 := by decide!
  have hBand : InBand 400 zoom007 := by decide!
  ⟨⟨rfl, rfl, rfl, hZoom, hBand⟩,
    (default_viewport_isotropic_rounded sampleGraphics zoom007 rfl rfl rfl hZoom hBand).2⟩

theorem inBand_natCast {n : Nat} (hPos : 0 < n) (hMax : n < 65536) : InBand 16 (n : ℚ) := by
  have hLow : (1 : ℚ) ≤ (n : ℚ) := by exact_mod_cast hPos
  have hHigh : (n : ℚ) ≤ 65536 := by exact_mod_cast hMax.le
  have hNonneg : (0 : ℚ) ≤ (n : ℚ) := by linarith
  have hSmall : pow2 (-16) ≤ 1 := by decide!
  have hBig : pow2 16 = 65536 := by decide!
  constructor
  · rw [abs_of_nonneg hNonneg]
    exact hSmall.trans hLow
  · rw [abs_of_nonneg hNonneg, hBig]
    exact hHigh

/-- A positive value within a band stays positive when rounded. -/
theorem rnd_pos_of_inBand {k : Int} {x : ℚ} (hx : 0 < x) (hBand : InBand k x) (hLe : k ≤ 1022) :
    0 < rnd x := by
  obtain ⟨_, _, d, hd, hRnd⟩ := inBand_rnd hBand hLe
  rw [hRnd]
  exact mul_pos hx (one_add_pos_of_abs_le hd).2.2

/-- The value of a quotient of two rounded operands within bands. -/
theorem rounded_quotient_value (p q : ℚ) (hP : InBand 420 p) (hQ : InBand 420 q) :
    ((fround p).bind fun a => (fround q).bind fun b => fdiv64 a b) =
        some (rnd (rnd p / rnd q)) ∧
      ∃ c : ℚ, |c| ≤ unitRoundoff ∧ rnd (rnd p / rnd q) = rnd p / rnd q * (1 + c) := by
  obtain ⟨hValue, _, _, c, hc, hRnd⟩ :=
    rounded_quotient p q 420 420 hP hQ (by norm_num) (by norm_num) (by norm_num)
  exact ⟨hValue, c, hc, hRnd⟩

theorem three_factors_bounds (f1 f2 f3 : ℚ)
    (h1 : 1 - unitRoundoff ≤ f1 ∧ f1 ≤ 1 + unitRoundoff)
    (h2 : 1 - unitRoundoff ≤ f2 ∧ f2 ≤ 1 + unitRoundoff)
    (h3 : 1 - unitRoundoff ≤ f3 ∧ f3 ≤ 1 + unitRoundoff) :
    (1 - unitRoundoff) ^ 3 ≤ f1 * f2 * f3 ∧ f1 * f2 * f3 ≤ (1 + unitRoundoff) ^ 3 := by
  have hLow : 0 < 1 - unitRoundoff := by linarith [unitRoundoff_lt_one]
  have hF1 : 0 ≤ f1 := hLow.le.trans h1.1
  have hF2 : 0 ≤ f2 := hLow.le.trans h2.1
  have hF3 : 0 ≤ f3 := hLow.le.trans h3.1
  constructor
  · calc (1 - unitRoundoff) ^ 3
        = (1 - unitRoundoff) * (1 - unitRoundoff) * (1 - unitRoundoff) := by ring
      _ ≤ f1 * f2 * f3 :=
          mul_le_mul (mul_le_mul h1.1 h2.1 hLow.le hF1) h3.1 hLow.le (mul_nonneg hF1 hF2)
  · have hHigh : 0 ≤ 1 + unitRoundoff := by linarith [unitRoundoff_pos]
    calc f1 * f2 * f3
        ≤ (1 + unitRoundoff) * (1 + unitRoundoff) * (1 + unitRoundoff) :=
          mul_le_mul (mul_le_mul h1.2 h2.2 hF2 hHigh) h3.2 hF3 (mul_nonneg hHigh hHigh)
      _ = (1 + unitRoundoff) ^ 3 := by ring

/-- A quotient of two products of three relative perturbations each differs from
1 by at most 2^-50. -/
theorem abs_ratio_perturbations (n1 n2 n3 m1 m2 m3 : ℚ)
    (hn1 : 1 - unitRoundoff ≤ n1 ∧ n1 ≤ 1 + unitRoundoff)
    (hn2 : 1 - unitRoundoff ≤ n2 ∧ n2 ≤ 1 + unitRoundoff)
    (hn3 : 1 - unitRoundoff ≤ n3 ∧ n3 ≤ 1 + unitRoundoff)
    (hm1 : 1 - unitRoundoff ≤ m1 ∧ m1 ≤ 1 + unitRoundoff)
    (hm2 : 1 - unitRoundoff ≤ m2 ∧ m2 ≤ 1 + unitRoundoff)
    (hm3 : 1 - unitRoundoff ≤ m3 ∧ m3 ≤ 1 + unitRoundoff) :
    |n1 * n2 * n3 / (m1 * m2 * m3) - 1| ≤ pow2 (-50) := by
  obtain ⟨hNLow, hNHigh⟩ := three_factors_bounds n1 n2 n3 hn1 hn2 hn3
  obtain ⟨hMLow, hMHigh⟩ := three_factors_bounds m1 m2 m3 hm1 hm2 hm3
  have hCubeLow : (0 : ℚ) < (1 - unitRoundoff) ^ 3 := by
    have hPos : 0 < 1 - unitRoundoff := by linarith [unitRoundoff_lt_one]
    positivity
  have hMPos : 0 < m1 * m2 * m3 := lt_of_lt_of_le hCubeLow hMLow
  have hUp : (1 + unitRoundoff) ^ 3 ≤ (1 + pow2 (-50)) * (1 - unitRoundoff) ^ 3 := by decide!
  have hDown : (1 - pow2 (-50)) * (1 + unitRoundoff) ^ 3 ≤ (1 - unitRoundoff) ^ 3 := by decide!
  have hEps : (0 : ℚ) ≤ 1 - pow2 (-50) := by decide!
  have hEps2 : (0 : ℚ) ≤ 1 + pow2 (-50) := by decide!
  rw [abs_le]
  constructor
  · rw [le_sub_iff_add_le, le_div_iff₀ hMPos]
    calc (-pow2 (-50) + 1) * (m1 * m2 * m3)
        = (1 - pow2 (-50)) * (m1 * m2 * m3) := by ring
      _ ≤ (1 - pow2 (-50)) * (1 + unitRoundoff) ^ 3 := mul_le_mul_of_nonneg_left hMHigh hEps
      _ ≤ (1 - unitRoundoff) ^ 3 := hDown
      _ ≤ n1 * n2 * n3 := hNLow
  · rw [sub_le_iff_le_add, div_le_iff₀ hMPos]
    calc n1 * n2 * n3 ≤ (1 + unitRoundoff) ^ 3 := hNHigh
      _ ≤ (1 + pow2 (-50)) * (1 - unitRoundoff) ^ 3 := hUp
      _ ≤ (1 + pow2 (-50)) * (m1 * m2 * m3) := mul_le_mul_of_nonneg_left hMLow hEps2
      _ = (pow2 (-50) + 1) * (m1 * m2 * m3) := by ring

theorem perturbation_interval {d : ℚ} (hd : |d| ≤ unitRoundoff) :
    1 - unitRoundoff ≤ 1 + d ∧ 1 + d ≤ 1 + unitRoundoff :=
  ⟨(one_add_pos_of_abs_le hd).1, (one_add_pos_of_abs_le hd).2.1⟩

theorem one_interval : 1 - unitRoundoff ≤ (1 : ℚ) ∧ (1 : ℚ) ≤ 1 + unitRoundoff :=
  ⟨by linarith [unitRoundoff_pos], by linarith [unitRoundoff_pos]⟩

theorem scaling_identity_mp (fA fZoom fSize fFactor e b bK c cK : ℚ) (hZoom : fZoom ≠ 0)
    (hSize : fSize ≠ 0) (hFactor : fFactor ≠ 0) (he : 1 + e ≠ 0) (hb : 1 + b ≠ 0)
    (hbK : 1 + bK ≠ 0) (hc : 1 + c ≠ 0) :
    fFactor * (fA / (fZoom * fFactor * (1 + e) * fSize * (1 + bK)) * (1 + cK)) -
        fA / (fZoom * fSize * (1 + b)) * (1 + c) =
      fA / (fZoom * fSize * (1 + b)) * (1 + c) *
        ((1 + cK) * (1 + b) * 1 / ((1 + e) * (1 + bK) * (1 + c)) - 1) := by
  field_simp
  ring

theorem scaling_identity_pm (fA fZoom fSize fFactor e b bK c cK : ℚ) (hA : fA ≠ 0)
    (hb : 1 + b ≠ 0) (hc : 1 + c ≠ 0) :
    fZoom * fFactor * (1 + e) * fSize * (1 + bK) / fA * (1 + cK) -
        fFactor * (fZoom * fSize * (1 + b) / fA * (1 + c)) =
      fFactor * (fZoom * fSize * (1 + b) / fA * (1 + c)) *
        ((1 + e) * (1 + bK) * (1 + cK) / ((1 + b) * (1 + c) * 1) - 1) := by
  field_simp
  ring

/-- Scaling of the two quotients when the zoom z is replaced by the double
nearest to z * k: metres per pixel are divided by k and pixels per metre are
multiplied by k, each up to a relative error of 2^-50. -/
theorem zoom_scaling (fSpan fSize fZoom fFactor : ℚ) (hSpan : 0 < fSpan)
    (hSpanBand : InBand 400 fSpan) (hSize : 0 < fSize) (hSizeBand : InBand 16 fSize)
    (hZoom : 0 < fZoom) (hZoomBand : InBand 400 fZoom) (hFactor : 0 < fFactor)
    (hScaled : InBand 400 (fZoom * fFactor)) :
    ∃ mp mpK pm pmK : ℚ,
      ((fround fSpan).bind fun a => (fround (fZoom * fSize)).bind fun b => fdiv64 a b) =
          some mp ∧
        ((fround fSpan).bind fun a =>
          (fround (rnd (fZoom * fFactor) * fSize)).bind fun b => fdiv64 a b) = some mpK ∧
        ((fround (fZoom * fSize)).bind fun a => (fround fSpan).bind fun b => fdiv64 a b) =
          some pm ∧
        ((fround (rnd (fZoom * fFactor) * fSize)).bind fun a =>
          (fround fSpan).bind fun b => fdiv64 a b) = some pmK ∧
        0 < mp ∧ 0 < pm ∧
        |fFactor * mpK - mp| ≤ pow2 (-50) * mp ∧
        |pmK - fFactor * pm| ≤ pow2 (-50) * (fFactor * pm) := by
  -- the operands and their roundings
  have hPels : InBand 416 (fZoom * fSize) := inBand_mul hZoomBand hSizeBand
  obtain ⟨_, hNewBand, e, he, hNew⟩ := inBand_rnd hScaled (by norm_num)
  have hPelsK : InBand 417 (rnd (fZoom * fFactor) * fSize) := inBand_mul hNewBand hSizeBand
  obtain ⟨_, hABand, _, _, _⟩ := inBand_rnd hSpanBand (by norm_num)
  obtain ⟨_, _, b, hb, hP⟩ := inBand_rnd hPels (by norm_num)
  obtain ⟨_, _, bK, hbK, hPK⟩ := inBand_rnd hPelsK (by norm_num)
  have hA : 0 < rnd fSpan := rnd_pos_of_inBand hSpan hSpanBand (by norm_num)
  -- the four quotients
  obtain ⟨hMp, c, hc, hMpV⟩ := rounded_quotient_value fSpan (fZoom * fSize)
    (inBand_mono hSpanBand (by norm_num)) (inBand_mono hPels (by norm_num))
  obtain ⟨hMpK, cK, hcK, hMpKV⟩ := rounded_quotient_value fSpan (rnd (fZoom * fFactor) * fSize)
    (inBand_mono hSpanBand (by norm_num)) (inBand_mono hPelsK (by norm_num))
  obtain ⟨hPm, c2, hc2, hPmV⟩ := rounded_quotient_value (fZoom * fSize) fSpan
    (inBand_mono hPels (by norm_num)) (inBand_mono hSpanBand (by norm_num))
  obtain ⟨hPmK, c2K, hc2K, hPmKV⟩ := rounded_quotient_value (rnd (fZoom * fFactor) * fSize) fSpan
    (inBand_mono hPelsK (by norm_num)) (inBand_mono hSpanBand (by norm_num))
  -- positivity of the perturbation factors
  have hbPos := (one_add_pos_of_abs_le hb).2.2
  have hbKPos := (one_add_pos_of_abs_le hbK).2.2
  have hePos := (one_add_pos_of_abs_le he).2.2
  have hcPos := (one_add_pos_of_abs_le hc).2.2
  have hc2Pos := (one_add_pos_of_abs_le hc2).2.2
  have hMpPos : 0 < rnd (rnd fSpan / rnd (fZoom * fSize)) := by
    rw [hMpV, hP]
    positivity
  have hPmPos : 0 < rnd (rnd (fZoom * fSize) / rnd fSpan) := by
    rw [hPmV, hP]
    positivity
  refine ⟨_, _, _, _, hMp, hMpK, hPm, hPmK, hMpPos, hPmPos, ?_, ?_⟩
  · have hV : rnd (rnd fSpan / rnd (fZoom * fSize)) =
        rnd fSpan / (fZoom * fSize * (1 + b)) * (1 + c) := by rw [hMpV, hP]
    have hVK : rnd (rnd fSpan / rnd (rnd (fZoom * fFactor) * fSize)) =
        rnd fSpan / (fZoom * fFactor * (1 + e) * fSize * (1 + bK)) * (1 + cK) := by
      rw [hMpKV, hPK, hNew]
    have hRatio : fFactor * rnd (rnd fSpan / rnd (rnd (fZoom * fFactor) * fSize)) -
          rnd (rnd fSpan / rnd (fZoom * fSize)) =
        rnd (rnd fSpan / rnd (fZoom * fSize)) *
          ((1 + cK) * (1 + b) * 1 / ((1 + e) * (1 + bK) * (1 + c)) - 1) := by
      rw [hVK, hV]
      exact scaling_identity_mp _ _ _ _ _ _ _ _ _ hZoom.ne.symm hSize.ne.symm hFactor.ne.symm
        hePos.ne.symm hbPos.ne.symm hbKPos.ne.symm hcPos.ne.symm
    rw [hRatio, abs_mul, abs_of_pos hMpPos, mul_comm]
    exact mul_le_mul_of_nonneg_right
      (abs_ratio_perturbations _ _ _ _ _ _ (perturbation_interval hcK) (perturbation_interval hb)
        one_interval (perturbation_interval he) (perturbation_interval hbK)
        (perturbation_interval hc)) hMpPos.le
  · have hV : rnd (rnd (fZoom * fSize) / rnd fSpan) =
        fZoom * fSize * (1 + b) / rnd fSpan * (1 + c2) := by rw [hPmV, hP]
    have hVK : rnd (rnd (rnd (fZoom * fFactor) * fSize) / rnd fSpan) =
        fZoom * fFactor * (1 + e) * fSize * (1 + bK) / rnd fSpan * (1 + c2K) := by
      rw [hPmKV, hPK, hNew]
    have hRatio : rnd (rnd (rnd (fZoom * fFactor) * fSize) / rnd fSpan) -
          fFactor * rnd (rnd (fZoom * fSize) / rnd fSpan) =
        fFactor * rnd (rnd (fZoom * fSize) / rnd fSpan) *
          ((1 + e) * (1 + bK) * (1 + c2K) / ((1 + b) * (1 + c2) * 1) - 1) := by
      rw [hVK, hV]
      exact scaling_identity_pm _ _ _ _ _ _ _ _ _ hA.ne.symm hbPos.ne.symm hc2Pos.ne.symm
    have hPos : 0 < fFactor * rnd (rnd (fZoom * fSize) / rnd fSpan) := mul_pos hFactor hPmPos
    rw [hRatio, abs_mul, abs_of_pos hPos, mul_comm]
    exact mul_le_mul_of_nonneg_right
      (abs_ratio_perturbations _ _ _ _ _ _ (perturbation_interval he) (perturbation_interval hbK)
        (perturbation_interval hc2K) (perturbation_interval hb) (perturbation_interval hc2)
        one_interval) hPos.le

/-- Monotonicity of the two quotients in the zoom: metres per pixel do not
increase and pixels per metre do not decrease when the zoom grows. -/
theorem zoom_monotone (fSpan fSize fZoom1 fZoom2 : ℚ) (hSpan : 0 < fSpan)
    (hSpanBand : InBand 400 fSpan) (hSize : 0 < fSize) (hSizeBand : InBand 16 fSize)
    (hZoom1 : 0 < fZoom1) (hLe : fZoom1 ≤ fZoom2) (hBand1 : InBand 400 fZoom1)
    (hBand2 : InBand 400 fZoom2) :
    ∃ mp1 mp2 pm1 pm2 : ℚ,
      ((fround fSpan).bind fun a => (fround (fZoom1 * fSize)).bind fun b => fdiv64 a b) =
          some mp1 ∧
        ((fround fSpan).bind fun a => (fround (fZoom2 * fSize)).bind fun b => fdiv64 a b) =
          some mp2 ∧
        ((fround (fZoom1 * fSize)).bind fun a => (fround fSpan).bind fun b => fdiv64 a b) =
          some pm1 ∧
        ((fround (fZoom2 * fSize)).bind fun a => (fround fSpan).bind fun b => fdiv64 a b) =
          some pm2 ∧
        mp2 ≤ mp1 ∧ pm1 ≤ pm2 := by
  have hZoom2 : 0 < fZoom2 := lt_of_lt_of_le hZoom1 hLe
  have hPels1 : InBand 416 (fZoom1 * fSize) := inBand_mul hBand1 hSizeBand
  have hPels2 : InBand 416 (fZoom2 * fSize) := inBand_mul hBand2 hSizeBand
  have hPos1 : 0 < fZoom1 * fSize := mul_pos hZoom1 hSize
  have hPos2 : 0 < fZoom2 * fSize := mul_pos hZoom2 hSize
  have hA : 0 < rnd fSpan := rnd_pos_of_inBand hSpan hSpanBand (by norm_num)
  have hP1 : 0 < rnd (fZoom1 * fSize) := rnd_pos_of_inBand hPos1 hPels1 (by norm_num)
  have hP2 : 0 < rnd (fZoom2 * fSize) := rnd_pos_of_inBand hPos2 hPels2 (by norm_num)
  have hPLe : rnd (fZoom1 * fSize) ≤ rnd (fZoom2 * fSize) :=
    rnd_mono_pos hPos1 (mul_le_mul_of_nonneg_right hLe hSize.le)
  obtain ⟨hMp1, _⟩ := rounded_quotient_value fSpan (fZoom1 * fSize)
    (inBand_mono hSpanBand (by norm_num)) (inBand_mono hPels1 (by norm_num))
  obtain ⟨hMp2, _⟩ := rounded_quotient_value fSpan (fZoom2 * fSize)
    (inBand_mono hSpanBand (by norm_num)) (inBand_mono hPels2 (by norm_num))
  obtain ⟨hPm1, _⟩ := rounded_quotient_value (fZoom1 * fSize) fSpan
    (inBand_mono hPels1 (by norm_num)) (inBand_mono hSpanBand (by norm_num))
  obtain ⟨hPm2, _⟩ := rounded_quotient_value (fZoom2 * fSize) fSpan
    (inBand_mono hPels2 (by norm_num)) (inBand_mono hSpanBand (by norm_num))
  refine ⟨_, _, _, _, hMp1, hMp2, hPm1, hPm2, ?_, ?_⟩
  · exact rnd_mono_pos (div_pos hA hP2) (div_le_div_of_nonneg_left hA.le hP1 hPLe)
  · exact rnd_mono_pos (div_pos hP1 hA) (div_le_div_of_nonneg_right hPLe hA.le)

/-- C26, counterexample: in the state with the default viewport and the screen
size 800 x 600, (a) for the zoom 0.03 and the factor 3, whose product in
`double` is the zoom 0.09, `getResMPX` returns 16.666666666666668 at zoom 0.03
and 5.555555555555555 at zoom 0.09, which is not a third of the former, neither
exactly nor divided in `double` (5.555555555555556); (b) the zoom 0.007 and the
next larger double give the same `getResMPX` and the same `getResPMX`, so
neither is strictly monotone in the zoom. -/
theorem resolution_scaling_not_exact :
    ((sampleGraphics.m_ViewPort.leftplane < sampleGraphics.m_ViewPort.rightplane ∧
          sampleGraphics.m_ViewPort.bottomplane < sampleGraphics.m_ViewPort.topplane ∧
          0 < sampleGraphics.m_unWidthScr ∧ 0 < sampleGraphics.m_unHeightScr) ∧
        (IsDouble zoom003 ∧ 0 < zoom003 ∧ fmul64 zoom003 3 = some zoom009) ∧
        (sampleGraphics.withZoom zoom003).getResMPX64 =
          some (4691249611844267 / 281474976710656) ∧
        (sampleGraphics.withZoom zoom009).getResMPX64 =
          some (3127499741229511 / 562949953421312) ∧
        (4691249611844267 / 281474976710656 : ℚ) / 3 ≠ 3127499741229511 / 562949953421312 ∧
        fdiv64 (4691249611844267 / 281474976710656) 3 =
          some (6254999482459023 / 1125899906842624) ∧
        fdiv64 (4691249611844267 / 281474976710656) 3 ≠
          (sampleGraphics.withZoom zoom009).getResMPX64) ∧
      ((IsDouble zoom007 ∧ IsDouble zoom007next ∧ 0 < zoom007 ∧ zoom007 < zoom007next) ∧
        (sampleGraphics.withZoom zoom007).getResMPX64 =
          some (2513169434916571 / 35184372088832) ∧
        (sampleGraphics.withZoom zoom007next).getResMPX64 =
          some (2513169434916571 / 35184372088832) ∧
        (sampleGraphics.withZoom zoom007).getResPMX64 =
          some (4035225266123965 / 288230376151711744) ∧
        (sampleGraphics.withZoom zoom007next).getResPMX64 =
          some (4035225266123965 / 288230376151711744)) := by
  decide!

/-- C26, amended: for every viewport with right > left and top > bottom whose
width and height have a magnitude between 2^-400 and 2^400, and every positive
screen size (an `unsigned short`): for every zoom z > 0 and factor k > 0 with z
and z * k between 2^-400 and 2^400, replacing the zoom z by the double nearest
to z * k divides `getResMPX` and `getResMPY` by k and multiplies `getResPMX` and
`getResPMY` by k, each up to a relative error of 2^-50; and for zooms
0 < z1 <= z2 in that range metres per pixel at z2 are at most those at z1 and
pixels per metre at z2 at least those at z1 (monotone, not strictly). -/
theorem resolution_scales_with_zoom_rounded (g : CGraphics) (hView : g.m_ViewPort.Valid)
    (hSpanX : InBand 400 (g.m_ViewPort.rightplane - g.m_ViewPort.leftplane))
    (hSpanY : InBand 400 (g.m_ViewPort.topplane - g.m_ViewPort.bottomplane))
    (hW : 0 < g.m_unWidthScr) (hWMax : g.m_unWidthScr < 65536)
    (hH : 0 < g.m_unHeightScr) (hHMax : g.m_unHeightScr < 65536) :
    (∀ fZoom fFactor : ℚ, 0 < fZoom → 0 < fFactor → InBand 400 fZoom →
        InBand 400 (fZoom * fFactor) →
        ∃ mpx mpy pmx pmy mpxK mpyK pmxK pmyK : ℚ,
          ((g.withZoom fZoom).getResMPX64 = some mpx ∧
            (g.withZoom fZoom).getResMPY64 = some mpy ∧
            (g.withZoom fZoom).getResPMX64 = some pmx ∧
            (g.withZoom fZoom).getResPMY64 = some pmy) ∧
          ((g.withZoom (rnd (fZoom * fFactor))).getResMPX64 = some mpxK ∧
            (g.withZoom (rnd (fZoom * fFactor))).getResMPY64 = some mpyK ∧
            (g.withZoom (rnd (fZoom * fFactor))).getResPMX64 = some pmxK ∧
            (g.withZoom (rnd (fZoom * fFactor))).getResPMY64 = some pmyK) ∧
          (0 < mpx ∧ 0 < mpy ∧ 0 < pmx ∧ 0 < pmy) ∧
          (|fFactor * mpxK - mpx| ≤ pow2 (-50) * mpx ∧
            |fFactor * mpyK - mpy| ≤ pow2 (-50) * mpy ∧
            |pmxK - fFactor * pmx| ≤ pow2 (-50) * (fFactor * pmx) ∧
            |pmyK - fFactor * pmy| ≤ pow2 (-50) * (fFactor * pmy))) ∧
      (∀ fZoom1 fZoom2 : ℚ, 0 < fZoom1 → fZoom1 ≤ fZoom2 → InBand 400 fZoom1 →
        InBand 400 fZoom2 →
        ∃ mpx1 mpy1 pmx1 pmy1 mpx2 mpy2 pmx2 pmy2 : ℚ,
          ((g.withZoom fZoom1).getResMPX64 = some mpx1 ∧
            (g.withZoom fZoom1).getResMPY64 = some mpy1 ∧
            (g.withZoom fZoom1).getResPMX64 = some pmx1 ∧
            (g.withZoom fZoom1).getResPMY64 = some pmy1) ∧
          ((g.withZoom fZoom2).getResMPX64 = some mpx2 ∧
            (g.withZoom fZoom2).getResMPY64 = some mpy2 ∧
            (g.withZoom fZoom2).getResPMX64 = some pmx2 ∧
            (g.withZoom fZoom2).getResPMY64 = some pmy2) ∧
          (mpx2 ≤ mpx1 ∧ mpy2 ≤ mpy1 ∧ pmx1 ≤ pmx2 ∧ pmy1 ≤ pmy2)) := by
  have hX : 0 < g.m_ViewPort.rightplane - g.m_ViewPort.leftplane := sub_pos.mpr hView.1
  have hY : 0 < g.m_ViewPort.topplane - g.m_ViewPort.bottomplane := sub_pos.mpr hView.2.1
  have hWq : (0 : ℚ) < (g.m_unWidthScr : ℚ) := by exact_mod_cast hW
  have hHq : (0 : ℚ) < (g.m_unHeightScr : ℚ) := by exact_mod_cast hH
  have hWBand := inBand_natCast hW hWMax
  have hHBand := inBand_natCast hH hHMax
  constructor
  · intro fZoom fFactor hZoom hFactor hBand hScaled
    obtain ⟨mpx, mpxK, pmx, pmxK, h1, h2, h3, h4, hMpx, hPmx, hE1, hE2⟩ :=
      zoom_scaling _ _ fZoom fFactor hX hSpanX hWq hWBand hZoom hBand hFactor hScaled
    obtain ⟨mpy, mpyK, pmy, pmyK, h5, h6, h7, h8, hMpy, hPmy, hE3, hE4⟩ :=
      zoom_scaling _ _ fZoom fFactor hY hSpanY hHq hHBand hZoom hBand hFactor hScaled
    exact ⟨mpx, mpy, pmx, pmy, mpxK, mpyK, pmxK, pmyK, ⟨h1, h5, h3, h7⟩, ⟨h2, h6, h4, h8⟩,
      ⟨hMpx, hMpy, hPmx, hPmy⟩, hE1, hE3, hE2, hE4⟩
  · intro fZoom1 fZoom2 hZoom1 hLe hBand1 hBand2
    obtain ⟨mpx1, mpx2, pmx1, pmx2, h1, h2, h3, h4, hM1, hP1⟩ :=
      zoom_monotone _ _ fZoom1 fZoom2 hX hSpanX hWq hWBand hZoom1 hLe hBand1 hBand2
    obtain ⟨mpy1, mpy2, pmy1, pmy2, h5, h6, h7, h8, hM2, hP2⟩ :=
      zoom_monotone _ _ fZoom1 fZoom2 hY hSpanY hHq hHBand hZoom1 hLe hBand1 hBand2
    exact ⟨mpx1, mpy1, pmx1, pmy1, mpx2, mpy2, pmx2, pmy2, ⟨h1, h5, h3, h7⟩,
      ⟨h2, h6, h4, h8⟩, hM1, hM2, hP1, hP2⟩

/-- Witness of the amended C26 in the sample state (default viewport, screen of
800 by 600 pixels): scaling of the zoom 0.03 by the factor 3, and monotonicity
between the zoom 0.007 and the next larger double. -/
theorem resolution_scales_with_zoom_rounded_witness :
    (sampleGraphics.m_ViewPort.Valid ∧
        InBand 400 (sampleGraphics.m_ViewPort.rightplane - sampleGraphics.m_ViewPort.leftplane) ∧
        InBand 400 (sampleGraphics.m_ViewPort.topplane - sampleGraphics.m_ViewPort.bottomplane) ∧
        (0 < sampleGraphics.m_unWidthScr ∧ sampleGraphics.m_unWidthScr < 65536) ∧
        (0 < sampleGraphics.m_unHeightScr ∧ sampleGraphics.m_unHeightScr < 65536)) ∧
      (0 < zoom003 ∧ InBand 400 zoom003 ∧ InBand 400 (zoom003 * 3) ∧
        rnd (zoom003 * 3) = zoom009) ∧
      (∃ mpx mpxK : ℚ, (sampleGraphics.withZoom zoom003).getResMPX64 = some mpx ∧
        (sampleGraphics.withZoom (rnd (zoom003 * 3))).getResMPX64 = some mpxK ∧
        |3 * mpxK - mpx| ≤ pow2 (-50) * mpx) ∧
      (0 < zoom007 ∧ zoom007 ≤ zoom007next ∧ InBand 400 zoom007 ∧ InBand 400 zoom007next) ∧
      (∃ mpx1 mpx2 pmx1 pmx2 : ℚ, (sampleGraphics.withZoom zoom007).getResMPX64 = some mpx1 ∧
        (sampleGraphics.withZoom zoom007next).getResMPX64 = some mpx2 ∧
        (sampleGraphics.withZoom zoom007).getResPMX64 = some pmx1 ∧
        (sampleGraphics.withZoom zoom007next).getResPMX64 = some pmx2 ∧
        mpx2 ≤ mpx1 ∧ pmx1 ≤ pmx2) :=
  have hView : sampleGraphics.m_ViewPort.Valid := ⟨by decide!, by decide!, by decide!⟩
  have hSpanX : InBand 400
      (sampleGraphics.m_ViewPort.rightplane - sampleGraphics.m_ViewPort.leftplane) := by decide!
  have hSpanY : InBand 400
      (sampleGraphics.m_ViewPort.topplane - sampleGraphics.m_ViewPort.bottomplane) := by decide!
  have hZoom : 0 < zoom003 := by decide!
  have hBand : InBand 400 zoom003 := by decide!
  have hScaled : InBand 400 (zoom003 * 3) := by decide!
  have hZoom1 : 0 < zoom007 := by decide!
  have hLe : zoom007 ≤ zoom007next := by decide!
  have hBand1 : InBand 400 zoom007 := by decide!
  have hBand2 : InBand 400 zoom007next := by decide!
  have hAll := resolution_scales_with_zoom_rounded sampleGraphics hView hSpanX hSpanY
    (by decide) (by decide) (by decide) (by decide)
  ⟨⟨hView, hSpanX, hSpanY, ⟨by decide, by decide⟩, ⟨by decide, by decide⟩⟩,
    ⟨hZoom, hBand, hScaled, by decide!⟩,
    (let ⟨mpx, _, _, _, mpxK, _, _, _, hAt, hAtK, _, hErr⟩ :=
      hAll.1 zoom003 3 hZoom (by norm_num) hBand hScaled
    ⟨mpx, mpxK, hAt.1, hAtK.1, hErr.1⟩),
    ⟨hZoom1, hLe, hBand1, hBand2⟩,
    (let ⟨mpx1, _, pmx1, _, mpx2, _, pmx2, _, hAt1, hAt2, hMono⟩ :=
      hAll.2 zoom007 zoom007next hZoom1 hLe hBand1 hBand2
    ⟨mpx1, mpx2, pmx1, pmx2, hAt1.1, hAt2.1, hAt1.2.2.1, hAt2.2.2.1, hMono.1, hMono.2.2.1⟩)⟩

end bfe
